import Mathlib

/-! Electronic Lead Screw: thread ratio, menu and display refresh

A shallow embedding of `include/Header.h`, `src/Thread.h`, `src/Menu.h`,
`src/Display.h` and of `setInterval` in `TeensyTimerInterrupt.hpp`.

Conventions of the embedding

* `int` is a Lean `Int`; where the source multiplies or adds two `int`s the
  result goes through `wrapInt32` (32-bit two's complement).
* `float` and `double` are exact rationals (`ℚ`): every statement about a
  floating value below is a statement over exact arithmetic.
* A C array subscript is `index`, which is `none` outside the array; a function
  that performs a subscript returns `Option`.
* Globals are the fields of `Globals`, with the initialisers of `Header.h`
  (a global without initialiser starts at zero).
* A peripheral is the list of what the program has sent to it, oldest first.
* `uint32_t` is a Lean `Nat`; a floating value converted to it loses its
  fraction and saturates at the ends of the range.
-/

namespace ELS

/-! ## Machine integers, conversions and array subscripts -/

/-- Two's-complement wrap of an integer into the range of a 32-bit `int`. -/
def wrapInt32 (x : Int) : Int := (x + 2147483648) % 4294967296 - 2147483648

/-- Conversion of a floating value to `int`: the fraction is dropped (rounding
toward zero); a value outside the `int` range saturates, as the conversion
instruction of the Cortex-M7 does. -/
def toInt (q : ℚ) : Int :=
  max (-2147483648) (min 2147483647 (Int.tdiv q.num q.den))

/-- The C subscript `a[i]`: `none` when `i` is not an index of `a`. -/
def index {α : Type} (a : List α) (i : Int) : Option α :=
  if 0 ≤ i then a[i.toNat]? else none

/-! ## Header.h: machine constants and lookup tables -/

def LeadScrew_TPI : Int := 10
def SpindleCPR : Int := 3416
def LeadSPR : Int := 800
def MaxLeadRPM : Int := 1500

def Direction_Array_Size : Int := 2
def Direction_Array : List String := ["Forward", "Reverse"]

def Mode_Array_Size : Int := 8
def Mode_Array : List String :=
  ["Feed", "Thread", "A-Thread", "A-Turn", "Manual Z", "Manual X", "Radius", "Chamfer"]

def Measure_Array_Size : Int := 2
def Measure_Array : List String := ["In", "mm"]

def TPI_Array_Size : Int := 38
def TPI_Array : List Int :=
  [1,2,4,5,6,7,8,9,10,11,12,13,14,16,18,19,20,22,24,26,27,28,30,32,34,36,38,40,42,44,46,48,50,
   54,56,60,72,80]

def Pitch_Array_Size : Int := 21
def Pitch_Array : List ℚ :=
  [0.2, 0.3, 0.4, 0.5, 0.6, 0.7, 0.75, 0.8, 0.9, 1, 1.1, 1.25, 1.3, 1.4, 1.5, 1.75, 2, 2.25,
   2.5, 2.75, 3]

/-! ## Peripherals -/

/-- Colours of the SSD1327 OLED used by the menu. -/
inductive Colour where
  | SSD1327_WHITE
  | SSD1327_BLACK
  deriving DecidableEq, Repr

/-- One call on an `Adafruit_SSD1327` display object. -/
inductive DisplayOp where
  | clearDisplay
  | setTextColor (c : Colour)
  | setTextSize (n : Int)
  | setCursor (x y : Int)
  | print (txt : String)
  | println (txt : String)
  | printInt (n : Int)
  | printFloat (v : ℚ) (digits : Int)
  | fillRect (x y w h : Int) (c : Colour)
  | drawPixel (x y : Int) (c : Colour)
  | display
  deriving DecidableEq

/-- One call on the `Adafruit_7segment` object `matrix`. -/
inductive MatrixOp where
  | print (n : Int)
  | writeDisplay
  deriving DecidableEq, Repr

/-! ## Program state -/

/-- The globals of `Header.h` that the embedded functions read or write,
followed by the peripherals. Defaults are the initialisers of the source. -/
structure Globals where
  Metric : Int := 0
  Thread_Mode : Int := 0
  S_Dir : Int := 2
  In_FeedRate : ℚ := 0.001
  mm_FeedRate : ℚ := 0.01
  TPI : Int := 0
  Pitch : ℚ := 0
  rpm : ℚ := 0
  SpindleRPM : ℚ := 0
  DisplayRPM : Int := 0
  spindleCount : Int := 0
  Encoder_Angle : ℚ := 0
  Spindle_Rotations : Int := 0
  ctr : ℚ := 0
  Direction_Array_Pos : Int := 0
  Mode_Array_Pos : Int := 0
  Measure_Array_Pos : Int := 0
  TPI_Array_Pos : Int := 17
  Pitch_Array_Pos : Int := 5
  in_Thread_Depth : ℚ := 0
  mm_Thread_Depth : ℚ := 0
  in_Radius : ℚ := 0
  Radius_Steps : Int := 0
  Radius_X : List ℚ := []
  Radius_Y : List ℚ := []
  Enc2_dir : Int := 0
  /-- Position register of the mode encoder `Enc1`. -/
  Enc1 : Int := 0
  /-- Speeds passed to `LeadScrew.setSpeed`. -/
  LeadScrew : List ℚ := []
  matrix : List MatrixOp := []
  Feed_Display : List DisplayOp := []
  Graph_Display : List DisplayOp := []

/-- The state after static initialisation. -/
def initial : Globals := {}

/-! ## Thread.h -/

/-- `Thread()`: leadscrew RPM for the active thread format, then the speed
command. The inch branch divides by the `int` product `TPI * TPI`; a zero
divisor has no finite quotient and gives `none`. With `Thread_Mode` outside
`{0, 1}` the old `rpm` is commanded again. -/
def Thread (s : Globals) : Option Globals :=
  let branch : Option Globals :=
    if s.Thread_Mode = 0 then
      match index TPI_Array s.TPI_Array_Pos with
      | none => none
      | some t =>
        if wrapInt32 (t * t) = 0 then none
        else some { s with
          TPI := t
          rpm := ((LeadScrew_TPI : ℚ) * s.SpindleRPM) / ((wrapInt32 (t * t) : Int) : ℚ) }
    else if s.Thread_Mode = 1 then
      match index Pitch_Array s.Pitch_Array_Pos with
      | none => none
      | some p =>
        some { s with
          Pitch := p
          rpm := 0.00155 * s.SpindleRPM * (LeadScrew_TPI : ℚ) * (p * p) }
    else some s
  match branch with
  | none => none
  | some s1 =>
    let stepsPerSec : ℚ := (s1.rpm / 60) * (LeadSPR : ℚ)
    some { s1 with LeadScrew := s1.LeadScrew ++ [stepsPerSec] }

/-- Modelled from the spec: `Spindle_Angle()` is called by `Auto_Thread` but its
body is not among the sources. Spec 4.3 (Angle Tracker): "`angle = rawCount mod
countsPerRevolution` (always non-negative), `rotationCount = rawCount div
countsPerRevolution` (floor division)". -/
def Spindle_Angle (s : Globals) : Globals :=
  { s with
    Encoder_Angle := ((s.spindleCount % SpindleCPR : Int) : ℚ)
    Spindle_Rotations := s.spindleCount / SpindleCPR }

/-- `mm_Minor_Diameter()`. -/
def mm_Minor_Diameter (s : Globals) : Option Globals :=
  match index Pitch_Array s.Pitch_Array_Pos with
  | none => none
  | some p =>
    let Height : ℚ := 0.866025404 * p
    some { s with Pitch := p, mm_Thread_Depth := 0.625 * Height }

/-- `in_Minor_Diameter()`. `1/TPI` is a quotient of two `int`s (rounded toward
zero) before it is stored in the `float`; a zero `TPI` gives `none`. -/
def in_Minor_Diameter (s : Globals) : Option Globals :=
  match index TPI_Array s.TPI_Array_Pos with
  | none => none
  | some t =>
    if t = 0 then none
    else
      let in_Pitch : ℚ := ((Int.tdiv 1 t : Int) : ℚ)
      let Height : ℚ := 0.866025404 * in_Pitch
      some { s with TPI := t, in_Thread_Depth := 0.625 * Height }

/-- `Auto_Thread()`. -/
def Auto_Thread (s : Globals) : Option Globals :=
  let s1 := Spindle_Angle s
  let r2 : Option Globals :=
    if s1.Thread_Mode = 0 ∧ s1.SpindleRPM = 0 then in_Minor_Diameter s1 else some s1
  match r2 with
  | none => none
  | some s2 =>
    if s2.Thread_Mode = 1 ∧ s2.SpindleRPM = 0 then mm_Minor_Diameter s2 else some s2

/-! ## Menu.h -/

/-- Append calls to the history of `Feed_Display`. -/
def feedDraw (s : Globals) (ops : List DisplayOp) : Globals :=
  { s with Feed_Display := s.Feed_Display ++ ops }

/-- `center(ctr_int)`: stores `55-((9 * ctr_int)/2)` in the global `ctr` and
returns it as an `int`. -/
def center (s : Globals) (ctr_int : Int) : Globals × Int :=
  let v : Int := wrapInt32 (55 - Int.tdiv (wrapInt32 (9 * ctr_int)) 2)
  ({ s with ctr := (v : ℚ) }, toInt (v : ℚ))

/-- `Feed_Adjust()`. -/
def Feed_Adjust (s : Globals) : Globals :=
  feedDraw s
    [ .setTextSize 4, .setCursor 0 65,
      if s.Measure_Array_Pos = 0 then .printFloat s.In_FeedRate 3
      else .printFloat s.mm_FeedRate 3 ]

/-- `Feed_Clear()`. -/
def Feed_Clear (s : Globals) : Globals :=
  feedDraw s [ .fillRect 0 65 128 30 .SSD1327_BLACK ]

/-- The `//----Feed----//` block of `Main_Menu`. -/
def Main_Menu_Feed (s : Globals) : Option Globals :=
  match index Measure_Array 0, index Measure_Array 1 with
  | some m0, some m1 =>
    some (Feed_Adjust (feedDraw s (
      [ .setCursor 19 30 ] ++
      (if s.Measure_Array_Pos = 0 then
        [ .fillRect 18 29 ((m0.length : Int) * 12 + 1) 16 .SSD1327_WHITE,
          .setTextColor .SSD1327_BLACK, .print m0, .setTextColor .SSD1327_WHITE ]
      else [ .setTextColor .SSD1327_WHITE, .print m0 ]) ++
      [ .print " / " ] ++
      (if s.Measure_Array_Pos = 1 then
        [ .fillRect 77 29 ((m1.length : Int) * 12 + 2) 16 .SSD1327_WHITE,
          .setTextColor .SSD1327_BLACK, .print m1, .setTextColor .SSD1327_WHITE ]
      else [ .setTextColor .SSD1327_WHITE, .print m1 ]))))
  | _, _ => none

/-- The `//----Thread----//` block of `Main_Menu`. -/
def Main_Menu_Thread (s : Globals) : Option Globals :=
  let s1 := feedDraw s (
    [ .setTextSize 2, .setCursor 2 30 ] ++
    (if s.Thread_Mode = 0 then
      [ .fillRect 0 29 36 16 .SSD1327_WHITE, .setTextColor .SSD1327_BLACK, .print "TPI ",
        .setTextColor .SSD1327_WHITE ]
    else [ .setTextColor .SSD1327_WHITE, .print "TPI" ]) ++
    [ .print "/" ] ++
    (if s.Thread_Mode = 1 then
      [ .fillRect 59 29 64 16 .SSD1327_WHITE, .setTextColor .SSD1327_BLACK, .print " Pitch",
        .setTextColor .SSD1327_WHITE ]
    else [ .setTextColor .SSD1327_WHITE, .print "Pitch" ]) ++
    [ .setTextSize 4 ])
  if s.Thread_Mode = 0 then
    match index TPI_Array s.TPI_Array_Pos with
    | none => none
    | some t => some (feedDraw s1 [ .setCursor 35 65, .printInt t ])
  else
    match index Pitch_Array s.Pitch_Array_Pos with
    | none => none
    | some p =>
      some (feedDraw s1
        [ .setCursor 10 65, .printFloat p 2, .setTextSize 2, .setCursor 80 100,
          .println "(mm)" ])

/-- The closing `if (Mode_Array_Pos > 1)` block of `Main_Menu`. -/
def Main_Menu_ComingSoon (s : Globals) : Globals :=
  feedDraw s
    [ .setCursor (wrapInt32 (0 + wrapInt32 (s.Mode_Array_Pos * 6)))
        (wrapInt32 (30 + wrapInt32 (s.Mode_Array_Pos * 5))),
      .println "Coming",
      .setCursor (wrapInt32 (0 + wrapInt32 (s.Mode_Array_Pos * 10)))
        (wrapInt32 (60 + wrapInt32 (s.Mode_Array_Pos * 5))),
      .print "Soon" ]

/-- `Main_Menu()`. -/
def Main_Menu (s : Globals) : Option Globals :=
  match index Mode_Array s.Mode_Array_Pos with
  | none => none
  | some name =>
    let s1 := feedDraw s [ .clearDisplay, .setTextColor .SSD1327_WHITE, .setTextSize 2 ]
    let s2 := (center s1 (name.length : Int)).1
    let x := (center s1 (name.length : Int)).2
    let s3 := feedDraw s2 [ .setCursor x 0, .println name ]
    (if s3.Mode_Array_Pos = 0 then Main_Menu_Feed s3 else some s3).bind fun s4 =>
    (if s4.Mode_Array_Pos = 1 then Main_Menu_Thread s4 else some s4).bind fun s5 =>
    some (if s5.Mode_Array_Pos > 1 then Main_Menu_ComingSoon s5 else s5)

/-! ## Display.h -/

/-- `Seven_Segment()`. The `int DisplayRPM` it declares is a local that hides
the global of the same name. -/
def Seven_Segment (s : Globals) : Globals :=
  let DisplayRPM : Int := toInt s.SpindleRPM
  { s with matrix := s.matrix ++ [ .print DisplayRPM, .writeDisplay ] }

/-- The loop of `graph_Radius_Array`, from `array_step` on, `fuel` bounding the
number of iterations left. `scale` is `none` when `128 / in_Radius` is not
finite; a pixel computed from it gives `none`. -/
def graph_Radius_loop (scale : Option ℚ) (s : Globals) : Nat → Int → Option Globals
  | 0, _ => some s
  | fuel + 1, array_step =>
    if array_step < s.Radius_Steps then
      match scale, index s.Radius_X array_step, index s.Radius_Y array_step with
      | some k, some x, some y =>
        graph_Radius_loop scale
          { s with Graph_Display := s.Graph_Display ++
              [ .drawPixel (toInt (x * k)) (toInt (y * -k)) .SSD1327_WHITE ] }
          fuel (array_step + 1)
      | _, _, _ => none
    else some s

/-- `graph_Radius_Array()`. `in_Radius`, `Radius_Steps`, `Radius_X` and
`Radius_Y` are declared outside the sources at hand; they are fields of
`Globals`, the first taken to be floating. -/
def graph_Radius_Array (s : Globals) : Option Globals :=
  let scale : Option ℚ := if s.in_Radius = 0 then none else some (128 / s.in_Radius)
  graph_Radius_loop scale s s.Radius_Steps.toNat 0

/-- The functions `Refresh` invokes, in the order invoked. -/
inductive Call where
  | Seven_Segment
  | Interface
  | Main_Menu
  | Mode_0_Feed_Controls
  | Feed_Clear
  | Feed_Adjust
  | Mode_3_Auto_Turn_Controls
  | Auto_Feed_Clear
  | Auto_Feed_Adjust
  | graph_Radius_Array
  deriving DecidableEq, Repr

/-- Functions that `Refresh` calls and whose bodies are not among the sources:
each is a parameter of the embedding. -/
structure Collaborators where
  Interface : Globals → Globals
  Mode_0_Feed_Controls : Globals → Globals
  Mode_3_Auto_Turn_Controls : Globals → Globals
  Auto_Feed_Clear : Globals → Globals
  Auto_Feed_Adjust : Globals → Globals

/-- The `if (SpindleRPM == 0)` menu block of `Refresh`. -/
def Refresh_menu (c : Collaborators) (s : Globals) : Option (Globals × List Call) :=
  if s.SpindleRPM = 0 then
    match Main_Menu (c.Interface s) with
    | none => none
    | some s1 => some (feedDraw s1 [ .display ], [ .Interface, .Main_Menu ])
  else some (s, [])

/-- The live feed block of `Refresh` (`Mode_Array_Pos == 0 && SpindleRPM != 0`). -/
def Refresh_feed (c : Collaborators) (s : Globals) : Globals × List Call :=
  if s.Mode_Array_Pos = 0 ∧ s.SpindleRPM ≠ 0 then
    (feedDraw (Feed_Adjust (Feed_Clear (c.Mode_0_Feed_Controls s))) [ .display ],
      [ .Mode_0_Feed_Controls, .Feed_Clear, .Feed_Adjust ])
  else (s, [])

/-- The auto-turn block of `Refresh` (`Mode_Array_Pos == 3 && SpindleRPM != 0`). -/
def Refresh_auto_turn (c : Collaborators) (s : Globals) : Globals × List Call :=
  if s.Mode_Array_Pos = 3 ∧ s.SpindleRPM ≠ 0 then
    (feedDraw (c.Auto_Feed_Adjust (c.Auto_Feed_Clear (c.Mode_3_Auto_Turn_Controls s)))
        [ .display ],
      [ .Mode_3_Auto_Turn_Controls, .Auto_Feed_Clear, .Auto_Feed_Adjust ])
  else (s, [])

/-- The closing `if (SpindleRPM == 0)` graph block of `Refresh`. -/
def Refresh_graph (s : Globals) : Option (Globals × List Call) :=
  if s.SpindleRPM = 0 then
    match graph_Radius_Array { s with Graph_Display := s.Graph_Display ++ [ .clearDisplay ] } with
    | none => none
    | some s1 =>
      some ({ s1 with Graph_Display := s1.Graph_Display ++ [ .display ] },
        [ .graph_Radius_Array ])
  else some (s, [])

/-- `Refresh()`: the state it leaves and the functions it invoked. -/
def Refresh (c : Collaborators) (s : Globals) : Option (Globals × List Call) :=
  let s0 : Globals :=
    if s.Enc1 ≠ s.Mode_Array_Pos ∧ s.SpindleRPM ≠ 0 then { s with Enc1 := s.Mode_Array_Pos }
    else s
  let s1 := Seven_Segment s0
  match Refresh_menu c s1 with
  | none => none
  | some (s2, t2) =>
    let (s3, t3) := Refresh_feed c s2
    let (s4, t4) := Refresh_auto_turn c s3
    match Refresh_graph s4 with
    | none => none
    | some (s5, t5) => some (s5, Call.Seven_Segment :: (t2 ++ t3 ++ t4 ++ t5))

/-- Modelled from the spec: the body of `Mode_0_Feed_Controls` is not among the
sources (`Header.h` declares it, `Refresh` calls it "to read if feed encoder
has been turned"). Spec 4.5: "Feed rate is adjustable live"; spec 6: a menu
device delivers "`{delta: ±1, buttonPressed: bool}`"; spec 3: "one field change
per event". The turn is `Enc2_dir` (`-1=cw 1=ccw 0=no movement`) and moves the
feed rate of the active unit by `step` per detent. -/
def Mode_0_Feed_Controls (step : ℚ) (s : Globals) : Globals :=
  if s.Measure_Array_Pos = 0 then { s with In_FeedRate := s.In_FeedRate + (s.Enc2_dir : ℚ) * step }
  else { s with mm_FeedRate := s.mm_FeedRate + (s.Enc2_dir : ℚ) * step }

/-- Collaborators in which the feed handler is the one modelled from the spec
and the others leave the state alone. -/
def feedCollaborators (step : ℚ) : Collaborators where
  Interface := id
  Mode_0_Feed_Controls := Mode_0_Feed_Controls step
  Mode_3_Auto_Turn_Controls := id
  Auto_Feed_Clear := id
  Auto_Feed_Adjust := id

/-! ## TeensyTimerInterrupt.hpp

The class is compiled in one of three variants, selected by the board: Teensy
4.0/4.1 (`Teensy4`), Teensy 3.x and LC (`Teensy3`), Teensy 2.0 (`Teensy2`).
The `TISR_LOG...` macros only print and are left out. Register names, bit
macros and clock frequencies come from the board headers, which are not among
the sources: they are the fields of `Board`. -/

/-- `TeensyTimerNumber`; the constructor of the class admits no other value of
`_timer`. -/
inductive TeensyTimerNumber where
  | TEENSY_TIMER_1
  | TEENSY_TIMER_3
  deriving DecidableEq, Repr

/-- The timer registers that `setInterval` writes. -/
inductive Reg where
  | FLEXPWM1_FCTRL0 | FLEXPWM1_FSTS0 | FLEXPWM1_MCTRL | FLEXPWM1_SM3CTRL2 | FLEXPWM1_SM3CTRL
  | FLEXPWM1_SM3INIT | FLEXPWM1_SM3VAL0 | FLEXPWM1_SM3VAL1 | FLEXPWM1_SM3VAL2
  | FLEXPWM1_SM3VAL3 | FLEXPWM1_SM3VAL4 | FLEXPWM1_SM3VAL5 | FLEXPWM1_SM3STS
  | FLEXPWM1_SM3INTEN
  | FLEXPWM2_FCTRL0 | FLEXPWM2_FSTS0 | FLEXPWM2_MCTRL | FLEXPWM2_SM2CTRL2 | FLEXPWM2_SM2CTRL
  | FLEXPWM2_SM2INIT | FLEXPWM2_SM2VAL0 | FLEXPWM2_SM2VAL1 | FLEXPWM2_SM2VAL2
  | FLEXPWM2_SM2VAL3 | FLEXPWM2_SM2VAL4 | FLEXPWM2_SM2VAL5 | FLEXPWM2_SM2STS
  | FLEXPWM2_SM2INTEN
  | FTM1_SC | FTM1_MOD | FTM2_SC | FTM2_MOD
  | ICR1 | TCCR1B | TIMSK1 | ICR3 | TCCR3B | TIMSK3
  deriving DecidableEq, Repr

/-- Interrupt service routines handed to `attachInterruptVector`. -/
inductive Isr where
  | ext_isr
  | ftm1_isr
  | ftm2_isr
  deriving DecidableEq, Repr

/-- One access to the hardware: a register store (the value is the one of the
right-hand side, as a `uint32_t`), or a call on the interrupt controller for
the interrupt line of a timer. -/
inductive HwOp where
  | write (r : Reg) (v : Nat)
  | attachInterruptVector (timer : TeensyTimerNumber) (isr : Isr)
  | NVIC_ENABLE_IRQ (timer : TeensyTimerNumber)
  deriving DecidableEq, Repr

/-- The hardware: the content of each register and what has been done to it,
oldest first. -/
structure Hardware where
  regs : Reg → Nat
  ops : List HwOp

/-- `REG = v`. -/
def Hardware.assign (h : Hardware) (r : Reg) (v : Nat) : Hardware :=
  { regs := fun x => if x = r then v else h.regs x, ops := h.ops ++ [ .write r v ] }

/-- `REG |= mask`. -/
def Hardware.orAssign (h : Hardware) (r : Reg) (mask : Nat) : Hardware :=
  h.assign r (h.regs r ||| mask)

/-- A call on the interrupt controller. -/
def Hardware.call (h : Hardware) (op : HwOp) : Hardware :=
  { h with ops := h.ops ++ [op] }

/-- One statement on the hardware. -/
inductive Stmt where
  | assign (r : Reg) (v : Nat)
  | orAssign (r : Reg) (mask : Nat)
  | call (op : HwOp)

/-- Execute one statement. -/
def Hardware.exec (h : Hardware) : Stmt → Hardware
  | .assign r v => h.assign r v
  | .orAssign r mask => h.orAssign r mask
  | .call op => h.call op

/-- Execute statements in order. -/
def Hardware.run (h : Hardware) (l : List Stmt) : Hardware := l.foldl Hardware.exec h

/-- Clock frequencies and bit macros of the board headers. -/
structure Board where
  F_BUS_ACTUAL : Nat
  F_TIMER : Nat
  F_CPU : Nat
  FLEXPWM_FCTRL0_FLVL : Nat → Nat
  FLEXPWM_MCTRL_CLDOK : Nat → Nat
  FLEXPWM_MCTRL_LDOK : Nat → Nat
  FLEXPWM_MCTRL_RUN : Nat → Nat
  FLEXPWM_SMCTRL2_INDEP : Nat
  FLEXPWM_SMCTRL_HALF : Nat
  FLEXPWM_SMCTRL_PRSC : Nat → Nat
  FLEXPWM_SMSTS_RF : Nat
  FLEXPWM_SMINTEN_RIE : Nat
  FTM_SC_CLKS : Nat → Nat
  FTM_SC_CPWMS : Nat
  FTM_SC_TOIE : Nat
  CS10 : Nat
  CS11 : Nat
  CS12 : Nat
  CS30 : Nat
  CS31 : Nat
  CS32 : Nat
  WGM13 : Nat
  WGM33 : Nat
  TOIE1 : Nat
  TOIE3 : Nat

/-- The AVR macro `_BV(bit)`, which is `1 << bit`. -/
def _BV (bit : Nat) : Nat := 1 <<< bit

/-- Conversion of a floating value to `uint32_t`: the fraction is dropped; a
value outside the range saturates, as the conversion instruction of the ARM
floating-point unit does. -/
def toUInt32 (q : ℚ) : Nat := min 4294967295 ⌊q⌋₊

/-- `(uint32_t) (x / d)` for a floating `x` and an integer divisor `d`; with
`d = 0` the quotient is infinite (saturating) or, for `x = 0`, not a number
(converted to 0). -/
def quotToUInt32 (x : ℚ) (d : Nat) : Nat :=
  if d = 0 then (if 0 < x then 4294967295 else 0) else toUInt32 (x / (d : ℚ))

/-- Negation of a `uint32_t`. -/
def negUInt32 (x : Nat) : Nat := (4294967296 - x % 4294967296) % 4294967296

/-- The members of `TeensyTimerInterrupt` that `setInterval` touches, and the
hardware. A NULL `timerCallback` is `none`. -/
structure TeensyTimerInterrupt where
  _timer : TeensyTimerNumber
  _callback : Option Nat
  _timerCount : Nat
  _prescale : Nat
  _realPeriod : Nat
  hw : Hardware

/-- `getPeriod()`. -/
def TeensyTimerInterrupt.getPeriod (t : TeensyTimerInterrupt) : Nat := t._timerCount

/-- `getPrescale()`. -/
def TeensyTimerInterrupt.getPrescale (t : TeensyTimerInterrupt) : Nat := t._prescale

/-- `getRealPeriod()`. -/
def TeensyTimerInterrupt.getRealPeriod (t : TeensyTimerInterrupt) : Nat := t._realPeriod

/-- `getCallback()`. -/
def TeensyTimerInterrupt.getCallback (t : TeensyTimerInterrupt) : Option Nat := t._callback

/-- The `TIMER_RESOLUTION` in force inside the Teensy 3.x and Teensy 2.0
classes. -/
def TIMER_RESOLUTION : Nat := 32768

/-- The prescale search of the Teensy 4 variant, `while (period > 32767)`;
`fuel` bounds the iterations left and `none` means it ran out. -/
def Teensy4.prescaleLoop : Nat → Nat → Nat → Option (Nat × Nat)
  | 0, _, _ => none
  | fuel + 1, period, prescale =>
    if period > 32767 then
      let period1 := period >>> 1
      let prescale1 := prescale + 1
      if prescale1 > 7 then some (32767, 7)
      else Teensy4.prescaleLoop fuel period1 prescale1
    else some (period, prescale)

/-- The register statements of the Teensy 4 `setInterval`, from the first
`if (_timer == TEENSY_TIMER_1)` block to `NVIC_ENABLE_IRQ`. -/
def Teensy4.program (b : Board) (timer : TeensyTimerNumber) (period prescale : Nat) :
    List Stmt :=
  (match timer with
    | .TEENSY_TIMER_1 =>
      [ .orAssign .FLEXPWM1_FCTRL0 (b.FLEXPWM_FCTRL0_FLVL 8),
        .assign .FLEXPWM1_FSTS0 0x0008,
        .orAssign .FLEXPWM1_MCTRL (b.FLEXPWM_MCTRL_CLDOK 8),
        .assign .FLEXPWM1_SM3CTRL2 b.FLEXPWM_SMCTRL2_INDEP,
        .assign .FLEXPWM1_SM3CTRL (b.FLEXPWM_SMCTRL_HALF ||| b.FLEXPWM_SMCTRL_PRSC prescale),
        .assign .FLEXPWM1_SM3INIT (negUInt32 period),
        .assign .FLEXPWM1_SM3VAL0 0,
        .assign .FLEXPWM1_SM3VAL1 period,
        .assign .FLEXPWM1_SM3VAL2 0,
        .assign .FLEXPWM1_SM3VAL3 0,
        .assign .FLEXPWM1_SM3VAL4 0,
        .assign .FLEXPWM1_SM3VAL5 0,
        .orAssign .FLEXPWM1_MCTRL (b.FLEXPWM_MCTRL_LDOK 8 ||| b.FLEXPWM_MCTRL_RUN 8) ]
    | .TEENSY_TIMER_3 =>
      [ .orAssign .FLEXPWM2_FCTRL0 (b.FLEXPWM_FCTRL0_FLVL 4),
        .assign .FLEXPWM2_FSTS0 0x0008,
        .orAssign .FLEXPWM2_MCTRL (b.FLEXPWM_MCTRL_CLDOK 4),
        .assign .FLEXPWM2_SM2CTRL2 b.FLEXPWM_SMCTRL2_INDEP,
        .assign .FLEXPWM2_SM2CTRL (b.FLEXPWM_SMCTRL_HALF ||| b.FLEXPWM_SMCTRL_PRSC prescale),
        .assign .FLEXPWM2_SM2INIT (negUInt32 period),
        .assign .FLEXPWM2_SM2VAL0 0,
        .assign .FLEXPWM2_SM2VAL1 period,
        .assign .FLEXPWM2_SM2VAL2 0,
        .assign .FLEXPWM2_SM2VAL3 0,
        .assign .FLEXPWM2_SM2VAL4 0,
        .assign .FLEXPWM2_SM2VAL5 0,
        .orAssign .FLEXPWM2_MCTRL (b.FLEXPWM_MCTRL_LDOK 4 ||| b.FLEXPWM_MCTRL_RUN 4) ]) ++
  [ .call (.attachInterruptVector timer .ext_isr) ] ++
  (match timer with
    | .TEENSY_TIMER_1 =>
      [ .assign .FLEXPWM1_SM3STS b.FLEXPWM_SMSTS_RF,
        .assign .FLEXPWM1_SM3INTEN b.FLEXPWM_SMINTEN_RIE ]
    | .TEENSY_TIMER_3 =>
      [ .assign .FLEXPWM2_SM2STS b.FLEXPWM_SMSTS_RF,
        .assign .FLEXPWM2_SM2INTEN b.FLEXPWM_SMINTEN_RIE ]) ++
  [ .call (.NVIC_ENABLE_IRQ timer) ]

/-- The members and registers that the Teensy 4 `setInterval` stores once the
prescale search has ended with `period` and `prescale`. -/
def Teensy4.store (b : Board) (t : TeensyTimerInterrupt) (cb period prescale : Nat) :
    TeensyTimerInterrupt :=
  { t with
    _callback := some cb
    _realPeriod := quotToUInt32 ((period : ℚ) * 2000000) (b.F_BUS_ACTUAL >>> prescale)
    _prescale := prescale
    _timerCount := period
    hw := t.hw.run (Teensy4.program b t._timer period prescale) }

/-- `setInterval(interval, callback)` of the Teensy 4.0/4.1 variant: the
returned `bool` and the state left. -/
def Teensy4.setInterval (b : Board) (t : TeensyTimerInterrupt) (interval : Nat)
    (callback : Option Nat) : Option (Bool × TeensyTimerInterrupt) :=
  match callback with
  | none => some (false, t)
  | some cb =>
    (Teensy4.prescaleLoop 8
      (toUInt32 (((b.F_BUS_ACTUAL : ℚ) / 2000000) * (interval : ℚ))) 0).map
      fun r => (true, Teensy4.store b t cb r.1 r.2)

/-- The prescale search of the Teensy 3.x variant,
`while (period >= TIMER_RESOLUTION)`. -/
def Teensy3.prescaleLoop : Nat → Nat → Nat → Option (Nat × Nat)
  | 0, _, _ => none
  | fuel + 1, period, prescale =>
    if period ≥ TIMER_RESOLUTION then
      let period1 := period >>> 1
      let prescale1 := prescale + 1
      if prescale1 > 7 then some (TIMER_RESOLUTION - 1, 7)
      else Teensy3.prescaleLoop fuel period1 prescale1
    else some (period, prescale)

/-- The register statements of the Teensy 3.x `setInterval`; `sc` is the
content of the status-and-control register read first, `_realPeriod` and
`_prescale` the members just stored. -/
def Teensy3.program (b : Board) (timer : TeensyTimerNumber) (sc _realPeriod _prescale : Nat) :
    List Stmt :=
  (match timer with
    | .TEENSY_TIMER_1 =>
      [ .assign .FTM1_SC 0,
        .assign .FTM1_MOD _realPeriod,
        .assign .FTM1_SC
          (b.FTM_SC_CLKS 1 ||| b.FTM_SC_CPWMS ||| _prescale ||| (sc &&& b.FTM_SC_TOIE)),
        .call (.attachInterruptVector timer .ftm1_isr),
        .orAssign .FTM1_SC b.FTM_SC_TOIE ]
    | .TEENSY_TIMER_3 =>
      [ .assign .FTM2_SC 0,
        .assign .FTM2_MOD _realPeriod,
        .assign .FTM2_SC
          (b.FTM_SC_CLKS 1 ||| b.FTM_SC_CPWMS ||| _prescale ||| (sc &&& b.FTM_SC_TOIE)),
        .call (.attachInterruptVector timer .ftm2_isr),
        .orAssign .FTM2_SC b.FTM_SC_TOIE ]) ++
  [ .call (.NVIC_ENABLE_IRQ timer) ]

/-- The members and registers that the Teensy 3.x `setInterval` stores once
the prescale search has ended with `period` and `prescale`. -/
def Teensy3.store (b : Board) (t : TeensyTimerInterrupt) (cb period prescale : Nat) :
    TeensyTimerInterrupt :=
  { t with
    _callback := some cb
    _realPeriod := quotToUInt32 ((period : ℚ) * 2000000) (b.F_TIMER >>> prescale)
    _prescale := prescale
    _timerCount := period
    hw := t.hw.run (Teensy3.program b t._timer
      (match t._timer with
        | .TEENSY_TIMER_1 => t.hw.regs .FTM1_SC
        | .TEENSY_TIMER_3 => t.hw.regs .FTM2_SC)
      (quotToUInt32 ((period : ℚ) * 2000000) (b.F_TIMER >>> prescale)) prescale) }

/-- `setInterval(interval, callback)` of the Teensy 3.x and LC variant. -/
def Teensy3.setInterval (b : Board) (t : TeensyTimerInterrupt) (interval : Nat)
    (callback : Option Nat) : Option (Bool × TeensyTimerInterrupt) :=
  match callback with
  | none => some (false, t)
  | some cb =>
    (Teensy3.prescaleLoop 8
      (toUInt32 (((b.F_TIMER : ℚ) / 2000000) * (interval : ℚ))) 0).map
      fun r => (true, Teensy3.store b t cb r.1 r.2)

/-- The prescaler choice of the Teensy 2.0 variant for clock-select bits
`cs0`, `cs1`, `cs2` (`CS10..CS12` or `CS30..CS32`): the prescale bits and the
scaled period. -/
def Teensy2.choosePrescale (cs0 cs1 cs2 : Nat) (period : Nat) : Nat × Nat :=
  if period < TIMER_RESOLUTION then (_BV cs0, period)
  else if period < TIMER_RESOLUTION * 8 then (_BV cs1, period >>> 3)
  else if period < TIMER_RESOLUTION * 64 then (_BV cs1 ||| _BV cs0, period >>> 6)
  else if period < TIMER_RESOLUTION * 256 then (_BV cs2, period >>> 8)
  else if period < TIMER_RESOLUTION * 1024 then (_BV cs2 ||| _BV cs0, period >>> 10)
  else (_BV cs2 ||| _BV cs0, TIMER_RESOLUTION - 1)

/-- The prescale bits and the scaled period that the Teensy 2.0 `setInterval`
chooses for the timer of the object. -/
def Teensy2.chosen (b : Board) (timer : TeensyTimerNumber) (period : Nat) : Nat × Nat :=
  match timer with
  | .TEENSY_TIMER_1 => Teensy2.choosePrescale b.CS10 b.CS11 b.CS12 period
  | .TEENSY_TIMER_3 => Teensy2.choosePrescale b.CS30 b.CS31 b.CS32 period

/-- The register statements of the Teensy 2.0 `setInterval`. -/
def Teensy2.program (b : Board) (timer : TeensyTimerNumber) (period prescale : Nat) :
    List Stmt :=
  match timer with
  | .TEENSY_TIMER_1 =>
    [ .assign .ICR1 period,
      .assign .TCCR1B (_BV b.WGM13 ||| prescale),
      .assign .TIMSK1 (_BV b.TOIE1) ]
  | .TEENSY_TIMER_3 =>
    [ .assign .ICR3 period,
      .assign .TCCR3B (_BV b.WGM33 ||| prescale),
      .assign .TIMSK3 (_BV b.TOIE3) ]

/-- The members and registers that the Teensy 2.0 `setInterval` stores for the
chosen `prescale` bits and scaled `period`. -/
def Teensy2.store (b : Board) (t : TeensyTimerInterrupt) (cb period prescale : Nat) :
    TeensyTimerInterrupt :=
  { t with
    _callback := some cb
    _realPeriod := quotToUInt32 ((period : ℚ) * 2000000) (b.F_CPU >>> prescale)
    _prescale := prescale
    _timerCount := period
    hw := t.hw.run (Teensy2.program b t._timer period prescale) }

/-- `setInterval(interval, callback)` of the Teensy 2.0 and Teensy++ 2.0
variant. -/
def Teensy2.setInterval (b : Board) (t : TeensyTimerInterrupt) (interval : Nat)
    (callback : Option Nat) : Option (Bool × TeensyTimerInterrupt) :=
  match callback with
  | none => some (false, t)
  | some cb =>
    let chosen := Teensy2.chosen b t._timer
      (toUInt32 (((b.F_CPU : ℚ) / 2000000) * (interval : ℚ)))
    some (true, Teensy2.store b t cb chosen.2 chosen.1)

/-- A timer object as its constructor leaves it (members without initialiser
taken as zero), on hardware with all registers zero and no access yet. -/
def TeensyTimerInterrupt.new (timer : TeensyTimerNumber) : TeensyTimerInterrupt where
  _timer := timer
  _callback := none
  _timerCount := 0
  _prescale := 0
  _realPeriod := 0
  hw := { regs := fun _ => 0, ops := [] }

/-- `RPM_Check_INTERVAL_MS` of `Header.h`. -/
def RPM_Check_INTERVAL_MS : Nat := 100000

/-- A Teensy 4 board with the bus at 150 MHz; bit macros as in `imxrt.h`. -/
def teensy4Board : Board where
  F_BUS_ACTUAL := 150000000
  F_TIMER := 0
  F_CPU := 600000000
  FLEXPWM_FCTRL0_FLVL := fun n => n &&& 0x0F
  FLEXPWM_MCTRL_CLDOK := fun n => (n &&& 0x0F) <<< 4
  FLEXPWM_MCTRL_LDOK := fun n => n &&& 0x0F
  FLEXPWM_MCTRL_RUN := fun n => (n &&& 0x0F) <<< 8
  FLEXPWM_SMCTRL2_INDEP := 1 <<< 13
  FLEXPWM_SMCTRL_HALF := 1 <<< 11
  FLEXPWM_SMCTRL_PRSC := fun n => (n &&& 0x07) <<< 4
  FLEXPWM_SMSTS_RF := 1 <<< 12
  FLEXPWM_SMINTEN_RIE := 1 <<< 12
  FTM_SC_CLKS := fun _ => 0
  FTM_SC_CPWMS := 0
  FTM_SC_TOIE := 0
  CS10 := 0
  CS11 := 0
  CS12 := 0
  CS30 := 0
  CS31 := 0
  CS32 := 0
  WGM13 := 0
  WGM33 := 0
  TOIE1 := 0
  TOIE3 := 0

/-- A Teensy 3.2 board with the bus, hence `F_TIMER`, at 48 MHz; bit macros as
in `kinetis.h`. -/
def teensy3Board : Board :=
  { teensy4Board with
    F_BUS_ACTUAL := 0
    F_TIMER := 48000000
    F_CPU := 96000000
    FTM_SC_CLKS := fun n => (n &&& 3) <<< 3
    FTM_SC_CPWMS := 0x20
    FTM_SC_TOIE := 0x40 }

/-- A Teensy 2.0 board at 16 MHz; bit numbers as in `avr/io.h`. -/
def teensy2Board : Board :=
  { teensy4Board with
    F_BUS_ACTUAL := 0
    F_CPU := 16000000
    CS10 := 0
    CS11 := 1
    CS12 := 2
    CS30 := 0
    CS31 := 1
    CS32 := 2
    WGM13 := 4
    WGM33 := 4
    TOIE1 := 0
    TOIE3 := 0 }

/-- The values stored in `FTM1_MOD` or `FTM2_MOD`, oldest first. -/
def modWrites (t : TeensyTimerInterrupt) : List Nat :=
  t.hw.ops.filterMap fun op =>
    match op with
    | .write .FTM1_MOD v => some v
    | .write .FTM2_MOD v => some v
    | _ => none


/-! ## Views of the state used by the properties -/

/-- The five selection indices, in the order direction, mode, unit, TPI, pitch. -/
def indices (s : Globals) : List Int :=
  [s.Direction_Array_Pos, s.Mode_Array_Pos, s.Measure_Array_Pos, s.TPI_Array_Pos,
   s.Pitch_Array_Pos]

/-- Every selection index is an index of its table. -/
def validIndices (s : Globals) : Prop :=
  (0 ≤ s.Direction_Array_Pos ∧ s.Direction_Array_Pos < Direction_Array_Size) ∧
  (0 ≤ s.Mode_Array_Pos ∧ s.Mode_Array_Pos < Mode_Array_Size) ∧
  (0 ≤ s.Measure_Array_Pos ∧ s.Measure_Array_Pos < Measure_Array_Size) ∧
  (0 ≤ s.TPI_Array_Pos ∧ s.TPI_Array_Pos < TPI_Array_Size) ∧
  (0 ≤ s.Pitch_Array_Pos ∧ s.Pitch_Array_Pos < Pitch_Array_Size)

instance (s : Globals) : Decidable (validIndices s) := by
  unfold validIndices; infer_instance

/-- The index of the active thread format is an index of its table and
`Thread_Mode` is `0` or `1`. -/
def validThreadSelection (s : Globals) : Prop :=
  (s.Thread_Mode = 0 ∧ 0 ≤ s.TPI_Array_Pos ∧ s.TPI_Array_Pos < TPI_Array_Size) ∨
  (s.Thread_Mode = 1 ∧ 0 ≤ s.Pitch_Array_Pos ∧ s.Pitch_Array_Pos < Pitch_Array_Size)

instance (s : Globals) : Decidable (validThreadSelection s) := by
  unfold validThreadSelection; infer_instance

/-- The speed handed to `LeadScrew.setSpeed` by the latest call. -/
def commandedSpeed (s : Globals) : Option ℚ := s.LeadScrew.getLast?

/-- What the menu and the RPM interrupt may have set between two calls of
`Thread`. -/
structure ThreadInput where
  Thread_Mode : Int
  TPI_Array_Pos : Int
  Pitch_Array_Pos : Int
  SpindleRPM : ℚ

/-- Store a `ThreadInput` in the globals. -/
def setInput (s : Globals) (x : ThreadInput) : Globals :=
  { s with
    Thread_Mode := x.Thread_Mode
    TPI_Array_Pos := x.TPI_Array_Pos
    Pitch_Array_Pos := x.Pitch_Array_Pos
    SpindleRPM := x.SpindleRPM }

/-- A sequence of `Thread()` calls, each preceded by what the environment set. -/
def ThreadCalls : Globals → List ThreadInput → Option Globals
  | s, [] => some s
  | s, x :: xs =>
    match Thread (setInput s x) with
    | none => none
    | some s1 => ThreadCalls s1 xs

/-- A `ThreadInput` the claims admit: `Thread_Mode` is `0` or `1`, the index of
the active table is valid, and `SpindleRPM`, a magnitude, is not negative. -/
def validInput (x : ThreadInput) : Prop :=
  ((x.Thread_Mode = 0 ∧ 0 ≤ x.TPI_Array_Pos ∧ x.TPI_Array_Pos < TPI_Array_Size) ∨
   (x.Thread_Mode = 1 ∧ 0 ≤ x.Pitch_Array_Pos ∧ x.Pitch_Array_Pos < Pitch_Array_Size)) ∧
  0 ≤ x.SpindleRPM

instance (x : ThreadInput) : Decidable (validInput x) := by
  unfold validInput; infer_instance

/-- Two velocities are non-zero and of opposite sign. -/
def oppositeSigns (a b : ℚ) : Prop := a * b < 0

instance (a b : ℚ) : Decidable (oppositeSigns a b) := by
  unfold oppositeSigns; infer_instance

/-- The state of the spec example: inch format, 20 TPI, spindle at 600 RPM,
direction parked. -/
def inch20at600 : Globals := { initial with TPI_Array_Pos := 16, SpindleRPM := 600 }

/-- The state of the spec example: pitch format, pitch 1.0, spindle at 600 RPM. -/
def pitch1at600 : Globals :=
  { initial with Thread_Mode := 1, Pitch_Array_Pos := 9, SpindleRPM := 600 }

/-- Thread mode, spindle at 600 RPM, the mode encoder turned away from the mode. -/
def threadModeAt600 : Globals :=
  { initial with Mode_Array_Pos := 1, SpindleRPM := 600, Enc1 := 2, Enc2_dir := 1 }

/-- The first statement of `Refresh`: with the spindle turning, a mode encoder
that has left `Mode_Array_Pos` is put back on it. -/
def Refresh_guard (s : Globals) : Globals :=
  if s.Enc1 ≠ s.Mode_Array_Pos ∧ s.SpindleRPM ≠ 0 then { s with Enc1 := s.Mode_Array_Pos }
  else s

/-- No handler outside the sources writes `SpindleRPM` (spec 3: the RPM is
"updated only by RPM Estimator", the periodic tick). -/
def Collaborators.keepSpindleRPM (c : Collaborators) : Prop :=
  ∀ s : Globals,
    (c.Interface s).SpindleRPM = s.SpindleRPM ∧
    (c.Mode_0_Feed_Controls s).SpindleRPM = s.SpindleRPM ∧
    (c.Mode_3_Auto_Turn_Controls s).SpindleRPM = s.SpindleRPM ∧
    (c.Auto_Feed_Clear s).SpindleRPM = s.SpindleRPM ∧
    (c.Auto_Feed_Adjust s).SpindleRPM = s.SpindleRPM

/-- None of the handlers that `Refresh` invokes while the spindle turns writes
`Mode_Array_Pos`. -/
def Collaborators.keepMode (c : Collaborators) : Prop :=
  ∀ s : Globals,
    (c.Mode_0_Feed_Controls s).Mode_Array_Pos = s.Mode_Array_Pos ∧
    (c.Mode_3_Auto_Turn_Controls s).Mode_Array_Pos = s.Mode_Array_Pos ∧
    (c.Auto_Feed_Clear s).Mode_Array_Pos = s.Mode_Array_Pos ∧
    (c.Auto_Feed_Adjust s).Mode_Array_Pos = s.Mode_Array_Pos

/-- Inch format, 20 TPI selected, spindle stopped. -/
def inch20stopped : Globals := { initial with TPI_Array_Pos := 16 }

/-- Feed mode with the spindle stopped and a mode encoder off the mode. -/
def feedModeStopped : Globals := { initial with Enc1 := 2 }

/-- Inch format, 1 TPI selected (index 0), spindle at 600 RPM. -/
def inch1at600 : Globals := { initial with TPI_Array_Pos := 0, SpindleRPM := 600 }

/-- The state `b` differs from `a` in `Feed_Display` and `ctr` at most. -/
def menuFrame (a b : Globals) : Prop :=
  ∃ fd v, b = { a with Feed_Display := fd, ctr := v }

/-- Every subscript that `graph_Radius_Array` performs is in range and its scale
is finite: no point is drawn, or `in_Radius` is not zero and `Radius_X` and
`Radius_Y` hold `Radius_Steps` entries. -/
def radiusTablesCover (s : Globals) : Prop :=
  s.Radius_Steps ≤ 0 ∨
  (s.in_Radius ≠ 0 ∧ s.Radius_Steps ≤ (s.Radius_X.length : Int) ∧
    s.Radius_Steps ≤ (s.Radius_Y.length : Int))

instance (s : Globals) : Decidable (radiusTablesCover s) := by
  unfold radiusTablesCover; infer_instance

/-- Feed mode, spindle stopped, the mode encoder off the mode, two points of a
radius to draw. -/
def radiusStopped : Globals :=
  { initial with
    Enc1 := 2
    in_Radius := 1
    Radius_Steps := 2
    Radius_X := [0, 1 / 2]
    Radius_Y := [1, 1 / 2] }

/-! ## Lemmas on the tables and on machine arithmetic -/

theorem index_mem {α : Type} (a : List α) (i : Int) (x : α) (h : index a i = some x) :
    x ∈ a := by
  unfold index at h
  split at h
  · exact List.getElem?_mem h
  · cases h

theorem index_some_of_lt {α : Type} (a : List α) (i : Int) (h0 : 0 ≤ i)
    (h1 : i < (a.length : Int)) : ∃ x, index a i = some x := by
  have hlt : i.toNat < a.length := by omega
  refine ⟨a[i.toNat], ?_⟩
  unfold index
  rw [if_pos h0]
  exact List.getElem?_eq_getElem hlt

theorem TPI_Array_length : (TPI_Array.length : Int) = TPI_Array_Size := by decide

theorem Pitch_Array_length : (Pitch_Array.length : Int) = Pitch_Array_Size := by
  simp [Pitch_Array, Pitch_Array_Size]

theorem TPI_Array_range : ∀ t ∈ TPI_Array, 1 ≤ t ∧ t ≤ 80 := by decide

theorem Pitch_Array_pos : ∀ p ∈ Pitch_Array, 0 < p := by
  intro p hp
  simp only [Pitch_Array, List.mem_cons, List.mem_singleton, List.not_mem_nil, or_false] at hp
  rcases hp with h | h | h | h | h | h | h | h | h | h | h | h | h | h | h | h | h | h | h | h | h <;>
    (rw [h]; norm_num)

theorem wrapInt32_of_fits (x : Int) (h0 : -2147483648 ≤ x) (h1 : x < 2147483648) :
    wrapInt32 x = x := by
  unfold wrapInt32
  omega

theorem TPI_square_fits (t : Int) (h0 : 1 ≤ t) (h1 : t ≤ 80) :
    wrapInt32 (t * t) = t * t ∧ 1 ≤ t * t ∧ t * t ≤ 6400 := by
  have hlo : 1 ≤ t * t := by nlinarith
  have hhi : t * t ≤ 6400 := by nlinarith
  exact ⟨wrapInt32_of_fits _ (by omega) (by omega), hlo, hhi⟩

theorem TPI_lookup (i : Int) (h0 : 0 ≤ i) (h1 : i < TPI_Array_Size) :
    ∃ t, index TPI_Array i = some t ∧ 1 ≤ t ∧ t ≤ 80 := by
  obtain ⟨t, ht⟩ := index_some_of_lt TPI_Array i h0 (by rw [TPI_Array_length]; exact h1)
  exact ⟨t, ht, TPI_Array_range t (index_mem _ _ _ ht)⟩

theorem Pitch_lookup (i : Int) (h0 : 0 ≤ i) (h1 : i < Pitch_Array_Size) :
    ∃ p, index Pitch_Array i = some p ∧ 0 < p := by
  obtain ⟨p, hp⟩ := index_some_of_lt Pitch_Array i h0 (by rw [Pitch_Array_length]; exact h1)
  exact ⟨p, hp, Pitch_Array_pos p (index_mem _ _ _ hp)⟩

/-- `Thread` in inch format, once the table entry is known. -/
theorem Thread_inch (s : Globals) (t : Int) (hm : s.Thread_Mode = 0)
    (ht : index TPI_Array s.TPI_Array_Pos = some t) :
    Thread s = some { s with
      TPI := t
      rpm := (LeadScrew_TPI : ℚ) * s.SpindleRPM / ((t : ℚ) * (t : ℚ))
      LeadScrew := s.LeadScrew ++
        [(LeadScrew_TPI : ℚ) * s.SpindleRPM / ((t : ℚ) * (t : ℚ)) / 60 * (LeadSPR : ℚ)] } := by
  obtain ⟨h1, h80⟩ := TPI_Array_range t (index_mem _ _ _ ht)
  obtain ⟨hw, hlo, _⟩ := TPI_square_fits t h1 h80
  have hne : t * t ≠ 0 := by omega
  simp [Thread, hm, ht, hw, hne]

/-- `Thread` in pitch format, once the table entry is known. -/
theorem Thread_pitch (s : Globals) (p : ℚ) (hm : s.Thread_Mode = 1)
    (hp : index Pitch_Array s.Pitch_Array_Pos = some p) :
    Thread s = some { s with
      Pitch := p
      rpm := 0.00155 * s.SpindleRPM * (LeadScrew_TPI : ℚ) * (p * p)
      LeadScrew := s.LeadScrew ++
        [0.00155 * s.SpindleRPM * (LeadScrew_TPI : ℚ) * (p * p) / 60 * (LeadSPR : ℚ)] } := by
  simp [Thread, hm, hp]

/-! ## Thread ratio -/

/-- C1: for every valid TPI index `i` (`0 ≤ i < 38`) and every `SpindleRPM`,
`Thread()` with `Thread_Mode == 0` and `TPI_Array_Pos == i` stores
`TPI_Array[i]` in `TPI` and `LeadScrew_TPI * SpindleRPM / (TPI_Array[i] *
TPI_Array[i])` in `rpm`, where `LeadScrew_TPI = 10`, over exact arithmetic. -/
theorem Thread_inch_leadscrew_rpm (s : Globals) (i : Int) (hm : s.Thread_Mode = 0)
    (hp : s.TPI_Array_Pos = i) (h0 : 0 ≤ i) (h1 : i < 38) :
    ∃ t s1, index TPI_Array i = some t ∧ Thread s = some s1 ∧ s1.TPI = t ∧
      s1.rpm = (LeadScrew_TPI : ℚ) * s.SpindleRPM / ((t : ℚ) * (t : ℚ)) ∧
      LeadScrew_TPI = 10 := by
  obtain ⟨t, ht, _, _⟩ := TPI_lookup i h0 h1
  refine ⟨t, _, ht, Thread_inch s t hm (by rw [hp]; exact ht), rfl, rfl, rfl⟩

theorem Thread_inch_leadscrew_rpm_witness :
    ∃ t s1, index TPI_Array 16 = some t ∧ Thread inch20at600 = some s1 ∧ s1.TPI = t ∧
      s1.rpm = (LeadScrew_TPI : ℚ) * inch20at600.SpindleRPM / ((t : ℚ) * (t : ℚ)) ∧
      LeadScrew_TPI = 10 :=
  Thread_inch_leadscrew_rpm inch20at600 16 rfl rfl (by decide) (by decide)

/-- C2: for every valid pitch index `i` (`0 ≤ i < 21`) and every `SpindleRPM`,
`Thread()` with `Thread_Mode == 1` and `Pitch_Array_Pos == i` stores
`Pitch_Array[i]` in `Pitch` and `0.00155 * SpindleRPM * LeadScrew_TPI *
Pitch_Array[i]^2` in `rpm`, over exact arithmetic; with pitch 1.0 (index 9),
`LeadScrew_TPI = 10` and `SpindleRPM = 600` that value is 9.3. -/
theorem Thread_pitch_leadscrew_rpm (s : Globals) (i : Int) (hm : s.Thread_Mode = 1)
    (hp : s.Pitch_Array_Pos = i) (h0 : 0 ≤ i) (h1 : i < 21) :
    (∃ p s1, index Pitch_Array i = some p ∧ Thread s = some s1 ∧ s1.Pitch = p ∧
      s1.rpm = 0.00155 * s.SpindleRPM * (LeadScrew_TPI : ℚ) * p ^ 2) ∧
    (index Pitch_Array 9 = some 1 ∧ pitch1at600.SpindleRPM = 600 ∧ LeadScrew_TPI = 10 ∧
      (Thread pitch1at600).map (fun s1 => s1.rpm) = some 9.3) := by
  have h9 : index Pitch_Array 9 = some 1 := by simp [index, Pitch_Array]
  refine ⟨?_, h9, rfl, rfl, ?_⟩
  · obtain ⟨p, hpi, _⟩ := Pitch_lookup i h0 h1
    refine ⟨p, _, hpi, Thread_pitch s p hm (by rw [hp]; exact hpi), rfl, ?_⟩
    simp only [pow_two]
  · rw [Thread_pitch pitch1at600 1 rfl h9]
    simp only [Option.map_some']
    norm_num [LeadScrew_TPI, pitch1at600, initial]

theorem Thread_pitch_leadscrew_rpm_witness :
    (∃ p s1, index Pitch_Array 9 = some p ∧ Thread pitch1at600 = some s1 ∧ s1.Pitch = p ∧
      s1.rpm = 0.00155 * pitch1at600.SpindleRPM * (LeadScrew_TPI : ℚ) * p ^ 2) ∧
    (index Pitch_Array 9 = some 1 ∧ pitch1at600.SpindleRPM = 600 ∧ LeadScrew_TPI = 10 ∧
      (Thread pitch1at600).map (fun s1 => s1.rpm) = some 9.3) :=
  Thread_pitch_leadscrew_rpm pitch1at600 9 rfl rfl (by decide) (by decide)

/-- C3: for `Thread_Mode` in `{0, 1}`, a valid index of the active table and
every `SpindleRPM`, the speed `Thread()` passes to `LeadScrew.setSpeed` is
`(rpm / 60) * LeadSPR` with `LeadSPR = 800`, `rpm` being the value the call has
just stored for the active format; in inch format that is
`800 * 10 * SpindleRPM / (60 * TPI^2)` steps per second. -/
theorem Thread_commanded_speed (s : Globals) (hv : validThreadSelection s) :
    ∃ s1, Thread s = some s1 ∧
      s1.LeadScrew = s.LeadScrew ++ [s1.rpm / 60 * (LeadSPR : ℚ)] ∧
      commandedSpeed s1 = some (s1.rpm / 60 * (LeadSPR : ℚ)) ∧
      LeadSPR = 800 ∧
      (s.Thread_Mode = 0 → ∃ t, index TPI_Array s.TPI_Array_Pos = some t ∧
        s1.rpm = (LeadScrew_TPI : ℚ) * s.SpindleRPM / ((t : ℚ) * (t : ℚ)) ∧
        commandedSpeed s1 = some (800 * 10 * s.SpindleRPM / (60 * (t : ℚ) ^ 2))) ∧
      (s.Thread_Mode = 1 → ∃ p, index Pitch_Array s.Pitch_Array_Pos = some p ∧
        s1.rpm = 0.00155 * s.SpindleRPM * (LeadScrew_TPI : ℚ) * (p * p)) := by
  rcases hv with ⟨hm, h0, h1⟩ | ⟨hm, h0, h1⟩
  · obtain ⟨t, ht, ht1, _⟩ := TPI_lookup _ h0 h1
    have htq : (t : ℚ) ≠ 0 := by
      have : (1 : ℚ) ≤ (t : ℚ) := by exact_mod_cast ht1
      linarith
    refine ⟨_, Thread_inch s t hm ht, rfl, ?_, rfl, ?_, ?_⟩
    · simp [commandedSpeed]
    · intro _
      refine ⟨t, ht, rfl, ?_⟩
      simp only [commandedSpeed, List.getLast?_append_of_ne_nil _ (List.cons_ne_nil _ _),
        List.getLast?_singleton, LeadScrew_TPI, LeadSPR, Option.some.injEq]
      field_simp
      ring
    · intro h; rw [hm] at h; cases h
  · obtain ⟨p, hp, _⟩ := Pitch_lookup _ h0 h1
    refine ⟨_, Thread_pitch s p hm hp, rfl, ?_, rfl, ?_, ?_⟩
    · simp [commandedSpeed]
    · intro h; rw [hm] at h; cases h
    · intro _
      exact ⟨p, hp, rfl⟩

theorem Thread_commanded_speed_witness :
    ∃ s1, Thread inch20at600 = some s1 ∧
      s1.LeadScrew = inch20at600.LeadScrew ++ [s1.rpm / 60 * (LeadSPR : ℚ)] ∧
      commandedSpeed s1 = some (s1.rpm / 60 * (LeadSPR : ℚ)) ∧
      LeadSPR = 800 ∧
      (inch20at600.Thread_Mode = 0 → ∃ t, index TPI_Array inch20at600.TPI_Array_Pos = some t ∧
        s1.rpm = (LeadScrew_TPI : ℚ) * inch20at600.SpindleRPM / ((t : ℚ) * (t : ℚ)) ∧
        commandedSpeed s1 = some (800 * 10 * inch20at600.SpindleRPM / (60 * (t : ℚ) ^ 2))) ∧
      (inch20at600.Thread_Mode = 1 → ∃ p, index Pitch_Array inch20at600.Pitch_Array_Pos = some p ∧
        s1.rpm = 0.00155 * inch20at600.SpindleRPM * (LeadScrew_TPI : ℚ) * (p * p)) :=
  Thread_commanded_speed inch20at600 (by decide)

/-- C4, as stated, fails: with `LeadScrew_TPI = 10`, `TPI = 20` (index 16) and
`SpindleRPM = 600` the leadscrew RPM stored by `Thread()` is not 1.5. -/
theorem Thread_inch20at600_rpm_ne :
    index TPI_Array inch20at600.TPI_Array_Pos = some 20 ∧ inch20at600.Thread_Mode = 0 ∧
    inch20at600.SpindleRPM = 600 ∧ LeadScrew_TPI = 10 ∧
    (Thread inch20at600).map (fun s1 => s1.rpm) ≠ some 1.5 := by
  refine ⟨by decide, rfl, rfl, rfl, ?_⟩
  rw [Thread_inch inch20at600 20 rfl (by decide)]
  simp only [Option.map_some']
  norm_num [LeadScrew_TPI, inch20at600, initial]

/-- C4, amended: with `LeadScrew_TPI = 10`, `TPI = 20` (index 16) and
`SpindleRPM = 600` the inch-thread leadscrew RPM stored by `Thread()` is
`10 * 600 / (20 * 20) = 15`. -/
theorem Thread_inch20at600_rpm :
    index TPI_Array inch20at600.TPI_Array_Pos = some 20 ∧ inch20at600.Thread_Mode = 0 ∧
    inch20at600.SpindleRPM = 600 ∧ LeadScrew_TPI = 10 ∧
    (Thread inch20at600).map (fun s1 => s1.rpm) = some 15 := by
  refine ⟨by decide, rfl, rfl, rfl, ?_⟩
  rw [Thread_inch inch20at600 20 rfl (by decide)]
  simp only [Option.map_some']
  norm_num [LeadScrew_TPI, inch20at600, initial]

/-- C5 at 20 TPI and 600 RPM: the leadscrew RPM stored by `Thread()` makes the
carriage advance `(rpm / SpindleRPM) * (1 / LeadScrew_TPI) = 1/400` inch per
spindle revolution, not the selected pitch of `1/20` inch. -/
theorem Thread_inch_advance_ne_pitch :
    index TPI_Array inch20at600.TPI_Array_Pos = some 20 ∧ inch20at600.Thread_Mode = 0 ∧
    0 < inch20at600.SpindleRPM ∧
    (Thread inch20at600).map
        (fun s1 => s1.rpm / inch20at600.SpindleRPM * (1 / (LeadScrew_TPI : ℚ))) =
      some (1 / 400) ∧
    (1 / 400 : ℚ) ≠ 1 / 20 := by
  refine ⟨by decide, rfl, by norm_num [inch20at600, initial], ?_, by norm_num⟩
  rw [Thread_inch inch20at600 20 rfl (by decide)]
  simp only [Option.map_some']
  norm_num [LeadScrew_TPI, inch20at600, initial]

/-- The carriage advance per spindle revolution that the inch formula of
`Thread()` produces is `1 / (TPI * TPI)` inch; it is the pitch `1 / TPI` only
for `TPI = 1`. -/
theorem Thread_inch_advance (s : Globals) (hm : s.Thread_Mode = 0)
    (h0 : 0 ≤ s.TPI_Array_Pos) (h1 : s.TPI_Array_Pos < 38) (hS : 0 < s.SpindleRPM) :
    ∃ t s1, index TPI_Array s.TPI_Array_Pos = some t ∧ Thread s = some s1 ∧
      s1.rpm / s.SpindleRPM * (1 / (LeadScrew_TPI : ℚ)) = 1 / ((t : ℚ) * (t : ℚ)) ∧
      (s1.rpm / s.SpindleRPM * (1 / (LeadScrew_TPI : ℚ)) = 1 / (t : ℚ) ↔ t = 1) := by
  obtain ⟨t, ht, ht1, _⟩ := TPI_lookup _ h0 h1
  have htq : (0 : ℚ) < (t : ℚ) := by
    have : (1 : ℚ) ≤ (t : ℚ) := by exact_mod_cast ht1
    linarith
  have hadv : (LeadScrew_TPI : ℚ) * s.SpindleRPM / ((t : ℚ) * (t : ℚ)) / s.SpindleRPM *
      (1 / (LeadScrew_TPI : ℚ)) = 1 / ((t : ℚ) * (t : ℚ)) := by
    have hS0 : s.SpindleRPM ≠ 0 := ne_of_gt hS
    simp only [LeadScrew_TPI]
    field_simp
    ring
  refine ⟨t, _, ht, Thread_inch s t hm ht, hadv, ?_⟩
  show (LeadScrew_TPI : ℚ) * s.SpindleRPM / ((t : ℚ) * (t : ℚ)) / s.SpindleRPM *
      (1 / (LeadScrew_TPI : ℚ)) = 1 / (t : ℚ) ↔ t = 1
  rw [hadv]
  constructor
  · intro h
    have h2 : (t : ℚ) * (t : ℚ) = (t : ℚ) := by
      field_simp at h
      nlinarith [h]
    have h3 : (t : ℚ) = 1 := by
      have : (t : ℚ) * ((t : ℚ) - 1) = 0 := by ring_nf; linarith
      rcases mul_eq_zero.mp this with h4 | h4
      · linarith
      · linarith
    exact_mod_cast h3
  · intro h
    rw [h]
    norm_num

/-- C6: every one of the 38 entries of `TPI_Array` is an integer `≥ 1` and
every one of the 21 entries of `Pitch_Array` is `> 0`; so for every valid
`TPI_Array_Pos` the divisor `TPI * TPI` of the inch formula is computed without
32-bit overflow, is non-zero and at most `80 * 80 = 6400` (reached at index
37), and `Thread()` returns a result. -/
theorem Thread_divisor_nonzero (s : Globals) (hm : s.Thread_Mode = 0)
    (h0 : 0 ≤ s.TPI_Array_Pos) (h1 : s.TPI_Array_Pos < 38) :
    (TPI_Array.length = 38 ∧ ∀ t ∈ TPI_Array, 1 ≤ t) ∧
    (Pitch_Array.length = 21 ∧ ∀ p ∈ Pitch_Array, 0 < p) ∧
    (∃ t, index TPI_Array s.TPI_Array_Pos = some t ∧ 1 ≤ t ∧
      wrapInt32 (t * t) = t * t ∧ t * t ≠ 0 ∧ t * t ≤ 6400 ∧ (6400 : Int) < 2 ^ 31) ∧
    index TPI_Array 37 = some 80 ∧
    (Thread s).isSome = true := by
  obtain ⟨t, ht, ht1, ht80⟩ := TPI_lookup _ h0 h1
  obtain ⟨hw, hlo, hhi⟩ := TPI_square_fits t ht1 ht80
  refine ⟨⟨by decide, fun t ht => (TPI_Array_range t ht).1⟩,
    ⟨by simp [Pitch_Array], Pitch_Array_pos⟩,
    ⟨t, ht, ht1, hw, by omega, hhi, by norm_num⟩, by decide, ?_⟩
  rw [Thread_inch s t hm ht]
  rfl

theorem Thread_divisor_nonzero_witness :
    (TPI_Array.length = 38 ∧ ∀ t ∈ TPI_Array, 1 ≤ t) ∧
    (Pitch_Array.length = 21 ∧ ∀ p ∈ Pitch_Array, 0 < p) ∧
    (∃ t, index TPI_Array initial.TPI_Array_Pos = some t ∧ 1 ≤ t ∧
      wrapInt32 (t * t) = t * t ∧ t * t ≠ 0 ∧ t * t ≤ 6400 ∧ (6400 : Int) < 2 ^ 31) ∧
    index TPI_Array 37 = some 80 ∧
    (Thread initial).isSome = true :=
  Thread_divisor_nonzero initial rfl (by decide) (by decide)

/-! ## Sign of the commanded speed -/

/-- For a fixed thread format and table index the commanded speed is a positive
constant times `SpindleRPM`; `Thread` leaves `S_Dir` alone. -/
theorem Thread_speed_factor (m tp pp : Int)
    (hv : (m = 0 ∧ 0 ≤ tp ∧ tp < TPI_Array_Size) ∨ (m = 1 ∧ 0 ≤ pp ∧ pp < Pitch_Array_Size)) :
    ∃ k : ℚ, 0 < k ∧ ∀ s : Globals, s.Thread_Mode = m → s.TPI_Array_Pos = tp →
      s.Pitch_Array_Pos = pp →
      ∃ s1, Thread s = some s1 ∧ s1.LeadScrew = s.LeadScrew ++ [k * s.SpindleRPM] ∧
        s1.S_Dir = s.S_Dir := by
  rcases hv with ⟨hm, h0, h1⟩ | ⟨hm, h0, h1⟩
  · obtain ⟨t, ht, ht1, _⟩ := TPI_lookup tp h0 h1
    have htq : (0 : ℚ) < (t : ℚ) := by
      have : (1 : ℚ) ≤ (t : ℚ) := by exact_mod_cast ht1
      linarith
    refine ⟨(LeadScrew_TPI : ℚ) / ((t : ℚ) * (t : ℚ)) / 60 * (LeadSPR : ℚ), ?_, ?_⟩
    · have : (0 : ℚ) < (t : ℚ) * (t : ℚ) := mul_pos htq htq
      simp only [LeadScrew_TPI, LeadSPR]
      positivity
    · intro s hsm hst _
      refine ⟨_, Thread_inch s t (hsm.trans hm) (by rw [hst]; exact ht), ?_, rfl⟩
      show s.LeadScrew ++ _ = s.LeadScrew ++ _
      congr 2
      ring
  · obtain ⟨p, hp, hp0⟩ := Pitch_lookup pp h0 h1
    refine ⟨0.00155 * (LeadScrew_TPI : ℚ) * (p * p) / 60 * (LeadSPR : ℚ), ?_, ?_⟩
    · have : (0 : ℚ) < p * p := mul_pos hp0 hp0
      simp only [LeadScrew_TPI, LeadSPR]
      positivity
    · intro s hsm _ hsp
      refine ⟨_, Thread_pitch s p (hsm.trans hm) (by rw [hsp]; exact hp), ?_, rfl⟩
      show s.LeadScrew ++ _ = s.LeadScrew ++ _
      congr 2
      ring

/-- One admitted call of `Thread` appends one speed, which is not negative. -/
theorem Thread_step_nonneg (s : Globals) (x : ThreadInput) (hx : validInput x) :
    ∃ s1 v, Thread (setInput s x) = some s1 ∧ s1.LeadScrew = s.LeadScrew ++ [v] ∧ 0 ≤ v := by
  obtain ⟨k, hk, hall⟩ := Thread_speed_factor x.Thread_Mode x.TPI_Array_Pos x.Pitch_Array_Pos hx.1
  obtain ⟨s1, h1, h2, _⟩ := hall (setInput s x) rfl rfl rfl
  exact ⟨s1, _, h1, h2, mul_nonneg (le_of_lt hk) hx.2⟩

/-- C8: for every sequence of `Thread()` calls with `Thread_Mode` in `{0, 1}`,
a valid index of the active table and `SpindleRPM ≥ 0`, every call returns,
each appends one speed to what `LeadScrew.setSpeed` has received, every such
speed is `≥ 0`, and so no two consecutive ones are non-zero and of opposite
sign. -/
theorem ThreadCalls_speeds_nonneg (s : Globals) (xs : List ThreadInput)
    (hv : ∀ x ∈ xs, validInput x) :
    ∃ s1 speeds, ThreadCalls s xs = some s1 ∧ s1.LeadScrew = s.LeadScrew ++ speeds ∧
      speeds.length = xs.length ∧ (∀ v ∈ speeds, 0 ≤ v) ∧
      (∀ (k : Nat) (a b : ℚ), speeds[k]? = some a → speeds[k + 1]? = some b →
        ¬ oppositeSigns a b) := by
  have key : ∀ (xs : List ThreadInput) (s : Globals), (∀ x ∈ xs, validInput x) →
      ∃ s1 speeds, ThreadCalls s xs = some s1 ∧ s1.LeadScrew = s.LeadScrew ++ speeds ∧
        speeds.length = xs.length ∧ (∀ v ∈ speeds, 0 ≤ v) := by
    intro xs
    induction xs with
    | nil =>
      intro s _
      exact ⟨s, [], rfl, by simp, rfl, by simp⟩
    | cons x xs ih =>
      intro s hv
      obtain ⟨s1, v, h1, h2, h3⟩ := Thread_step_nonneg s x (hv x (List.mem_cons_self _ _))
      obtain ⟨s2, rest, g1, g2, g3, g4⟩ := ih s1 (fun y hy => hv y (List.mem_cons_of_mem _ hy))
      refine ⟨s2, v :: rest, ?_, ?_, ?_, ?_⟩
      · simp only [ThreadCalls, h1]
        exact g1
      · rw [g2, h2]
        simp
      · simp [g3]
      · intro w hw
        rcases List.mem_cons.mp hw with h | h
        · rw [h]; exact h3
        · exact g4 w h
  obtain ⟨s1, speeds, h1, h2, h3, h4⟩ := key xs s hv
  refine ⟨s1, speeds, h1, h2, h3, h4, ?_⟩
  intro k a b ha hb hopp
  have ha0 := h4 a (List.getElem?_mem ha)
  have hb0 := h4 b (List.getElem?_mem hb)
  have : 0 ≤ a * b := mul_nonneg ha0 hb0
  unfold oppositeSigns at hopp
  linarith

theorem ThreadCalls_speeds_nonneg_witness :
    ∃ s1 speeds,
      ThreadCalls initial [⟨0, 16, 5, 600⟩, ⟨1, 17, 9, 0⟩, ⟨0, 37, 5, 1200⟩] = some s1 ∧
      s1.LeadScrew = initial.LeadScrew ++ speeds ∧
      speeds.length = [(⟨0, 16, 5, 600⟩ : ThreadInput), ⟨1, 17, 9, 0⟩, ⟨0, 37, 5, 1200⟩].length ∧
      (∀ v ∈ speeds, 0 ≤ v) ∧
      (∀ (k : Nat) (a b : ℚ), speeds[k]? = some a → speeds[k + 1]? = some b →
        ¬ oppositeSigns a b) :=
  ThreadCalls_speeds_nonneg initial [⟨0, 16, 5, 600⟩, ⟨1, 17, 9, 0⟩, ⟨0, 37, 5, 1200⟩]
    (by
      intro x hx
      simp only [List.mem_cons, List.mem_singleton, List.not_mem_nil, or_false] at hx
      rcases hx with h | h | h <;> (rw [h]; norm_num [validInput, TPI_Array_Size, Pitch_Array_Size]))

/-- C9, as stated, fails: with the direction parked (`S_Dir == 2`), 20 TPI
selected and the spindle at 600 RPM, `Thread()` passes 200 steps per second to
`LeadScrew.setSpeed`, not 0. -/
theorem Thread_parked_speed_nonzero :
    inch20at600.S_Dir = 2 ∧ validThreadSelection inch20at600 ∧
    (Thread inch20at600).bind commandedSpeed = some 200 ∧ (200 : ℚ) ≠ 0 := by
  refine ⟨rfl, by decide, ?_, by norm_num⟩
  rw [Thread_inch inch20at600 20 rfl (by decide)]
  simp only [Option.some_bind, commandedSpeed,
    List.getLast?_append_of_ne_nil _ (List.cons_ne_nil _ _), List.getLast?_singleton]
  norm_num [LeadScrew_TPI, LeadSPR, inch20at600, initial]

/-- C9, amended: in every state where the direction is park (`S_Dir == 2`),
for `Thread_Mode` in `{0, 1}` and a valid index of the active table, the speed
`Thread()` passes to `LeadScrew.setSpeed` is 0 exactly when `SpindleRPM == 0`;
`Thread()` does not consult `S_Dir` (the same speed is commanded for every
value of `S_Dir`) and leaves it at park. -/
theorem Thread_parked_speed (s : Globals) (hd : s.S_Dir = 2) (hv : validThreadSelection s) :
    ∃ s1 v, Thread s = some s1 ∧ commandedSpeed s1 = some v ∧
      (v = 0 ↔ s.SpindleRPM = 0) ∧ s1.S_Dir = 2 ∧
      ∀ d : Int, (Thread { s with S_Dir := d }).bind commandedSpeed = some v := by
  obtain ⟨k, hk, hall⟩ := Thread_speed_factor s.Thread_Mode s.TPI_Array_Pos s.Pitch_Array_Pos hv
  obtain ⟨s1, h1, h2, h3⟩ := hall s rfl rfl rfl
  refine ⟨s1, k * s.SpindleRPM, h1, ?_, ?_, h3.trans hd, ?_⟩
  · simp [commandedSpeed, h2]
  · constructor
    · intro h
      rcases mul_eq_zero.mp h with h0 | h0
      · exact absurd h0 (ne_of_gt hk)
      · exact h0
    · intro h
      rw [h, mul_zero]
  · intro d
    obtain ⟨s2, g1, g2, _⟩ := hall { s with S_Dir := d } rfl rfl rfl
    rw [g1]
    simp [commandedSpeed, g2]

theorem Thread_parked_speed_witness :
    ∃ s1 v, Thread initial = some s1 ∧ commandedSpeed s1 = some v ∧
      (v = 0 ↔ initial.SpindleRPM = 0) ∧ s1.S_Dir = 2 ∧
      ∀ d : Int, (Thread { initial with S_Dir := d }).bind commandedSpeed = some v :=
  Thread_parked_speed initial rfl (by decide)

/-! ## Selection indices and frame of the menu and display code -/

theorem Mode_Array_length : (Mode_Array.length : Int) = Mode_Array_Size := by decide

theorem validIndices_congr (s1 s : Globals) (h : indices s1 = indices s)
    (hv : validIndices s) : validIndices s1 := by
  simp only [indices, List.cons.injEq, and_true] at h
  obtain ⟨h1, h2, h3, h4, h5⟩ := h
  unfold validIndices
  rw [h1, h2, h3, h4, h5]
  exact hv

theorem indices_feedDraw (s : Globals) (ops : List DisplayOp) :
    indices (feedDraw s ops) = indices s := rfl

theorem indices_center (s : Globals) (n : Int) : indices (center s n).1 = indices s := rfl

theorem Main_Menu_Feed_indices (s : Globals) :
    ∃ s1, Main_Menu_Feed s = some s1 ∧ indices s1 = indices s := by
  have h0 : index Measure_Array 0 = some "In" := by decide
  have h1 : index Measure_Array 1 = some "mm" := by decide
  unfold Main_Menu_Feed
  rw [h0, h1]
  exact ⟨_, rfl, rfl⟩

theorem Main_Menu_Thread_indices (s : Globals) (hv : validIndices s) :
    ∃ s1, Main_Menu_Thread s = some s1 ∧ indices s1 = indices s := by
  obtain ⟨_, _, _, ⟨ht0, ht1⟩, ⟨hp0, hp1⟩⟩ := hv
  obtain ⟨t, ht, _⟩ := TPI_lookup _ ht0 ht1
  obtain ⟨p, hp, _⟩ := Pitch_lookup _ hp0 hp1
  unfold Main_Menu_Thread
  by_cases hm : s.Thread_Mode = 0
  · rw [if_pos hm, ht]
    exact ⟨_, rfl, rfl⟩
  · rw [if_neg hm, hp]
    exact ⟨_, rfl, rfl⟩

theorem Main_Menu_indices (s : Globals) (hv : validIndices s) :
    ∃ s1, Main_Menu s = some s1 ∧ indices s1 = indices s := by
  obtain ⟨name, hname⟩ := index_some_of_lt Mode_Array s.Mode_Array_Pos hv.2.1.1
    (by rw [Mode_Array_length]; exact hv.2.1.2)
  have step4 : ∀ s3 : Globals, indices s3 = indices s →
      ∃ s4, (if s3.Mode_Array_Pos = 0 then Main_Menu_Feed s3 else some s3) = some s4 ∧
        indices s4 = indices s := by
    intro s3 h3
    by_cases hc : s3.Mode_Array_Pos = 0
    · obtain ⟨s4, g1, g2⟩ := Main_Menu_Feed_indices s3
      exact ⟨s4, by rw [if_pos hc]; exact g1, g2.trans h3⟩
    · exact ⟨s3, by rw [if_neg hc], h3⟩
  have step5 : ∀ s4 : Globals, indices s4 = indices s →
      ∃ s5, (if s4.Mode_Array_Pos = 1 then Main_Menu_Thread s4 else some s4) = some s5 ∧
        indices s5 = indices s := by
    intro s4 h4
    by_cases hc : s4.Mode_Array_Pos = 1
    · obtain ⟨s5, g1, g2⟩ := Main_Menu_Thread_indices s4 (validIndices_congr s4 s h4 hv)
      exact ⟨s5, by rw [if_pos hc]; exact g1, g2.trans h4⟩
    · exact ⟨s4, by rw [if_neg hc], h4⟩
  have step6 : ∀ s5 : Globals, indices s5 = indices s →
      indices (if s5.Mode_Array_Pos > 1 then Main_Menu_ComingSoon s5 else s5) = indices s := by
    intro s5 h5
    by_cases hc : s5.Mode_Array_Pos > 1
    · rw [if_pos hc]; exact h5
    · rw [if_neg hc]; exact h5
  unfold Main_Menu
  rw [hname]
  obtain ⟨s4, g4, i4⟩ := step4
    (feedDraw (center (feedDraw s [ .clearDisplay, .setTextColor .SSD1327_WHITE,
      .setTextSize 2 ]) (name.length : Int)).1
      [ .setCursor (center (feedDraw s [ .clearDisplay, .setTextColor .SSD1327_WHITE,
      .setTextSize 2 ]) (name.length : Int)).2 0, .println name ])
    (by rw [indices_feedDraw, indices_center, indices_feedDraw])
  obtain ⟨s5, g5, i5⟩ := step5 s4 i4
  refine ⟨_, ?_, step6 s5 i5⟩
  simp only [g4, g5, Option.some_bind]

theorem Thread_indices (s : Globals) (hv : validIndices s) :
    ∃ s1, Thread s = some s1 ∧ indices s1 = indices s := by
  obtain ⟨_, _, _, ⟨ht0, ht1⟩, ⟨hp0, hp1⟩⟩ := hv
  by_cases hm : s.Thread_Mode = 0
  · obtain ⟨t, ht, _⟩ := TPI_lookup _ ht0 ht1
    exact ⟨_, Thread_inch s t hm ht, rfl⟩
  · by_cases hm1 : s.Thread_Mode = 1
    · obtain ⟨p, hp, _⟩ := Pitch_lookup _ hp0 hp1
      exact ⟨_, Thread_pitch s p hm1 hp, rfl⟩
    · refine ⟨{ s with LeadScrew := s.LeadScrew ++ [s.rpm / 60 * (LeadSPR : ℚ)] }, ?_, rfl⟩
      simp [Thread, hm, hm1]

theorem in_Minor_Diameter_indices (s : Globals) (hv : validIndices s) :
    ∃ s1, in_Minor_Diameter s = some s1 ∧ indices s1 = indices s ∧
      s1.Thread_Mode = s.Thread_Mode ∧ s1.SpindleRPM = s.SpindleRPM := by
  obtain ⟨_, _, _, ⟨ht0, ht1⟩, _⟩ := hv
  obtain ⟨t, ht, ht1, _⟩ := TPI_lookup _ ht0 ht1
  have hne : t ≠ 0 := by omega
  unfold in_Minor_Diameter
  simp only [ht, if_neg hne]
  exact ⟨_, rfl, rfl, rfl, rfl⟩

theorem mm_Minor_Diameter_indices (s : Globals) (hv : validIndices s) :
    ∃ s1, mm_Minor_Diameter s = some s1 ∧ indices s1 = indices s := by
  obtain ⟨_, _, _, _, ⟨hp0, hp1⟩⟩ := hv
  obtain ⟨p, hp, _⟩ := Pitch_lookup _ hp0 hp1
  unfold mm_Minor_Diameter
  simp only [hp]
  exact ⟨_, rfl, rfl⟩

theorem Auto_Thread_indices (s : Globals) (hv : validIndices s) :
    ∃ s1, Auto_Thread s = some s1 ∧ indices s1 = indices s := by
  have hv1 : validIndices (Spindle_Angle s) := hv
  unfold Auto_Thread
  by_cases hc : (Spindle_Angle s).Thread_Mode = 0 ∧ (Spindle_Angle s).SpindleRPM = 0
  · obtain ⟨s2, g1, g2, g3, g4⟩ := in_Minor_Diameter_indices (Spindle_Angle s) hv1
    have hn : ¬ (s2.Thread_Mode = 1 ∧ s2.SpindleRPM = 0) := by
      rw [g3, hc.1]; simp
    simp only [if_pos hc, g1, if_neg hn]
    exact ⟨s2, rfl, g2⟩
  · simp only [if_neg hc]
    by_cases hc2 : (Spindle_Angle s).Thread_Mode = 1 ∧ (Spindle_Angle s).SpindleRPM = 0
    · obtain ⟨s3, g1, g2⟩ := mm_Minor_Diameter_indices (Spindle_Angle s) hv1
      rw [if_pos hc2]
      exact ⟨s3, g1, g2⟩
    · rw [if_neg hc2]
      exact ⟨_, rfl, rfl⟩

/-- With the spindle turning and the mode neither Feed nor A-Turn, the blocks of
`Refresh` after the encoder guard only drive the seven-segment display. -/
theorem Refresh_blocks_idle (c : Collaborators) (s : Globals) (hr : s.SpindleRPM ≠ 0)
    (h0 : s.Mode_Array_Pos ≠ 0) (h3 : s.Mode_Array_Pos ≠ 3) :
    Refresh c s = some (Seven_Segment
      (if s.Enc1 ≠ s.Mode_Array_Pos then { s with Enc1 := s.Mode_Array_Pos } else s),
      [Call.Seven_Segment]) := by
  by_cases he : s.Enc1 = s.Mode_Array_Pos
  · simp [Refresh, Refresh_menu, Refresh_feed, Refresh_auto_turn, Refresh_graph, Seven_Segment,
      hr, h0, h3, he]
  · simp [Refresh, Refresh_menu, Refresh_feed, Refresh_auto_turn, Refresh_graph, Seven_Segment,
      hr, h0, h3, he]

/-- C10: in the initial state every selection index is an index of its table
(`Direction_Array_Pos = 0 < 2`, `Mode_Array_Pos = 0 < 8`, `Measure_Array_Pos =
0 < 2`, `TPI_Array_Pos = 17 < 38`, `Pitch_Array_Pos = 5 < 21`); and from every
state with valid indices each of `Thread`, `Auto_Thread`, `in_Minor_Diameter`,
`mm_Minor_Diameter`, `Main_Menu`, `Feed_Adjust` and `Seven_Segment` returns
(every table subscript it performs is in range) and leaves the five indices
unchanged, hence valid. -/
theorem selection_indices_invariant (s : Globals) (hv : validIndices s) :
    (validIndices initial ∧ indices initial = [0, 0, 0, 17, 5] ∧
      Direction_Array.length = 2 ∧ Mode_Array.length = 8 ∧ Measure_Array.length = 2 ∧
      TPI_Array.length = 38 ∧ Pitch_Array.length = 21) ∧
    (∃ s1, Thread s = some s1 ∧ indices s1 = indices s ∧ validIndices s1) ∧
    (∃ s1, Auto_Thread s = some s1 ∧ indices s1 = indices s ∧ validIndices s1) ∧
    (∃ s1, in_Minor_Diameter s = some s1 ∧ indices s1 = indices s ∧ validIndices s1) ∧
    (∃ s1, mm_Minor_Diameter s = some s1 ∧ indices s1 = indices s ∧ validIndices s1) ∧
    (∃ s1, Main_Menu s = some s1 ∧ indices s1 = indices s ∧ validIndices s1) ∧
    (indices (Feed_Adjust s) = indices s ∧ validIndices (Feed_Adjust s)) ∧
    (indices (Seven_Segment s) = indices s ∧ validIndices (Seven_Segment s)) := by
  refine ⟨⟨by decide, rfl, rfl, rfl, rfl, rfl, by simp [Pitch_Array]⟩, ?_, ?_, ?_, ?_, ?_,
    ⟨rfl, hv⟩, ⟨rfl, hv⟩⟩
  · obtain ⟨s1, h1, h2⟩ := Thread_indices s hv
    exact ⟨s1, h1, h2, validIndices_congr s1 s h2 hv⟩
  · obtain ⟨s1, h1, h2⟩ := Auto_Thread_indices s hv
    exact ⟨s1, h1, h2, validIndices_congr s1 s h2 hv⟩
  · obtain ⟨s1, h1, h2, _⟩ := in_Minor_Diameter_indices s hv
    exact ⟨s1, h1, h2, validIndices_congr s1 s h2 hv⟩
  · obtain ⟨s1, h1, h2⟩ := mm_Minor_Diameter_indices s hv
    exact ⟨s1, h1, h2, validIndices_congr s1 s h2 hv⟩
  · obtain ⟨s1, h1, h2⟩ := Main_Menu_indices s hv
    exact ⟨s1, h1, h2, validIndices_congr s1 s h2 hv⟩

theorem selection_indices_invariant_witness :
    (validIndices initial ∧ indices initial = [0, 0, 0, 17, 5] ∧
      Direction_Array.length = 2 ∧ Mode_Array.length = 8 ∧ Measure_Array.length = 2 ∧
      TPI_Array.length = 38 ∧ Pitch_Array.length = 21) ∧
    (∃ s1, Thread initial = some s1 ∧ indices s1 = indices initial ∧ validIndices s1) ∧
    (∃ s1, Auto_Thread initial = some s1 ∧ indices s1 = indices initial ∧ validIndices s1) ∧
    (∃ s1, in_Minor_Diameter initial = some s1 ∧ indices s1 = indices initial ∧
      validIndices s1) ∧
    (∃ s1, mm_Minor_Diameter initial = some s1 ∧ indices s1 = indices initial ∧
      validIndices s1) ∧
    (∃ s1, Main_Menu initial = some s1 ∧ indices s1 = indices initial ∧ validIndices s1) ∧
    (indices (Feed_Adjust initial) = indices initial ∧ validIndices (Feed_Adjust initial)) ∧
    (indices (Seven_Segment initial) = indices initial ∧
      validIndices (Seven_Segment initial)) :=
  selection_indices_invariant initial (by decide)

/-! ## Thread geometry -/

/-- `in_Minor_Diameter`, once the table entry is known. -/
theorem in_Minor_Diameter_eq (s : Globals) (t : Int) (ht : index TPI_Array s.TPI_Array_Pos = some t) :
    in_Minor_Diameter s = some { s with
      TPI := t
      in_Thread_Depth := 0.625 * (0.866025404 * ((Int.tdiv 1 t : Int) : ℚ)) } := by
  obtain ⟨h1, _⟩ := TPI_Array_range t (index_mem _ _ _ ht)
  have hne : t ≠ 0 := by omega
  unfold in_Minor_Diameter
  simp only [ht, if_neg hne]

/-- For every table entry other than 1 the `int` quotient `1/TPI` is 0, and so
is the inch thread depth that `in_Minor_Diameter` stores. -/
theorem in_Minor_Diameter_depth_zero (s : Globals) (t : Int)
    (ht : index TPI_Array s.TPI_Array_Pos = some t) (h2 : 2 ≤ t) :
    (in_Minor_Diameter s).map (fun s1 => s1.in_Thread_Depth) = some 0 := by
  rw [in_Minor_Diameter_eq s t ht]
  have hq : Int.tdiv 1 t = 0 := Int.tdiv_eq_zero_of_lt (by norm_num) (by omega)
  simp [hq]

/-- C12 at 20 TPI: `in_Minor_Diameter()` stores `TPI = 20` and, `1/TPI` being a
quotient of two `int`s, `in_Thread_Depth = 0`, not
`0.625 * 0.866025404 * (1 / 20)` (about 0.02706). -/
theorem in_Minor_Diameter_depth_at_20 :
    index TPI_Array inch20stopped.TPI_Array_Pos = some 20 ∧
    (in_Minor_Diameter inch20stopped).map (fun s1 => (s1.TPI, s1.in_Thread_Depth)) =
      some (20, 0) ∧
    (0.625 * 0.866025404 * (1 / 20) : ℚ) ≠ 0 := by
  have ht : index TPI_Array inch20stopped.TPI_Array_Pos = some 20 := by decide
  refine ⟨ht, ?_, by norm_num⟩
  rw [in_Minor_Diameter_eq inch20stopped 20 ht]
  have hq : Int.tdiv 1 20 = 0 := by decide
  simp [hq]

theorem toUInt32_natCast_div (a d : Nat) :
    toUInt32 ((a : ℚ) / (d : ℚ)) = min 4294967295 (a / d) := by
  unfold toUInt32
  rw [Nat.floor_div_eq_div]

theorem toUInt32_le (q : ℚ) : toUInt32 q ≤ 4294967295 := by
  unfold toUInt32
  exact min_le_left _ _

/-- The initial period count for a clock of `f` Hz and an interval in
microseconds. -/
theorem initial_period_eq (f interval : Nat) :
    toUInt32 (((f : ℚ) / 2000000) * (interval : ℚ)) =
      min 4294967295 (f * interval / 2000000) := by
  have h : ((f : ℚ) / 2000000) * (interval : ℚ) = ((f * interval : Nat) : ℚ) / ((2000000 : Nat) : ℚ) := by
    push_cast
    ring
  rw [h, toUInt32_natCast_div]

/-- One test of the `while` of the Teensy 4 prescale search. -/
theorem Teensy4_prescaleLoop_step (fuel period prescale : Nat) :
    Teensy4.prescaleLoop (fuel + 1) period prescale =
      if period > 32767 then
        (if prescale + 1 > 7 then some (32767, 7)
         else Teensy4.prescaleLoop fuel (period / 2) (prescale + 1))
      else some (period, prescale) := by
  rw [Teensy4.prescaleLoop]
  simp [Nat.shiftRight_eq_div_pow]

/-- The prescale search of the Teensy 4 variant ends within 8 tests, with a
period of at most 15 bits and a prescale of at most 7; the scaled period does
not exceed the initial one, and an initial period of `32767 * 128` or more
ends at `(32767, 7)`. -/
theorem Teensy4_prescaleLoop_spec (p0 : Nat) :
    ∃ period prescale, Teensy4.prescaleLoop 8 p0 0 = some (period, prescale) ∧
      period ≤ 32767 ∧ prescale ≤ 7 ∧ period * 2 ^ prescale ≤ p0 ∧
      (4194176 ≤ p0 → period = 32767 ∧ prescale = 7) := by
  rw [show (8 : Nat) = 7 + 1 from rfl, Teensy4_prescaleLoop_step]
  by_cases c0 : p0 > 32767
  swap
  · rw [if_neg c0]; exact ⟨_, _, rfl, by omega, by omega, by omega, by omega⟩
  rw [if_pos c0, if_neg (by omega), show (7 : Nat) = 6 + 1 from rfl,
    Teensy4_prescaleLoop_step]
  by_cases c1 : p0 / 2 > 32767
  swap
  · rw [if_neg c1]; exact ⟨_, _, rfl, by omega, by omega, by omega, by omega⟩
  rw [if_pos c1, if_neg (by omega), show (6 : Nat) = 5 + 1 from rfl,
    Teensy4_prescaleLoop_step]
  by_cases c2 : p0 / 2 / 2 > 32767
  swap
  · rw [if_neg c2]; exact ⟨_, _, rfl, by omega, by omega, by omega, by omega⟩
  rw [if_pos c2, if_neg (by omega), show (5 : Nat) = 4 + 1 from rfl,
    Teensy4_prescaleLoop_step]
  by_cases c3 : p0 / 2 / 2 / 2 > 32767
  swap
  · rw [if_neg c3]; exact ⟨_, _, rfl, by omega, by omega, by omega, by omega⟩
  rw [if_pos c3, if_neg (by omega), show (4 : Nat) = 3 + 1 from rfl,
    Teensy4_prescaleLoop_step]
  by_cases c4 : p0 / 2 / 2 / 2 / 2 > 32767
  swap
  · rw [if_neg c4]; exact ⟨_, _, rfl, by omega, by omega, by omega, by omega⟩
  rw [if_pos c4, if_neg (by omega), show (3 : Nat) = 2 + 1 from rfl,
    Teensy4_prescaleLoop_step]
  by_cases c5 : p0 / 2 / 2 / 2 / 2 / 2 > 32767
  swap
  · rw [if_neg c5]; exact ⟨_, _, rfl, by omega, by omega, by omega, by omega⟩
  rw [if_pos c5, if_neg (by omega), show (2 : Nat) = 1 + 1 from rfl,
    Teensy4_prescaleLoop_step]
  by_cases c6 : p0 / 2 / 2 / 2 / 2 / 2 / 2 > 32767
  swap
  · rw [if_neg c6]; exact ⟨_, _, rfl, by omega, by omega, by omega, by omega⟩
  rw [if_pos c6, if_neg (by omega), show (1 : Nat) = 0 + 1 from rfl,
    Teensy4_prescaleLoop_step]
  by_cases c7 : p0 / 2 / 2 / 2 / 2 / 2 / 2 / 2 > 32767
  swap
  · rw [if_neg c7]; exact ⟨_, _, rfl, by omega, by omega, by omega, by omega⟩
  rw [if_pos c7, if_pos (by omega)]
  exact ⟨_, _, rfl, by omega, by omega, by omega, by omega⟩

/-- The `while (period >= TIMER_RESOLUTION)` of the Teensy 3.x variant computes
what the `while (period > 32767)` of the Teensy 4 variant computes. -/
theorem Teensy3_prescaleLoop_eq (fuel period prescale : Nat) :
    Teensy3.prescaleLoop fuel period prescale = Teensy4.prescaleLoop fuel period prescale := by
  induction fuel generalizing period prescale with
  | zero => rfl
  | succ n ih =>
    rw [Teensy3.prescaleLoop, Teensy4.prescaleLoop]
    simp only [TIMER_RESOLUTION, ih]
    by_cases h : period > 32767
    · have h1 : period ≥ 32768 := h
      simp only [if_pos h, if_pos h1]
    · have h1 : ¬ period ≥ 32768 := by omega
      simp only [if_neg h, if_neg h1]

/-- The prescale search of the Teensy 3.x variant: same outcome. -/
theorem Teensy3_prescaleLoop_spec (p0 : Nat) :
    ∃ period prescale, Teensy3.prescaleLoop 8 p0 0 = some (period, prescale) ∧
      period ≤ 32767 ∧ prescale ≤ 7 ∧ period * 2 ^ prescale ≤ p0 ∧
      (4194176 ≤ p0 → period = 32767 ∧ prescale = 7) := by
  rw [Teensy3_prescaleLoop_eq]
  exact Teensy4_prescaleLoop_spec p0

/-- The prescaler choice of the Teensy 2.0 variant leaves a period of at most
15 bits. -/
theorem Teensy2_choosePrescale_period (cs0 cs1 cs2 p0 : Nat) (h : p0 ≤ 4294967295) :
    (Teensy2.choosePrescale cs0 cs1 cs2 p0).2 ≤ 32767 := by
  simp only [Teensy2.choosePrescale, TIMER_RESOLUTION, Nat.shiftRight_eq_div_pow]
  split_ifs <;> simp only [] <;> omega

/-- The result of the Teensy 4 `setInterval` for a non-NULL callback. -/
theorem Teensy4_setInterval_some (b : Board) (t : TeensyTimerInterrupt) (interval cb : Nat) :
    ∃ period prescale,
      Teensy4.prescaleLoop 8 (toUInt32 (((b.F_BUS_ACTUAL : ℚ) / 2000000) * (interval : ℚ))) 0 =
        some (period, prescale) ∧
      Teensy4.setInterval b t interval (some cb) =
        some (true, Teensy4.store b t cb period prescale) := by
  obtain ⟨period, prescale, hl, _⟩ :=
    Teensy4_prescaleLoop_spec (toUInt32 (((b.F_BUS_ACTUAL : ℚ) / 2000000) * (interval : ℚ)))
  refine ⟨period, prescale, hl, ?_⟩
  show Option.map _ (Teensy4.prescaleLoop 8 _ 0) = _
  rw [hl]
  rfl

/-- The result of the Teensy 3.x `setInterval` for a non-NULL callback. -/
theorem Teensy3_setInterval_some (b : Board) (t : TeensyTimerInterrupt) (interval cb : Nat) :
    ∃ period prescale,
      Teensy3.prescaleLoop 8 (toUInt32 (((b.F_TIMER : ℚ) / 2000000) * (interval : ℚ))) 0 =
        some (period, prescale) ∧
      Teensy3.setInterval b t interval (some cb) =
        some (true, Teensy3.store b t cb period prescale) := by
  obtain ⟨period, prescale, hl, _⟩ :=
    Teensy3_prescaleLoop_spec (toUInt32 (((b.F_TIMER : ℚ) / 2000000) * (interval : ℚ)))
  refine ⟨period, prescale, hl, ?_⟩
  show Option.map _ (Teensy3.prescaleLoop 8 _ 0) = _
  rw [hl]
  rfl

/-- C14: in all three board variants, for every interval, `setInterval` with a
NULL callback returns `false` and leaves the object and the hardware as they
were (`_callback`, `_timerCount`, `_prescale`, `_realPeriod` unchanged, no
register written); with a non-NULL callback it returns `true` and
`getCallback()` then returns that callback. -/
theorem setInterval_null_callback (b : Board) (t : TeensyTimerInterrupt) (interval cb : Nat) :
    (Teensy4.setInterval b t interval none = some (false, t) ∧
      Teensy3.setInterval b t interval none = some (false, t) ∧
      Teensy2.setInterval b t interval none = some (false, t)) ∧
    (∃ t1, Teensy4.setInterval b t interval (some cb) = some (true, t1) ∧
      t1.getCallback = some cb) ∧
    (∃ t1, Teensy3.setInterval b t interval (some cb) = some (true, t1) ∧
      t1.getCallback = some cb) ∧
    (∃ t1, Teensy2.setInterval b t interval (some cb) = some (true, t1) ∧
      t1.getCallback = some cb) := by
  refine ⟨⟨rfl, rfl, rfl⟩, ?_, ?_, ?_⟩
  · obtain ⟨_, _, _, h⟩ := Teensy4_setInterval_some b t interval cb
    exact ⟨_, h, rfl⟩
  · obtain ⟨_, _, _, h⟩ := Teensy3_setInterval_some b t interval cb
    exact ⟨_, h, rfl⟩
  · exact ⟨_, rfl, rfl⟩

/-- C16: for every requested interval, every clock frequency and every
non-NULL callback, after `setInterval` `getPeriod()` is at most 32767 (0x7FFF)
in all three board variants, and `getPrescale()` is at most 7 in the Teensy 4
and Teensy 3.x variants. -/
theorem setInterval_period_15_bits (b : Board) (t : TeensyTimerInterrupt) (interval cb : Nat) :
    (∃ t1, Teensy4.setInterval b t interval (some cb) = some (true, t1) ∧
      t1.getPeriod ≤ 32767 ∧ t1.getPrescale ≤ 7) ∧
    (∃ t1, Teensy3.setInterval b t interval (some cb) = some (true, t1) ∧
      t1.getPeriod ≤ 32767 ∧ t1.getPrescale ≤ 7) ∧
    (∃ t1, Teensy2.setInterval b t interval (some cb) = some (true, t1) ∧
      t1.getPeriod ≤ 32767) := by
  refine ⟨?_, ?_, ?_⟩
  · obtain ⟨period, prescale, hl, h⟩ := Teensy4_setInterval_some b t interval cb
    obtain ⟨period1, prescale1, hl1, hp1, hs1, _⟩ :=
      Teensy4_prescaleLoop_spec (toUInt32 (((b.F_BUS_ACTUAL : ℚ) / 2000000) * (interval : ℚ)))
    rw [hl] at hl1
    cases hl1
    exact ⟨_, h, hp1, hs1⟩
  · obtain ⟨period, prescale, hl, h⟩ := Teensy3_setInterval_some b t interval cb
    obtain ⟨period1, prescale1, hl1, hp1, hs1, _⟩ :=
      Teensy3_prescaleLoop_spec (toUInt32 (((b.F_TIMER : ℚ) / 2000000) * (interval : ℚ)))
    rw [hl] at hl1
    cases hl1
    exact ⟨_, h, hp1, hs1⟩
  · refine ⟨_, rfl, ?_⟩
    show (Teensy2.chosen b t._timer
      (toUInt32 (((b.F_CPU : ℚ) / 2000000) * (interval : ℚ)))).2 ≤ 32767
    unfold Teensy2.chosen
    cases t._timer
    · exact Teensy2_choosePrescale_period _ _ _ _ (toUInt32_le _)
    · exact Teensy2_choosePrescale_period _ _ _ _ (toUInt32_le _)


theorem quotToUInt32_natCast (a d : Nat) (hd : d ≠ 0) :
    quotToUInt32 ((a : ℚ) * 2000000) d = min 4294967295 (a * 2000000 / d) := by
  unfold quotToUInt32
  rw [if_neg hd]
  have h : (a : ℚ) * 2000000 = ((a * 2000000 : Nat) : ℚ) := by push_cast; ring
  rw [h, toUInt32_natCast_div]

/-- With the bus at 150 MHz, the real period computed from a period count and
prescale that the search can end with: at most 55922 us, at most the
requested interval, and 55922 us at `(32767, 7)`. -/
theorem Teensy4_realPeriod_bounds (interval p0 period prescale : Nat)
    (h0 : p0 ≤ 75 * interval) (hp : period ≤ 32767) (hs : prescale ≤ 7)
    (hle : period * 2 ^ prescale ≤ p0) :
    quotToUInt32 ((period : ℚ) * 2000000) (150000000 >>> prescale) ≤ 55922 ∧
    quotToUInt32 ((period : ℚ) * 2000000) (150000000 >>> prescale) ≤ interval ∧
    (period = 32767 → prescale = 7 →
      quotToUInt32 ((period : ℚ) * 2000000) (150000000 >>> prescale) = 55922) := by
  interval_cases prescale
  all_goals
    rw [quotToUInt32_natCast _ _ (by decide)]
    simp only [Nat.shiftRight_eq_div_pow] at *
    norm_num at *
    omega

/-- C15: on Teensy 4.0/4.1 with `F_BUS_ACTUAL` = 150 MHz, for every requested
interval and non-NULL callback, `getRealPeriod()` after `setInterval` is at
most 55922 and never exceeds the requested interval; every requested interval
of 55923 us or more (such as the 100000 of `RPM_Check_INTERVAL_MS`) ends with
`getPeriod() = 32767`, `getPrescale() = 7` and `getRealPeriod() = 55922 =
floor(32767 * 2000000 / (150000000 >> 7))`. Floating arithmetic is taken
exact. -/
theorem Teensy4_longest_period (b : Board) (hb : b.F_BUS_ACTUAL = 150000000)
    (t : TeensyTimerInterrupt) (interval cb : Nat) :
    ∃ t1, Teensy4.setInterval b t interval (some cb) = some (true, t1) ∧
      t1.getRealPeriod ≤ 55922 ∧ t1.getRealPeriod ≤ interval ∧
      (55923 ≤ interval →
        t1.getPeriod = 32767 ∧ t1.getPrescale = 7 ∧ t1.getRealPeriod = 55922) ∧
      55922 = 32767 * 2000000 / (150000000 >>> 7) ∧
      55923 ≤ RPM_Check_INTERVAL_MS := by
  obtain ⟨period, prescale, hl, h⟩ := Teensy4_setInterval_some b t interval cb
  obtain ⟨period1, prescale1, hl1, hp, hs, hle, hsat⟩ :=
    Teensy4_prescaleLoop_spec (toUInt32 (((b.F_BUS_ACTUAL : ℚ) / 2000000) * (interval : ℚ)))
  rw [hl] at hl1
  cases hl1
  rw [initial_period_eq, hb] at hle hsat
  have h0 : min 4294967295 (150000000 * interval / 2000000) ≤ 75 * interval := by omega
  obtain ⟨b1, b2, b3⟩ := Teensy4_realPeriod_bounds interval _ period prescale h0 hp hs hle
  refine ⟨_, h, ?_, ?_, ?_, by decide, by decide⟩
  · show quotToUInt32 ((period : ℚ) * 2000000) (b.F_BUS_ACTUAL >>> prescale) ≤ 55922
    rw [hb]; exact b1
  · show quotToUInt32 ((period : ℚ) * 2000000) (b.F_BUS_ACTUAL >>> prescale) ≤ interval
    rw [hb]; exact b2
  · intro hi
    obtain ⟨e1, e2⟩ := hsat (by omega)
    refine ⟨e1, e2, ?_⟩
    show quotToUInt32 ((period : ℚ) * 2000000) (b.F_BUS_ACTUAL >>> prescale) = 55922
    rw [hb]; exact b3 e1 e2

theorem Teensy4_longest_period_witness :
    ∃ t1, Teensy4.setInterval teensy4Board (TeensyTimerInterrupt.new .TEENSY_TIMER_1)
        RPM_Check_INTERVAL_MS (some 1) = some (true, t1) ∧
      t1.getRealPeriod ≤ 55922 ∧ t1.getRealPeriod ≤ RPM_Check_INTERVAL_MS ∧
      (55923 ≤ RPM_Check_INTERVAL_MS →
        t1.getPeriod = 32767 ∧ t1.getPrescale = 7 ∧ t1.getRealPeriod = 55922) ∧
      55922 = 32767 * 2000000 / (150000000 >>> 7) ∧
      55923 ≤ RPM_Check_INTERVAL_MS :=
  Teensy4_longest_period teensy4Board rfl (TeensyTimerInterrupt.new .TEENSY_TIMER_1)
    RPM_Check_INTERVAL_MS 1

/-- C17 at 48 MHz and 100000 us: the Teensy 3.x `setInterval` ends the search
with a period count of 18750 and prescale 7, but the value it stores in
`FTM1_MOD` (timer 1) or `FTM2_MOD` (timer 3) is `_realPeriod = 100000`, above
`0x7FFF`; with an interval of 0 it stores 0, below `0x0001`. -/
theorem Teensy3_mod_out_of_range :
    (Teensy3.setInterval teensy3Board (TeensyTimerInterrupt.new .TEENSY_TIMER_1)
        100000 (some 1)).map (fun r => (r.1, r.2.getPeriod, r.2.getPrescale, modWrites r.2)) =
      some (true, 18750, 7, [100000]) ∧
    (Teensy3.setInterval teensy3Board (TeensyTimerInterrupt.new .TEENSY_TIMER_3)
        100000 (some 1)).map (fun r => (r.1, r.2.getPeriod, r.2.getPrescale, modWrites r.2)) =
      some (true, 18750, 7, [100000]) ∧
    (Teensy3.setInterval teensy3Board (TeensyTimerInterrupt.new .TEENSY_TIMER_1)
        0 (some 1)).map (fun r => (r.1, modWrites r.2)) = some (true, [0]) ∧
    (0x7FFF : Nat) < 100000 := by
  have p1 : toUInt32 (((teensy3Board.F_TIMER : ℚ) / 2000000) * ((100000 : Nat) : ℚ)) =
      2400000 := by
    rw [initial_period_eq]; decide
  have p0 : toUInt32 (((teensy3Board.F_TIMER : ℚ) / 2000000) * ((0 : Nat) : ℚ)) = 0 := by
    rw [initial_period_eq]; decide
  have l1 : Teensy3.prescaleLoop 8 2400000 0 = some (18750, 7) := by decide
  have l0 : Teensy3.prescaleLoop 8 0 0 = some (0, 0) := by decide
  have q1 : quotToUInt32 (((18750 : Nat) : ℚ) * 2000000) (teensy3Board.F_TIMER >>> 7) =
      100000 := by
    rw [quotToUInt32_natCast _ _ (by decide)]; decide
  have q1n : quotToUInt32 ((18750 : ℚ) * 2000000) (teensy3Board.F_TIMER >>> 7) = 100000 := by
    simpa using q1
  have q0 : quotToUInt32 0 teensy3Board.F_TIMER = 0 := by
    simp [quotToUInt32, toUInt32]
  have s1 : ∀ t : TeensyTimerInterrupt,
      Teensy3.setInterval teensy3Board t 100000 (some 1) =
        some (true, Teensy3.store teensy3Board t 1 18750 7) := by
    intro t
    show Option.map _ (Teensy3.prescaleLoop 8 _ 0) = _
    rw [p1, l1]
    rfl
  have s0 : ∀ t : TeensyTimerInterrupt,
      Teensy3.setInterval teensy3Board t 0 (some 1) =
        some (true, Teensy3.store teensy3Board t 1 0 0) := by
    intro t
    show Option.map _ (Teensy3.prescaleLoop 8 _ 0) = _
    rw [p0, l0]
    rfl
  refine ⟨?_, ?_, ?_, by decide⟩
  · rw [s1]
    simp [modWrites, Teensy3.store, Teensy3.program, Hardware.run, Hardware.exec,
      Hardware.assign, Hardware.orAssign, Hardware.call, TeensyTimerInterrupt.new,
      TeensyTimerInterrupt.getPeriod, TeensyTimerInterrupt.getPrescale, q1n]
  · rw [s1]
    simp [modWrites, Teensy3.store, Teensy3.program, Hardware.run, Hardware.exec,
      Hardware.assign, Hardware.orAssign, Hardware.call, TeensyTimerInterrupt.new,
      TeensyTimerInterrupt.getPeriod, TeensyTimerInterrupt.getPrescale, q1n]
  · rw [s0]
    simp [modWrites, Teensy3.store, Teensy3.program, Hardware.run, Hardware.exec,
      Hardware.assign, Hardware.orAssign, Hardware.call, TeensyTimerInterrupt.new, q0]

/-! ## Refresh: which handlers run -/

theorem Refresh_guard_SpindleRPM (s : Globals) :
    (Refresh_guard s).SpindleRPM = s.SpindleRPM := by
  unfold Refresh_guard
  split_ifs <;> rfl

theorem Refresh_guard_Mode (s : Globals) :
    (Refresh_guard s).Mode_Array_Pos = s.Mode_Array_Pos := by
  unfold Refresh_guard
  split_ifs <;> rfl

theorem Refresh_guard_Enc1 (s : Globals) (hr : s.SpindleRPM ≠ 0) :
    (Refresh_guard s).Enc1 = s.Mode_Array_Pos := by
  unfold Refresh_guard
  by_cases he : s.Enc1 = s.Mode_Array_Pos
  · rw [if_neg (by simp [he])]; exact he
  · rw [if_pos ⟨he, hr⟩]

theorem Refresh_guard_idem (s : Globals) : Refresh_guard (Refresh_guard s) = Refresh_guard s := by
  unfold Refresh_guard
  by_cases h : s.Enc1 ≠ s.Mode_Array_Pos ∧ s.SpindleRPM ≠ 0
  · simp [h]
  · simp [h]

/-- `Refresh` is the guard followed by the rest of its body. -/
theorem Refresh_unfold (c : Collaborators) (s : Globals) :
    Refresh c s =
      match Refresh_menu c (Seven_Segment (Refresh_guard s)) with
      | none => none
      | some (s2, t2) =>
        match Refresh_graph (Refresh_auto_turn c (Refresh_feed c s2).1).1 with
        | none => none
        | some (s5, t5) =>
          some (s5, Call.Seven_Segment ::
            (t2 ++ (Refresh_feed c s2).2 ++ (Refresh_auto_turn c (Refresh_feed c s2).1).2 ++ t5)) :=
  rfl

theorem Refresh_feed_frame (c : Collaborators) (s : Globals) :
    (c.keepSpindleRPM → (Refresh_feed c s).1.SpindleRPM = s.SpindleRPM) ∧
    (c.keepMode → (Refresh_feed c s).1.Mode_Array_Pos = s.Mode_Array_Pos) ∧
    (Refresh_feed c s).2 =
      (if s.Mode_Array_Pos = 0 ∧ s.SpindleRPM ≠ 0 then
        [Call.Mode_0_Feed_Controls, Call.Feed_Clear, Call.Feed_Adjust] else []) := by
  unfold Refresh_feed
  by_cases h : s.Mode_Array_Pos = 0 ∧ s.SpindleRPM ≠ 0
  · rw [if_pos h, if_pos h]
    exact ⟨fun hk => (hk s).2.1, fun hm => (hm s).1, rfl⟩
  · rw [if_neg h, if_neg h]
    exact ⟨fun _ => rfl, fun _ => rfl, rfl⟩

theorem Refresh_auto_turn_frame (c : Collaborators) (s : Globals) :
    (c.keepSpindleRPM → (Refresh_auto_turn c s).1.SpindleRPM = s.SpindleRPM) ∧
    (c.keepMode → (Refresh_auto_turn c s).1.Mode_Array_Pos = s.Mode_Array_Pos) ∧
    (Refresh_auto_turn c s).2 =
      (if s.Mode_Array_Pos = 3 ∧ s.SpindleRPM ≠ 0 then
        [Call.Mode_3_Auto_Turn_Controls, Call.Auto_Feed_Clear, Call.Auto_Feed_Adjust]
      else []) := by
  unfold Refresh_auto_turn
  by_cases h : s.Mode_Array_Pos = 3 ∧ s.SpindleRPM ≠ 0
  · rw [if_pos h, if_pos h]
    refine ⟨fun hk => ?_, fun hm => ?_, rfl⟩
    · show (c.Auto_Feed_Adjust (c.Auto_Feed_Clear (c.Mode_3_Auto_Turn_Controls s))).SpindleRPM = _
      rw [(hk _).2.2.2.2, (hk _).2.2.2.1, (hk _).2.2.1]
    · show (c.Auto_Feed_Adjust (c.Auto_Feed_Clear (c.Mode_3_Auto_Turn_Controls s))).Mode_Array_Pos = _
      rw [(hm _).2.2.2, (hm _).2.2.1, (hm _).2.1]
  · rw [if_neg h, if_neg h]
    exact ⟨fun _ => rfl, fun _ => rfl, rfl⟩

/-- With the spindle turning and handlers that leave `SpindleRPM` alone,
`Refresh` returns: the menu and graph blocks are skipped. -/
theorem Refresh_turning (c : Collaborators) (s : Globals) (hr : s.SpindleRPM ≠ 0)
    (hk : c.keepSpindleRPM) :
    Refresh c s = some
      ((Refresh_auto_turn c (Refresh_feed c (Seven_Segment (Refresh_guard s))).1).1,
        Call.Seven_Segment ::
          ((if s.Mode_Array_Pos = 0 then
              [Call.Mode_0_Feed_Controls, Call.Feed_Clear, Call.Feed_Adjust] else []) ++
            (Refresh_auto_turn c (Refresh_feed c (Seven_Segment (Refresh_guard s))).1).2)) := by
  have h1 : (Seven_Segment (Refresh_guard s)).SpindleRPM ≠ 0 := by
    show (Refresh_guard s).SpindleRPM ≠ 0
    rw [Refresh_guard_SpindleRPM]; exact hr
  have hmode : (Seven_Segment (Refresh_guard s)).Mode_Array_Pos = s.Mode_Array_Pos :=
    Refresh_guard_Mode s
  obtain ⟨f1, _, f3⟩ := Refresh_feed_frame c (Seven_Segment (Refresh_guard s))
  obtain ⟨a1, _, _⟩ := Refresh_auto_turn_frame c (Refresh_feed c (Seven_Segment (Refresh_guard s))).1
  have h4 : (Refresh_auto_turn c (Refresh_feed c (Seven_Segment (Refresh_guard s))).1).1.SpindleRPM
      ≠ 0 := by
    rw [a1 hk, f1 hk]; exact h1
  rw [Refresh_unfold]
  have hmenu : Refresh_menu c (Seven_Segment (Refresh_guard s)) =
      some (Seven_Segment (Refresh_guard s), []) := by
    unfold Refresh_menu
    rw [if_neg h1]
  have hgraph : Refresh_graph
      (Refresh_auto_turn c (Refresh_feed c (Seven_Segment (Refresh_guard s))).1).1 =
      some ((Refresh_auto_turn c (Refresh_feed c (Seven_Segment (Refresh_guard s))).1).1, []) := by
    unfold Refresh_graph
    rw [if_neg h4]
  rw [hmenu]
  simp only [hgraph, f3, hmode, List.nil_append, List.append_nil]
  by_cases h0 : s.Mode_Array_Pos = 0
  · simp [h0, h1]
  · simp [h0]

theorem SpindleRPM_feedDraw (s : Globals) (ops : List DisplayOp) :
    (feedDraw s ops).SpindleRPM = s.SpindleRPM := rfl

theorem SpindleRPM_center (s : Globals) (n : Int) : (center s n).1.SpindleRPM = s.SpindleRPM :=
  rfl

theorem Main_Menu_SpindleRPM (s s1 : Globals) (h : Main_Menu s = some s1) :
    s1.SpindleRPM = s.SpindleRPM := by
  unfold Main_Menu at h
  cases hn : index Mode_Array s.Mode_Array_Pos with
  | none => rw [hn] at h; cases h
  | some name =>
    rw [hn] at h
    simp only [] at h
    have feed : ∀ a b : Globals, Main_Menu_Feed a = some b → b.SpindleRPM = a.SpindleRPM := by
      intro a b hab
      unfold Main_Menu_Feed at hab
      have h0 : index Measure_Array 0 = some "In" := by decide
      have h1 : index Measure_Array 1 = some "mm" := by decide
      rw [h0, h1] at hab
      cases hab
      rfl
    have thread : ∀ a b : Globals, Main_Menu_Thread a = some b → b.SpindleRPM = a.SpindleRPM := by
      intro a b hab
      unfold Main_Menu_Thread at hab
      by_cases hm : a.Thread_Mode = 0
      · rw [if_pos hm] at hab
        cases ht : index TPI_Array a.TPI_Array_Pos with
        | none => rw [ht] at hab; cases hab
        | some t => rw [ht] at hab; cases hab; rfl
      · rw [if_neg hm] at hab
        cases hp : index Pitch_Array a.Pitch_Array_Pos with
        | none => rw [hp] at hab; cases hab
        | some p => rw [hp] at hab; cases hab; rfl
    rcases Option.bind_eq_some.mp h with ⟨s4, h4, h⟩
    rcases Option.bind_eq_some.mp h with ⟨s5, h5, h⟩
    have e4 : s4.SpindleRPM = s.SpindleRPM := by
      split_ifs at h4 with c0
      · rw [feed _ _ h4, SpindleRPM_feedDraw, SpindleRPM_center, SpindleRPM_feedDraw]
      · cases h4
        rw [SpindleRPM_feedDraw, SpindleRPM_center, SpindleRPM_feedDraw]
    have e5 : s5.SpindleRPM = s4.SpindleRPM := by
      split_ifs at h5 with c1
      · exact thread _ _ h5
      · cases h5; rfl
    cases h
    split_ifs
    · exact e5.trans e4
    · exact e5.trans e4

/-- With the spindle stopped and handlers that leave `SpindleRPM` alone,
`Refresh` is the menu block followed by the graph block. -/
theorem Refresh_stopped (c : Collaborators) (s : Globals) (hr : s.SpindleRPM = 0)
    (hk : c.keepSpindleRPM) :
    Refresh c s =
      (Main_Menu (c.Interface (Seven_Segment s))).bind fun s2 =>
        (Refresh_graph (feedDraw s2 [ .display ])).map fun r =>
          (r.1, [Call.Seven_Segment, Call.Interface, Call.Main_Menu, Call.graph_Radius_Array]) := by
  have hg : Refresh_guard s = s := by
    unfold Refresh_guard
    rw [if_neg (by simp [hr])]
  rw [Refresh_unfold, hg]
  have h1 : (Seven_Segment s).SpindleRPM = 0 := hr
  unfold Refresh_menu
  rw [if_pos h1]
  cases hmm : Main_Menu (c.Interface (Seven_Segment s)) with
  | none => rfl
  | some s2 =>
    have e2 : s2.SpindleRPM = 0 := by
      rw [Main_Menu_SpindleRPM _ _ hmm, (hk _).1]; exact h1
    have e3 : (feedDraw s2 [ .display ]).SpindleRPM = 0 := e2
    have hf : Refresh_feed c (feedDraw s2 [ .display ]) = (feedDraw s2 [ .display ], []) := by
      unfold Refresh_feed
      rw [if_neg (by simp [e3])]
    have ha : Refresh_auto_turn c (feedDraw s2 [ .display ]) = (feedDraw s2 [ .display ], []) := by
      unfold Refresh_auto_turn
      rw [if_neg (by simp [e3])]
    simp only [hf, ha, Option.some_bind]
    cases hgr : Refresh_graph (feedDraw s2 [ .display ]) with
    | none => rfl
    | some r =>
      have ht : r.2 = [Call.graph_Radius_Array] := by
        unfold Refresh_graph at hgr
        rw [if_pos e3] at hgr
        split at hgr
        · cases hgr
        · cases hgr; rfl
      obtain ⟨r1, r2⟩ := r
      simp only [] at ht
      subst ht
      rfl


theorem feedCollaborators_keepSpindleRPM (step : ℚ) : (feedCollaborators step).keepSpindleRPM := by
  intro s
  refine ⟨rfl, ?_, rfl, rfl, rfl⟩
  show (Mode_0_Feed_Controls step s).SpindleRPM = s.SpindleRPM
  unfold Mode_0_Feed_Controls
  split_ifs <;> rfl

theorem feedCollaborators_keepMode (step : ℚ) : (feedCollaborators step).keepMode := by
  intro s
  refine ⟨?_, rfl, rfl, rfl⟩
  show (Mode_0_Feed_Controls step s).Mode_Array_Pos = s.Mode_Array_Pos
  unfold Mode_0_Feed_Controls
  split_ifs <;> rfl

/-! ## Refresh, block by block -/

theorem Refresh_guard_turning (s : Globals) (hr : s.SpindleRPM ≠ 0) :
    Refresh_guard s = { s with Enc1 := s.Mode_Array_Pos } := by
  unfold Refresh_guard
  by_cases he : s.Enc1 = s.Mode_Array_Pos
  · rw [if_neg (by simp [he])]
    cases s
    simp only [] at he
    subst he
    rfl
  · rw [if_pos ⟨he, hr⟩]

theorem Refresh_guard_stopped (s : Globals) (hr : s.SpindleRPM = 0) : Refresh_guard s = s := by
  unfold Refresh_guard
  rw [if_neg (by simp [hr])]

/-- `graph_Radius_loop` with a finite scale and tables that cover `Radius_Steps`
returns, having written to `Graph_Display` only. -/
theorem graph_Radius_loop_some (k : ℚ) : ∀ (fuel : Nat) (s : Globals) (i : Int), 0 ≤ i →
    s.Radius_Steps ≤ (s.Radius_X.length : Int) → s.Radius_Steps ≤ (s.Radius_Y.length : Int) →
    ∃ gd, graph_Radius_loop (some k) s fuel i = some { s with Graph_Display := gd } := by
  intro fuel
  induction fuel with
  | zero => intro s i _ _ _; exact ⟨s.Graph_Display, rfl⟩
  | succ n ih =>
    intro s i hi hx hy
    unfold graph_Radius_loop
    by_cases hlt : i < s.Radius_Steps
    · obtain ⟨x, ex⟩ := index_some_of_lt s.Radius_X i hi (by omega)
      obtain ⟨y, ey⟩ := index_some_of_lt s.Radius_Y i hi (by omega)
      rw [if_pos hlt, ex, ey]
      obtain ⟨gd, e⟩ := ih { s with Graph_Display := s.Graph_Display ++
        [ .drawPixel (toInt (x * k)) (toInt (y * -k)) .SSD1327_WHITE ] } (i + 1) (by omega) hx hy
      exact ⟨gd, e⟩
    · rw [if_neg hlt]
      exact ⟨s.Graph_Display, rfl⟩

/-- `graph_Radius_Array` returns when the tables cover `Radius_Steps`, having
written to `Graph_Display` only. -/
theorem graph_Radius_Array_some (s : Globals) (h : radiusTablesCover s) :
    ∃ gd, graph_Radius_Array s = some { s with Graph_Display := gd } := by
  unfold graph_Radius_Array
  rcases h with h | ⟨hr, hx, hy⟩
  · have e : s.Radius_Steps.toNat = 0 := by omega
    rw [e]
    exact ⟨s.Graph_Display, rfl⟩
  · rw [if_neg hr]
    exact graph_Radius_loop_some _ _ s 0 (le_refl 0) hx hy

theorem menuFrame_refl (s : Globals) : menuFrame s s := ⟨s.Feed_Display, s.ctr, rfl⟩

theorem menuFrame_trans (a b d : Globals) (h1 : menuFrame a b) (h2 : menuFrame b d) :
    menuFrame a d := by
  obtain ⟨fd1, v1, rfl⟩ := h1
  obtain ⟨fd2, v2, rfl⟩ := h2
  exact ⟨fd2, v2, rfl⟩

theorem menuFrame_feedDraw (a : Globals) (ops : List DisplayOp) :
    menuFrame a (feedDraw a ops) := ⟨a.Feed_Display ++ ops, a.ctr, rfl⟩

theorem menuFrame_center (a : Globals) (n : Int) : menuFrame a (center a n).1 :=
  ⟨a.Feed_Display, _, rfl⟩

/-- `Main_Menu` writes to `Feed_Display` and to `ctr` only. -/
theorem Main_Menu_frame (s s1 : Globals) (h : Main_Menu s = some s1) : menuFrame s s1 := by
  unfold Main_Menu at h
  cases hn : index Mode_Array s.Mode_Array_Pos with
  | none => rw [hn] at h; cases h
  | some name =>
    rw [hn] at h
    simp only [] at h
    have feed : ∀ a b : Globals, Main_Menu_Feed a = some b → menuFrame a b := by
      intro a b hab
      unfold Main_Menu_Feed at hab
      have h0 : index Measure_Array 0 = some "In" := by decide
      have h1 : index Measure_Array 1 = some "mm" := by decide
      rw [h0, h1] at hab
      cases hab
      exact menuFrame_trans _ _ _ (menuFrame_feedDraw _ _) (menuFrame_feedDraw _ _)
    have thread : ∀ a b : Globals, Main_Menu_Thread a = some b → menuFrame a b := by
      intro a b hab
      unfold Main_Menu_Thread at hab
      by_cases hm : a.Thread_Mode = 0
      · rw [if_pos hm] at hab
        cases ht : index TPI_Array a.TPI_Array_Pos with
        | none => rw [ht] at hab; cases hab
        | some t =>
          rw [ht] at hab; cases hab
          exact menuFrame_trans _ _ _ (menuFrame_feedDraw _ _) (menuFrame_feedDraw _ _)
      · rw [if_neg hm] at hab
        cases hp : index Pitch_Array a.Pitch_Array_Pos with
        | none => rw [hp] at hab; cases hab
        | some p =>
          rw [hp] at hab; cases hab
          exact menuFrame_trans _ _ _ (menuFrame_feedDraw _ _) (menuFrame_feedDraw _ _)
    have key4 : ∀ x y : Globals,
        (if x.Mode_Array_Pos = 0 then Main_Menu_Feed x else some x) = some y →
        menuFrame s x → menuFrame s y := by
      intro x y hxy hx
      split_ifs at hxy with c0
      · exact menuFrame_trans _ _ _ hx (feed _ _ hxy)
      · cases hxy; exact hx
    have key5 : ∀ x y : Globals,
        (if x.Mode_Array_Pos = 1 then Main_Menu_Thread x else some x) = some y →
        menuFrame s x → menuFrame s y := by
      intro x y hxy hx
      split_ifs at hxy with c1
      · exact menuFrame_trans _ _ _ hx (thread _ _ hxy)
      · cases hxy; exact hx
    rcases Option.bind_eq_some.mp h with ⟨s4, h4, h⟩
    rcases Option.bind_eq_some.mp h with ⟨s5, h5, h⟩
    have e4 : menuFrame s s4 := key4 _ _ h4
      (menuFrame_trans _ _ _
        (menuFrame_trans _ _ _ (menuFrame_feedDraw _ _) (menuFrame_center _ _))
        (menuFrame_feedDraw _ _))
    have e5 : menuFrame s s5 := key5 _ _ h5 e4
    cases h
    split_ifs
    · exact menuFrame_trans _ _ _ e5 (menuFrame_feedDraw _ _)
    · exact e5

/-- With the spindle turning in Feed mode, a feed handler that leaves `SpindleRPM`
not zero and does not select A-Turn: `Refresh` hands the state, the mode encoder
put back on the mode, to `Mode_0_Feed_Controls`, `Feed_Clear` and `Feed_Adjust`. -/
theorem Refresh_turning_feed (c : Collaborators) (s : Globals) (hr : s.SpindleRPM ≠ 0)
    (h0 : s.Mode_Array_Pos = 0)
    (hR : (c.Mode_0_Feed_Controls
      (Seven_Segment { s with Enc1 := s.Mode_Array_Pos })).SpindleRPM ≠ 0)
    (hM : (c.Mode_0_Feed_Controls
      (Seven_Segment { s with Enc1 := s.Mode_Array_Pos })).Mode_Array_Pos ≠ 3) :
    Refresh c s = some
      (feedDraw (Feed_Adjust (Feed_Clear (c.Mode_0_Feed_Controls
        (Seven_Segment { s with Enc1 := s.Mode_Array_Pos })))) [ .display ],
      [Call.Seven_Segment, Call.Mode_0_Feed_Controls, Call.Feed_Clear, Call.Feed_Adjust]) := by
  have h1 : (Seven_Segment { s with Enc1 := s.Mode_Array_Pos }).SpindleRPM ≠ 0 := hr
  have h2 : (Seven_Segment { s with Enc1 := s.Mode_Array_Pos }).Mode_Array_Pos = 0 := h0
  have hmenu : Refresh_menu c (Seven_Segment { s with Enc1 := s.Mode_Array_Pos }) =
      some (Seven_Segment { s with Enc1 := s.Mode_Array_Pos }, []) := by
    unfold Refresh_menu
    rw [if_neg h1]
  have hfeed : Refresh_feed c (Seven_Segment { s with Enc1 := s.Mode_Array_Pos }) =
      (feedDraw (Feed_Adjust (Feed_Clear (c.Mode_0_Feed_Controls
        (Seven_Segment { s with Enc1 := s.Mode_Array_Pos })))) [ .display ],
      [Call.Mode_0_Feed_Controls, Call.Feed_Clear, Call.Feed_Adjust]) := by
    unfold Refresh_feed
    rw [if_pos ⟨h2, h1⟩]
  have hauto : Refresh_auto_turn c (feedDraw (Feed_Adjust (Feed_Clear (c.Mode_0_Feed_Controls
        (Seven_Segment { s with Enc1 := s.Mode_Array_Pos })))) [ .display ]) =
      (feedDraw (Feed_Adjust (Feed_Clear (c.Mode_0_Feed_Controls
        (Seven_Segment { s with Enc1 := s.Mode_Array_Pos })))) [ .display ], []) := by
    unfold Refresh_auto_turn
    rw [if_neg]
    intro h
    exact hM h.1
  have hgraph : Refresh_graph (feedDraw (Feed_Adjust (Feed_Clear (c.Mode_0_Feed_Controls
        (Seven_Segment { s with Enc1 := s.Mode_Array_Pos })))) [ .display ]) =
      some (feedDraw (Feed_Adjust (Feed_Clear (c.Mode_0_Feed_Controls
        (Seven_Segment { s with Enc1 := s.Mode_Array_Pos })))) [ .display ], []) := by
    unfold Refresh_graph
    rw [if_neg]
    exact hR
  rw [Refresh_unfold, Refresh_guard_turning s hr, hmenu]
  simp only [hfeed, hauto, hgraph]
  rfl

/-- With the spindle turning in A-Turn mode and handlers that leave `SpindleRPM`
not zero: `Refresh` hands the state, the mode encoder put back on the mode, to
`Mode_3_Auto_Turn_Controls`, `Auto_Feed_Clear` and `Auto_Feed_Adjust`. -/
theorem Refresh_turning_auto (c : Collaborators) (s : Globals) (hr : s.SpindleRPM ≠ 0)
    (h3 : s.Mode_Array_Pos = 3)
    (hR : (c.Auto_Feed_Adjust (c.Auto_Feed_Clear (c.Mode_3_Auto_Turn_Controls
      (Seven_Segment { s with Enc1 := s.Mode_Array_Pos })))).SpindleRPM ≠ 0) :
    Refresh c s = some
      (feedDraw (c.Auto_Feed_Adjust (c.Auto_Feed_Clear (c.Mode_3_Auto_Turn_Controls
        (Seven_Segment { s with Enc1 := s.Mode_Array_Pos })))) [ .display ],
      [Call.Seven_Segment, Call.Mode_3_Auto_Turn_Controls, Call.Auto_Feed_Clear,
        Call.Auto_Feed_Adjust]) := by
  have h1 : (Seven_Segment { s with Enc1 := s.Mode_Array_Pos }).SpindleRPM ≠ 0 := hr
  have h2 : (Seven_Segment { s with Enc1 := s.Mode_Array_Pos }).Mode_Array_Pos = 3 := h3
  have hmenu : Refresh_menu c (Seven_Segment { s with Enc1 := s.Mode_Array_Pos }) =
      some (Seven_Segment { s with Enc1 := s.Mode_Array_Pos }, []) := by
    unfold Refresh_menu
    rw [if_neg h1]
  have hfeed : Refresh_feed c (Seven_Segment { s with Enc1 := s.Mode_Array_Pos }) =
      (Seven_Segment { s with Enc1 := s.Mode_Array_Pos }, []) := by
    unfold Refresh_feed
    rw [if_neg]
    intro h
    rw [h2] at h
    exact absurd h.1 (by decide)
  have hauto : Refresh_auto_turn c (Seven_Segment { s with Enc1 := s.Mode_Array_Pos }) =
      (feedDraw (c.Auto_Feed_Adjust (c.Auto_Feed_Clear (c.Mode_3_Auto_Turn_Controls
        (Seven_Segment { s with Enc1 := s.Mode_Array_Pos })))) [ .display ],
      [Call.Mode_3_Auto_Turn_Controls, Call.Auto_Feed_Clear, Call.Auto_Feed_Adjust]) := by
    unfold Refresh_auto_turn
    rw [if_pos ⟨h2, h1⟩]
  have hgraph : Refresh_graph (feedDraw (c.Auto_Feed_Adjust (c.Auto_Feed_Clear
        (c.Mode_3_Auto_Turn_Controls
          (Seven_Segment { s with Enc1 := s.Mode_Array_Pos })))) [ .display ]) =
      some (feedDraw (c.Auto_Feed_Adjust (c.Auto_Feed_Clear (c.Mode_3_Auto_Turn_Controls
        (Seven_Segment { s with Enc1 := s.Mode_Array_Pos })))) [ .display ], []) := by
    unfold Refresh_graph
    rw [if_neg]
    exact hR
  rw [Refresh_unfold, Refresh_guard_turning s hr, hmenu]
  simp only [hfeed, hauto, hgraph]
  rfl

/-- With the spindle turning and the mode neither Feed nor A-Turn, `Refresh` puts
the mode encoder back on the mode and drives the seven-segment display. -/
theorem Refresh_turning_other (c : Collaborators) (s : Globals) (hr : s.SpindleRPM ≠ 0)
    (h0 : s.Mode_Array_Pos ≠ 0) (h3 : s.Mode_Array_Pos ≠ 3) :
    Refresh c s = some (Seven_Segment { s with Enc1 := s.Mode_Array_Pos },
      [Call.Seven_Segment]) := by
  rw [Refresh_blocks_idle c s hr h0 h3]
  have e := Refresh_guard_turning s hr
  unfold Refresh_guard at e
  by_cases he : s.Enc1 = s.Mode_Array_Pos
  · rw [if_neg (by simp [he])] at e
    rw [if_neg (by simp [he]), ← e]
  · rw [if_pos he]

/-- With the spindle stopped, an `Interface` that leaves `SpindleRPM` at zero, the
indices valid and the radius tables covering `Radius_Steps`: `Refresh` returns,
having run `Seven_Segment`, `Interface`, `Main_Menu` and `graph_Radius_Array` on
the state as it was, the mode encoder included. -/
theorem Refresh_stopped_returns (c : Collaborators) (s : Globals) (hr : s.SpindleRPM = 0)
    (hI : (c.Interface (Seven_Segment s)).SpindleRPM = 0)
    (hv : validIndices (c.Interface (Seven_Segment s)))
    (hg : radiusTablesCover (c.Interface (Seven_Segment s))) :
    ∃ sM sG, Main_Menu (c.Interface (Seven_Segment s)) = some sM ∧
      graph_Radius_Array { feedDraw sM [ .display ] with
        Graph_Display := (feedDraw sM [ .display ]).Graph_Display ++ [ .clearDisplay ] } =
          some sG ∧
      Refresh c s = some ({ sG with Graph_Display := sG.Graph_Display ++ [ .display ] },
        [Call.Seven_Segment, Call.Interface, Call.Main_Menu, Call.graph_Radius_Array]) ∧
      menuFrame (c.Interface (Seven_Segment s)) sM ∧
      (∃ gd, sG = { feedDraw sM [ .display ] with Graph_Display := gd }) := by
  obtain ⟨sM, hmm, _⟩ := Main_Menu_indices _ hv
  have hfr := Main_Menu_frame _ _ hmm
  have e2 : sM.SpindleRPM = 0 := by
    rw [Main_Menu_SpindleRPM _ _ hmm]; exact hI
  have e3 : (feedDraw sM [ .display ]).SpindleRPM = 0 := e2
  have hcover : radiusTablesCover { feedDraw sM [ .display ] with
      Graph_Display := (feedDraw sM [ .display ]).Graph_Display ++ [ .clearDisplay ] } := by
    obtain ⟨fd, v, e⟩ := hfr
    rw [e]
    exact hg
  obtain ⟨gd, hgr⟩ := graph_Radius_Array_some _ hcover
  refine ⟨sM, _, hmm, hgr, ?_, hfr, ⟨gd, rfl⟩⟩
  have h1 : (Seven_Segment s).SpindleRPM = 0 := hr
  have hmenu : Refresh_menu c (Seven_Segment s) =
      some (feedDraw sM [ .display ], [Call.Interface, Call.Main_Menu]) := by
    unfold Refresh_menu
    rw [if_pos h1, hmm]
  have hf : Refresh_feed c (feedDraw sM [ .display ]) = (feedDraw sM [ .display ], []) := by
    unfold Refresh_feed
    rw [if_neg (by simp [e3])]
  have ha : Refresh_auto_turn c (feedDraw sM [ .display ]) = (feedDraw sM [ .display ], []) := by
    unfold Refresh_auto_turn
    rw [if_neg (by simp [e3])]
  have hgraph : Refresh_graph (feedDraw sM [ .display ]) =
      some ({ ({ feedDraw sM [ .display ] with Graph_Display := gd } : Globals) with
        Graph_Display := gd ++ [ .display ] }, [Call.graph_Radius_Array]) := by
    unfold Refresh_graph
    rw [if_pos e3, hgr]
  rw [Refresh_unfold, Refresh_guard_stopped s hr, hmenu]
  simp only [hf, ha, hgraph]
  rfl

/-! ## Refresh: what one call changes and which handlers it runs -/

/-- C18: for every state `s` with `SpindleRPM != 0`, `Refresh()` returns having
invoked neither `Interface()` nor `Main_Menu()` and leaves `Mode_Array_Pos` as it
was (the handlers it invokes leaving `SpindleRPM` and `Mode_Array_Pos` alone); its
first statement puts the mode encoder `Enc1` on `Mode_Array_Pos`, so that
everything after it runs on the state whose `Enc1` is `Mode_Array_Pos`: the call
does what it does from that state, `Seven_Segment` and the handlers of the mode
receive that state, and outside Feed and A-Turn `Enc1` is `Mode_Array_Pos` when
`Refresh()` returns. For every state `s0` with `SpindleRPM == 0` from which the
menu can be drawn, `Refresh()` returns and the encoder position is not
overwritten: `Interface()` receives `Enc1` as it was, and after `Interface()`
only the two displays and `ctr` are written. -/
theorem Refresh_mode_locked (c : Collaborators) (s s0 : Globals) (hr : s.SpindleRPM ≠ 0)
    (hk : c.keepSpindleRPM) (hm : c.keepMode) (hr0 : s0.SpindleRPM = 0)
    (hv0 : validIndices (c.Interface (Seven_Segment s0)))
    (hg0 : radiusTablesCover (c.Interface (Seven_Segment s0))) :
    (∃ s1 calls, Refresh c s = some (s1, calls) ∧
      Call.Interface ∉ calls ∧ Call.Main_Menu ∉ calls ∧
      s1.Mode_Array_Pos = s.Mode_Array_Pos ∧
      Refresh c { s with Enc1 := s.Mode_Array_Pos } = some (s1, calls) ∧
      (s.Mode_Array_Pos = 0 →
        s1 = feedDraw (Feed_Adjust (Feed_Clear (c.Mode_0_Feed_Controls
          (Seven_Segment { s with Enc1 := s.Mode_Array_Pos })))) [ .display ]) ∧
      (s.Mode_Array_Pos = 3 →
        s1 = feedDraw (c.Auto_Feed_Adjust (c.Auto_Feed_Clear (c.Mode_3_Auto_Turn_Controls
          (Seven_Segment { s with Enc1 := s.Mode_Array_Pos })))) [ .display ]) ∧
      (s.Mode_Array_Pos ≠ 0 → s.Mode_Array_Pos ≠ 3 →
        s1 = Seven_Segment { s with Enc1 := s.Mode_Array_Pos } ∧
        s1.Enc1 = s.Mode_Array_Pos)) ∧
    (∃ s1 calls, Refresh c s0 = some (s1, calls) ∧
      (Seven_Segment s0).Enc1 = s0.Enc1 ∧
      (∃ fd v gd, s1 = { c.Interface (Seven_Segment s0) with
        Feed_Display := fd, ctr := v, Graph_Display := gd }) ∧
      s1.Enc1 = (c.Interface (Seven_Segment s0)).Enc1 ∧
      ((c.Interface (Seven_Segment s0)).Enc1 = s0.Enc1 → s1.Enc1 = s0.Enc1)) := by
  constructor
  · by_cases h0 : s.Mode_Array_Pos = 0
    · have hR : (c.Mode_0_Feed_Controls
          (Seven_Segment { s with Enc1 := s.Mode_Array_Pos })).SpindleRPM ≠ 0 := by
        rw [(hk _).2.1]; exact hr
      have hM : (c.Mode_0_Feed_Controls
          (Seven_Segment { s with Enc1 := s.Mode_Array_Pos })).Mode_Array_Pos ≠ 3 := by
        rw [(hm _).1]
        show s.Mode_Array_Pos ≠ 3
        rw [h0]; decide
      refine ⟨_, _, Refresh_turning_feed c s hr h0 hR hM, by decide, by decide, ?_,
        Refresh_turning_feed c { s with Enc1 := s.Mode_Array_Pos } hr h0 hR hM,
        fun _ => rfl, fun h3 => ?_, fun hn => absurd h0 hn⟩
      · show (c.Mode_0_Feed_Controls _).Mode_Array_Pos = _
        rw [(hm _).1]
        rfl
      · rw [h0] at h3
        exact absurd h3 (by decide)
    · by_cases h3 : s.Mode_Array_Pos = 3
      · have hR : (c.Auto_Feed_Adjust (c.Auto_Feed_Clear (c.Mode_3_Auto_Turn_Controls
            (Seven_Segment { s with Enc1 := s.Mode_Array_Pos })))).SpindleRPM ≠ 0 := by
          rw [(hk _).2.2.2.2, (hk _).2.2.2.1, (hk _).2.2.1]; exact hr
        refine ⟨_, _, Refresh_turning_auto c s hr h3 hR, by decide, by decide, ?_,
          Refresh_turning_auto c { s with Enc1 := s.Mode_Array_Pos } hr h3 hR,
          fun h => absurd h h0, fun _ => rfl, fun _ hn => absurd h3 hn⟩
        show (c.Auto_Feed_Adjust _).Mode_Array_Pos = _
        rw [(hm _).2.2.2, (hm _).2.2.1, (hm _).2.1]
        rfl
      · exact ⟨_, _, Refresh_turning_other c s hr h0 h3, by decide, by decide, rfl,
          Refresh_turning_other c { s with Enc1 := s.Mode_Array_Pos } hr h0 h3,
          fun h => absurd h h0, fun h => absurd h h3, fun _ _ => ⟨rfl, rfl⟩⟩
  · have hI : (c.Interface (Seven_Segment s0)).SpindleRPM = 0 := by
      rw [(hk _).1]; exact hr0
    obtain ⟨sM, sG, _, _, hR, ⟨fd, v, eM⟩, ⟨gd, eG⟩⟩ :=
      Refresh_stopped_returns c s0 hr0 hI hv0 hg0
    have e1 : ({ sG with Graph_Display := sG.Graph_Display ++ [ .display ] } : Globals) =
        { c.Interface (Seven_Segment s0) with
          Feed_Display := fd ++ [ .display ], ctr := v, Graph_Display := gd ++ [ .display ] } := by
      rw [eG, eM]
      rfl
    have e2 : ({ sG with Graph_Display := sG.Graph_Display ++ [ .display ] } : Globals).Enc1 =
        (c.Interface (Seven_Segment s0)).Enc1 := by
      rw [e1]
    exact ⟨_, _, hR, rfl, ⟨_, _, _, e1⟩, e2, fun h => e2.trans h⟩

theorem Refresh_mode_locked_witness :
    (threadModeAt600.Enc1 ≠ threadModeAt600.Mode_Array_Pos ∧
      radiusStopped.Enc1 ≠ radiusStopped.Mode_Array_Pos) ∧
    (∃ s1 calls, Refresh (feedCollaborators 0.001) threadModeAt600 = some (s1, calls) ∧
      Call.Interface ∉ calls ∧ Call.Main_Menu ∉ calls ∧
      s1.Mode_Array_Pos = threadModeAt600.Mode_Array_Pos ∧
      Refresh (feedCollaborators 0.001)
        { threadModeAt600 with Enc1 := threadModeAt600.Mode_Array_Pos } = some (s1, calls) ∧
      (threadModeAt600.Mode_Array_Pos = 0 →
        s1 = feedDraw (Feed_Adjust (Feed_Clear ((feedCollaborators 0.001).Mode_0_Feed_Controls
          (Seven_Segment { threadModeAt600 with Enc1 := threadModeAt600.Mode_Array_Pos }))))
            [ .display ]) ∧
      (threadModeAt600.Mode_Array_Pos = 3 →
        s1 = feedDraw ((feedCollaborators 0.001).Auto_Feed_Adjust
          ((feedCollaborators 0.001).Auto_Feed_Clear
            ((feedCollaborators 0.001).Mode_3_Auto_Turn_Controls
              (Seven_Segment { threadModeAt600 with Enc1 := threadModeAt600.Mode_Array_Pos }))))
            [ .display ]) ∧
      (threadModeAt600.Mode_Array_Pos ≠ 0 → threadModeAt600.Mode_Array_Pos ≠ 3 →
        s1 = Seven_Segment { threadModeAt600 with Enc1 := threadModeAt600.Mode_Array_Pos } ∧
        s1.Enc1 = threadModeAt600.Mode_Array_Pos)) ∧
    (∃ s1 calls, Refresh (feedCollaborators 0.001) radiusStopped = some (s1, calls) ∧
      (Seven_Segment radiusStopped).Enc1 = radiusStopped.Enc1 ∧
      (∃ fd v gd, s1 = { (feedCollaborators 0.001).Interface (Seven_Segment radiusStopped) with
        Feed_Display := fd, ctr := v, Graph_Display := gd }) ∧
      s1.Enc1 = ((feedCollaborators 0.001).Interface (Seven_Segment radiusStopped)).Enc1 ∧
      (((feedCollaborators 0.001).Interface (Seven_Segment radiusStopped)).Enc1 =
        radiusStopped.Enc1 → s1.Enc1 = radiusStopped.Enc1)) :=
  ⟨⟨by decide, by decide⟩,
    Refresh_mode_locked (feedCollaborators 0.001) threadModeAt600 radiusStopped
      (by norm_num [threadModeAt600, initial])
      (feedCollaborators_keepSpindleRPM 0.001) (feedCollaborators_keepMode 0.001) rfl
      (by decide)
      (Or.inr ⟨by norm_num [feedCollaborators, Seven_Segment, radiusStopped, initial],
        by decide, by decide⟩)⟩

/-- C19: one call of `Refresh()`, the handlers outside the sources leaving
`SpindleRPM` and `Mode_Array_Pos` alone and, with the spindle stopped, the menu
drawable after `Interface()`. The call returns and invokes `Mode_0_Feed_Controls`
exactly when `Mode_Array_Pos == 0` and `SpindleRPM != 0`, `Interface` and
`Main_Menu` exactly when `SpindleRPM == 0`, never both branches. In Feed mode with
the spindle turning it applies `Mode_0_Feed_Controls`, then `Feed_Clear`, then
`Feed_Adjust` to the state and shows the result; in A-Turn mode it applies the
three A-Turn handlers; in every other mode with the spindle turning it invokes no
input handler at all; with the spindle stopped it applies `Interface`, `Main_Menu`
and `graph_Radius_Array`. -/
theorem Refresh_handlers (c : Collaborators) (s : Globals) (hk : c.keepSpindleRPM)
    (hm : c.keepMode)
    (hv : s.SpindleRPM = 0 → validIndices (c.Interface (Seven_Segment s)) ∧
      radiusTablesCover (c.Interface (Seven_Segment s))) :
    ∃ s1 calls, Refresh c s = some (s1, calls) ∧
      (Call.Mode_0_Feed_Controls ∈ calls ↔ s.Mode_Array_Pos = 0 ∧ s.SpindleRPM ≠ 0) ∧
      (Call.Interface ∈ calls ↔ s.SpindleRPM = 0) ∧
      (Call.Main_Menu ∈ calls ↔ s.SpindleRPM = 0) ∧
      ¬ (Call.Mode_0_Feed_Controls ∈ calls ∧ Call.Interface ∈ calls) ∧
      (s.SpindleRPM ≠ 0 → s.Mode_Array_Pos = 0 →
        calls = [Call.Seven_Segment, Call.Mode_0_Feed_Controls, Call.Feed_Clear,
          Call.Feed_Adjust] ∧
        s1 = feedDraw (Feed_Adjust (Feed_Clear (c.Mode_0_Feed_Controls
          (Seven_Segment { s with Enc1 := s.Mode_Array_Pos })))) [ .display ]) ∧
      (s.SpindleRPM ≠ 0 → s.Mode_Array_Pos = 3 →
        calls = [Call.Seven_Segment, Call.Mode_3_Auto_Turn_Controls, Call.Auto_Feed_Clear,
          Call.Auto_Feed_Adjust] ∧
        s1 = feedDraw (c.Auto_Feed_Adjust (c.Auto_Feed_Clear (c.Mode_3_Auto_Turn_Controls
          (Seven_Segment { s with Enc1 := s.Mode_Array_Pos })))) [ .display ]) ∧
      (s.SpindleRPM ≠ 0 → s.Mode_Array_Pos ≠ 0 → s.Mode_Array_Pos ≠ 3 →
        calls = [Call.Seven_Segment] ∧
        s1 = Seven_Segment { s with Enc1 := s.Mode_Array_Pos }) ∧
      (s.SpindleRPM = 0 →
        calls = [Call.Seven_Segment, Call.Interface, Call.Main_Menu,
          Call.graph_Radius_Array] ∧
        ∃ sM sG, Main_Menu (c.Interface (Seven_Segment s)) = some sM ∧
          graph_Radius_Array { feedDraw sM [ .display ] with
            Graph_Display := (feedDraw sM [ .display ]).Graph_Display ++ [ .clearDisplay ] } =
              some sG ∧
          s1 = { sG with Graph_Display := sG.Graph_Display ++ [ .display ] }) := by
  by_cases hr : s.SpindleRPM = 0
  · obtain ⟨hv1, hg1⟩ := hv hr
    have hI : (c.Interface (Seven_Segment s)).SpindleRPM = 0 := by
      rw [(hk _).1]; exact hr
    obtain ⟨sM, sG, hM, hG, hR, _, _⟩ := Refresh_stopped_returns c s hr hI hv1 hg1
    refine ⟨_, _, hR, ?_, ?_, ?_, ?_, fun h => absurd hr h, fun h => absurd hr h,
      fun h => absurd hr h, fun _ => ⟨rfl, sM, sG, hM, hG, rfl⟩⟩
    · simp [hr]
    · simp [hr]
    · simp [hr]
    · simp
  · by_cases h0 : s.Mode_Array_Pos = 0
    · have hR : (c.Mode_0_Feed_Controls
          (Seven_Segment { s with Enc1 := s.Mode_Array_Pos })).SpindleRPM ≠ 0 := by
        rw [(hk _).2.1]; exact hr
      have hM : (c.Mode_0_Feed_Controls
          (Seven_Segment { s with Enc1 := s.Mode_Array_Pos })).Mode_Array_Pos ≠ 3 := by
        rw [(hm _).1]
        show s.Mode_Array_Pos ≠ 3
        rw [h0]; decide
      refine ⟨_, _, Refresh_turning_feed c s hr h0 hR hM, ?_, ?_, ?_, ?_,
        fun _ _ => ⟨rfl, rfl⟩, fun _ h3 => ?_, fun _ hn => absurd h0 hn, fun h => absurd h hr⟩
      · simp [h0, hr]
      · simp [hr]
      · simp [hr]
      · simp
      · rw [h0] at h3
        exact absurd h3 (by decide)
    · by_cases h3 : s.Mode_Array_Pos = 3
      · have hR : (c.Auto_Feed_Adjust (c.Auto_Feed_Clear (c.Mode_3_Auto_Turn_Controls
            (Seven_Segment { s with Enc1 := s.Mode_Array_Pos })))).SpindleRPM ≠ 0 := by
          rw [(hk _).2.2.2.2, (hk _).2.2.2.1, (hk _).2.2.1]; exact hr
        refine ⟨_, _, Refresh_turning_auto c s hr h3 hR, ?_, ?_, ?_, ?_,
          fun _ h => absurd h h0, fun _ _ => ⟨rfl, rfl⟩, fun _ _ hn => absurd h3 hn,
          fun h => absurd h hr⟩
        · simp [h0]
        · simp [hr]
        · simp [hr]
        · simp
      · refine ⟨_, _, Refresh_turning_other c s hr h0 h3, ?_, ?_, ?_, ?_,
          fun _ h => absurd h h0, fun _ h => absurd h h3, fun _ _ _ => ⟨rfl, rfl⟩,
          fun h => absurd h hr⟩
        · simp [h0]
        · simp [hr]
        · simp [hr]
        · simp

theorem Refresh_handlers_witness :
    radiusStopped.SpindleRPM = 0 ∧
    ∃ s1 calls, Refresh (feedCollaborators 0.001) radiusStopped = some (s1, calls) ∧
      (Call.Mode_0_Feed_Controls ∈ calls ↔
        radiusStopped.Mode_Array_Pos = 0 ∧ radiusStopped.SpindleRPM ≠ 0) ∧
      (Call.Interface ∈ calls ↔ radiusStopped.SpindleRPM = 0) ∧
      (Call.Main_Menu ∈ calls ↔ radiusStopped.SpindleRPM = 0) ∧
      ¬ (Call.Mode_0_Feed_Controls ∈ calls ∧ Call.Interface ∈ calls) ∧
      (radiusStopped.SpindleRPM ≠ 0 → radiusStopped.Mode_Array_Pos = 0 →
        calls = [Call.Seven_Segment, Call.Mode_0_Feed_Controls, Call.Feed_Clear,
          Call.Feed_Adjust] ∧
        s1 = feedDraw (Feed_Adjust (Feed_Clear ((feedCollaborators 0.001).Mode_0_Feed_Controls
          (Seven_Segment { radiusStopped with Enc1 := radiusStopped.Mode_Array_Pos }))))
            [ .display ]) ∧
      (radiusStopped.SpindleRPM ≠ 0 → radiusStopped.Mode_Array_Pos = 3 →
        calls = [Call.Seven_Segment, Call.Mode_3_Auto_Turn_Controls, Call.Auto_Feed_Clear,
          Call.Auto_Feed_Adjust] ∧
        s1 = feedDraw ((feedCollaborators 0.001).Auto_Feed_Adjust
          ((feedCollaborators 0.001).Auto_Feed_Clear
            ((feedCollaborators 0.001).Mode_3_Auto_Turn_Controls
              (Seven_Segment { radiusStopped with Enc1 := radiusStopped.Mode_Array_Pos }))))
            [ .display ]) ∧
      (radiusStopped.SpindleRPM ≠ 0 → radiusStopped.Mode_Array_Pos ≠ 0 →
        radiusStopped.Mode_Array_Pos ≠ 3 →
        calls = [Call.Seven_Segment] ∧
        s1 = Seven_Segment { radiusStopped with Enc1 := radiusStopped.Mode_Array_Pos }) ∧
      (radiusStopped.SpindleRPM = 0 →
        calls = [Call.Seven_Segment, Call.Interface, Call.Main_Menu,
          Call.graph_Radius_Array] ∧
        ∃ sM sG, Main_Menu ((feedCollaborators 0.001).Interface
            (Seven_Segment radiusStopped)) = some sM ∧
          graph_Radius_Array { feedDraw sM [ .display ] with
            Graph_Display := (feedDraw sM [ .display ]).Graph_Display ++ [ .clearDisplay ] } =
              some sG ∧
          s1 = { sG with Graph_Display := sG.Graph_Display ++ [ .display ] }) :=
  ⟨rfl, Refresh_handlers (feedCollaborators 0.001) radiusStopped
    (feedCollaborators_keepSpindleRPM 0.001) (feedCollaborators_keepMode 0.001)
    (fun _ => ⟨by decide,
      Or.inr ⟨by norm_num [feedCollaborators, Seven_Segment, radiusStopped, initial],
        by decide, by decide⟩⟩)⟩

/-! ## The metric constant -/

/-- C20: the metric constant 0.00155 is `1 / 25.4^2` to within `1e-5`
(`|0.00155 * 25.4^2 - 1| < 1e-5`); for every pitch `P > 0` and every spindle
speed `R` the metric leadscrew RPM `0.00155 * R * LeadScrew_TPI * P^2` agrees
with the inch formula `LeadScrew_TPI * R / T^2` at `T = 25.4 / P` to within a
relative error of `1e-5`, and the `rpm` that `Thread()` stores in pitch format
for a table pitch is that metric value. -/
theorem metric_constant_is_unit_conversion (s : Globals) (hm : s.Thread_Mode = 1)
    (h0 : 0 ≤ s.Pitch_Array_Pos) (h1 : s.Pitch_Array_Pos < 21) (P R : ℚ) (hP : 0 < P) :
    |(0.00155 : ℚ) * 25.4 ^ 2 - 1| < 0.00001 ∧
    |0.00155 * R * (LeadScrew_TPI : ℚ) * P ^ 2 - (LeadScrew_TPI : ℚ) * R / (25.4 / P) ^ 2| ≤
      0.00001 * |(LeadScrew_TPI : ℚ) * R / (25.4 / P) ^ 2| ∧
    ∃ p s1, index Pitch_Array s.Pitch_Array_Pos = some p ∧ Thread s = some s1 ∧
      s1.rpm = 0.00155 * s.SpindleRPM * (LeadScrew_TPI : ℚ) * p ^ 2 ∧
      |s1.rpm - (LeadScrew_TPI : ℚ) * s.SpindleRPM / (25.4 / p) ^ 2| ≤
        0.00001 * |(LeadScrew_TPI : ℚ) * s.SpindleRPM / (25.4 / p) ^ 2| := by
  have key : ∀ (Q S : ℚ), 0 < Q →
      |0.00155 * S * (LeadScrew_TPI : ℚ) * Q ^ 2 - (LeadScrew_TPI : ℚ) * S / (25.4 / Q) ^ 2| ≤
        0.00001 * |(LeadScrew_TPI : ℚ) * S / (25.4 / Q) ^ 2| := by
    intro Q S hQ
    have hq : Q ≠ 0 := ne_of_gt hQ
    have e : 0.00155 * S * (LeadScrew_TPI : ℚ) * Q ^ 2 - (LeadScrew_TPI : ℚ) * S / (25.4 / Q) ^ 2 =
        (-0.000002) * ((LeadScrew_TPI : ℚ) * S / (25.4 / Q) ^ 2) := by
      field_simp
      ring
    rw [e, abs_mul]
    have h2 : |(-0.000002 : ℚ)| = 0.000002 := by
      rw [abs_neg, abs_of_pos (by norm_num)]
    rw [h2]
    have hn := abs_nonneg ((LeadScrew_TPI : ℚ) * S / (25.4 / Q) ^ 2)
    nlinarith
  refine ⟨?_, key P R hP, ?_⟩
  · rw [abs_lt]
    constructor <;> norm_num
  · obtain ⟨p, hp, hp0⟩ := Pitch_lookup _ h0 h1
    refine ⟨p, _, hp, Thread_pitch s p hm hp, ?_, ?_⟩
    · show 0.00155 * s.SpindleRPM * (LeadScrew_TPI : ℚ) * (p * p) = _
      rw [pow_two]
    · show |0.00155 * s.SpindleRPM * (LeadScrew_TPI : ℚ) * (p * p) - _| ≤ _
      rw [← pow_two]
      exact key p s.SpindleRPM hp0

theorem metric_constant_is_unit_conversion_witness :
    |(0.00155 : ℚ) * 25.4 ^ 2 - 1| < 0.00001 ∧
    |0.00155 * 600 * (LeadScrew_TPI : ℚ) * (1.25 : ℚ) ^ 2 -
        (LeadScrew_TPI : ℚ) * 600 / (25.4 / 1.25) ^ 2| ≤
      0.00001 * |(LeadScrew_TPI : ℚ) * 600 / (25.4 / 1.25) ^ 2| ∧
    ∃ p s1, index Pitch_Array pitch1at600.Pitch_Array_Pos = some p ∧
      Thread pitch1at600 = some s1 ∧
      s1.rpm = 0.00155 * pitch1at600.SpindleRPM * (LeadScrew_TPI : ℚ) * p ^ 2 ∧
      |s1.rpm - (LeadScrew_TPI : ℚ) * pitch1at600.SpindleRPM / (25.4 / p) ^ 2| ≤
        0.00001 * |(LeadScrew_TPI : ℚ) * pitch1at600.SpindleRPM / (25.4 / p) ^ 2| :=
  metric_constant_is_unit_conversion pitch1at600 rfl (by decide) (by decide) 1.25 600
    (by norm_num)

/-! ## Speed limit and linearity of the commanded speed -/

/-- C21, as stated, fails: in inch format with 1 TPI selected (index 0) and the
spindle at 600 RPM, `Thread()` stores a leadscrew RPM of 6000 and commands
80000 steps per second, above `MaxLeadRPM = 1500` and 20000. -/
theorem Thread_exceeds_MaxLeadRPM :
    validThreadSelection inch1at600 ∧ 0 ≤ inch1at600.SpindleRPM ∧ MaxLeadRPM = 1500 ∧
    (Thread inch1at600).map (fun s1 => (s1.rpm, commandedSpeed s1)) =
      some (6000, some 80000) ∧
    ((MaxLeadRPM : Int) : ℚ) < 6000 ∧ (1500 / 60 * 800 : ℚ) < 80000 := by
  refine ⟨by decide, by norm_num [inch1at600, initial], rfl, ?_, by norm_num [MaxLeadRPM],
    by norm_num⟩
  rw [Thread_inch inch1at600 1 rfl (by decide)]
  simp only [Option.map_some', commandedSpeed,
    List.getLast?_append_of_ne_nil _ (List.cons_ne_nil _ _), List.getLast?_singleton]
  norm_num [LeadScrew_TPI, LeadSPR, inch1at600, initial]

/-- C21, amended: `Thread()` does not consult `MaxLeadRPM`. For `Thread_Mode`
in `{0, 1}`, a valid index of the active table and every `SpindleRPM`, the
leadscrew RPM it stores is at most `MaxLeadRPM = 1500` exactly when
`SpindleRPM ≤ 150 * TPI^2` (inch format) or `0.0155 * Pitch^2 * SpindleRPM ≤
1500` (pitch format), and the commanded speed is at most `1500 / 60 * 800 =
20000` steps per second exactly when the RPM is at most 1500. -/
theorem Thread_within_MaxLeadRPM_iff (s : Globals) (hv : validThreadSelection s) :
    ∃ s1 v, Thread s = some s1 ∧ commandedSpeed s1 = some v ∧
      (v ≤ 20000 ↔ s1.rpm ≤ ((MaxLeadRPM : Int) : ℚ)) ∧
      (s.Thread_Mode = 0 → ∃ t : Int, index TPI_Array s.TPI_Array_Pos = some t ∧
        (s1.rpm ≤ ((MaxLeadRPM : Int) : ℚ) ↔ s.SpindleRPM ≤ 150 * ((t : ℚ) * (t : ℚ)))) ∧
      (s.Thread_Mode = 1 → ∃ p : ℚ, index Pitch_Array s.Pitch_Array_Pos = some p ∧
        (s1.rpm ≤ ((MaxLeadRPM : Int) : ℚ) ↔ 0.0155 * (p * p) * s.SpindleRPM ≤ 1500)) := by
  rcases hv with ⟨hm, h0, h1⟩ | ⟨hm, h0, h1⟩
  · obtain ⟨t, ht, ht1, _⟩ := TPI_lookup _ h0 h1
    have htq : (0 : ℚ) < (t : ℚ) := by
      have : (1 : ℚ) ≤ (t : ℚ) := by exact_mod_cast ht1
      linarith
    have htt : (0 : ℚ) < (t : ℚ) * (t : ℚ) := mul_pos htq htq
    refine ⟨_, (LeadScrew_TPI : ℚ) * s.SpindleRPM / ((t : ℚ) * (t : ℚ)) / 60 * (LeadSPR : ℚ),
      Thread_inch s t hm ht, ?_, ?_, ?_, ?_⟩
    · simp [commandedSpeed]
    · show (LeadScrew_TPI : ℚ) * s.SpindleRPM / ((t : ℚ) * (t : ℚ)) / 60 * (LeadSPR : ℚ) ≤ 20000 ↔
        (LeadScrew_TPI : ℚ) * s.SpindleRPM / ((t : ℚ) * (t : ℚ)) ≤ ((MaxLeadRPM : Int) : ℚ)
      simp only [LeadSPR, MaxLeadRPM]
      constructor <;> intro h <;> push_cast at * <;> linarith
    · intro _
      refine ⟨t, ht, ?_⟩
      show (LeadScrew_TPI : ℚ) * s.SpindleRPM / ((t : ℚ) * (t : ℚ)) ≤ ((MaxLeadRPM : Int) : ℚ) ↔ _
      simp only [LeadScrew_TPI, MaxLeadRPM]
      rw [div_le_iff₀ htt]
      constructor <;> intro h <;> push_cast at * <;> linarith
    · intro h; rw [hm] at h; cases h
  · obtain ⟨p, hp, hp0⟩ := Pitch_lookup _ h0 h1
    refine ⟨_, 0.00155 * s.SpindleRPM * (LeadScrew_TPI : ℚ) * (p * p) / 60 * (LeadSPR : ℚ),
      Thread_pitch s p hm hp, ?_, ?_, ?_, ?_⟩
    · simp [commandedSpeed]
    · show 0.00155 * s.SpindleRPM * (LeadScrew_TPI : ℚ) * (p * p) / 60 * (LeadSPR : ℚ) ≤ 20000 ↔
        0.00155 * s.SpindleRPM * (LeadScrew_TPI : ℚ) * (p * p) ≤ ((MaxLeadRPM : Int) : ℚ)
      simp only [LeadSPR, MaxLeadRPM]
      constructor <;> intro h <;> push_cast at * <;> linarith
    · intro h; rw [hm] at h; cases h
    · intro _
      refine ⟨p, hp, ?_⟩
      show 0.00155 * s.SpindleRPM * (LeadScrew_TPI : ℚ) * (p * p) ≤ ((MaxLeadRPM : Int) : ℚ) ↔ _
      simp only [LeadScrew_TPI, MaxLeadRPM]
      constructor <;> intro h <;> push_cast at * <;> linarith

theorem Thread_within_MaxLeadRPM_iff_witness :
    ∃ s1 v, Thread inch20at600 = some s1 ∧ commandedSpeed s1 = some v ∧
      (v ≤ 20000 ↔ s1.rpm ≤ ((MaxLeadRPM : Int) : ℚ)) ∧
      (inch20at600.Thread_Mode = 0 → ∃ t : Int,
        index TPI_Array inch20at600.TPI_Array_Pos = some t ∧
        (s1.rpm ≤ ((MaxLeadRPM : Int) : ℚ) ↔
          inch20at600.SpindleRPM ≤ 150 * ((t : ℚ) * (t : ℚ)))) ∧
      (inch20at600.Thread_Mode = 1 → ∃ p : ℚ,
        index Pitch_Array inch20at600.Pitch_Array_Pos = some p ∧
        (s1.rpm ≤ ((MaxLeadRPM : Int) : ℚ) ↔
          0.0155 * (p * p) * inch20at600.SpindleRPM ≤ 1500)) :=
  Thread_within_MaxLeadRPM_iff inch20at600 (by decide)

/-- C22: for fixed `Thread_Mode` in `{0, 1}` and a fixed valid index of the
active table, the speed `Thread()` passes to `LeadScrew.setSpeed` is a
homogeneous linear function of `SpindleRPM`: the speed at `c * R` is `c` times
the speed at `R` for all rationals `c` and `R`; it is 0 when `SpindleRPM == 0`
and strictly positive when `SpindleRPM > 0`. -/
theorem Thread_speed_linear (s : Globals) (hv : validThreadSelection s) (c R : ℚ) :
    ∃ v vc,
      (Thread { s with SpindleRPM := R }).bind commandedSpeed = some v ∧
      (Thread { s with SpindleRPM := c * R }).bind commandedSpeed = some vc ∧
      vc = c * v ∧ (R = 0 → v = 0) ∧ (0 < R → 0 < v) := by
  obtain ⟨k, hk, hall⟩ :=
    Thread_speed_factor s.Thread_Mode s.TPI_Array_Pos s.Pitch_Array_Pos hv
  obtain ⟨s1, g1, g2, _⟩ := hall { s with SpindleRPM := R } rfl rfl rfl
  obtain ⟨s2, e1, e2, _⟩ := hall { s with SpindleRPM := c * R } rfl rfl rfl
  refine ⟨k * R, k * (c * R), ?_, ?_, by ring, ?_, ?_⟩
  · rw [g1]
    simp [commandedSpeed, g2]
  · rw [e1]
    simp [commandedSpeed, e2]
  · intro h
    rw [h, mul_zero]
  · intro h
    exact mul_pos hk h

theorem Thread_speed_linear_witness :
    ∃ v vc,
      (Thread { inch20at600 with SpindleRPM := 300 }).bind commandedSpeed = some v ∧
      (Thread { inch20at600 with SpindleRPM := 2 * 300 }).bind commandedSpeed = some vc ∧
      vc = 2 * v ∧ ((300 : ℚ) = 0 → v = 0) ∧ ((0 : ℚ) < 300 → 0 < v) :=
  Thread_speed_linear inch20at600 (by decide) 2 300


/-! ## The prescale search returns the smallest usable prescaler -/

/-- The outcome of the Teensy 4 prescale search, by the number of halvings. -/
theorem Teensy4_prescaleLoop_closed (p0 : Nat) :
    (p0 ≤ 32767 ∧ Teensy4.prescaleLoop 8 p0 0 = some (p0, 0)) ∨
    (32767 < p0 ∧ p0 / 2 ≤ 32767 ∧
      Teensy4.prescaleLoop 8 p0 0 = some (p0 / 2, 1)) ∨
    (32767 < p0 / 2 ∧ p0 / 2 / 2 ≤ 32767 ∧
      Teensy4.prescaleLoop 8 p0 0 = some (p0 / 2 / 2, 2)) ∨
    (32767 < p0 / 2 / 2 ∧ p0 / 2 / 2 / 2 ≤ 32767 ∧
      Teensy4.prescaleLoop 8 p0 0 = some (p0 / 2 / 2 / 2, 3)) ∨
    (32767 < p0 / 2 / 2 / 2 ∧ p0 / 2 / 2 / 2 / 2 ≤ 32767 ∧
      Teensy4.prescaleLoop 8 p0 0 = some (p0 / 2 / 2 / 2 / 2, 4)) ∨
    (32767 < p0 / 2 / 2 / 2 / 2 ∧ p0 / 2 / 2 / 2 / 2 / 2 ≤ 32767 ∧
      Teensy4.prescaleLoop 8 p0 0 = some (p0 / 2 / 2 / 2 / 2 / 2, 5)) ∨
    (32767 < p0 / 2 / 2 / 2 / 2 / 2 ∧ p0 / 2 / 2 / 2 / 2 / 2 / 2 ≤ 32767 ∧
      Teensy4.prescaleLoop 8 p0 0 = some (p0 / 2 / 2 / 2 / 2 / 2 / 2, 6)) ∨
    (32767 < p0 / 2 / 2 / 2 / 2 / 2 / 2 ∧ p0 / 2 / 2 / 2 / 2 / 2 / 2 / 2 ≤ 32767 ∧
      Teensy4.prescaleLoop 8 p0 0 = some (p0 / 2 / 2 / 2 / 2 / 2 / 2 / 2, 7)) ∨
    (32767 < p0 / 2 / 2 / 2 / 2 / 2 / 2 / 2 ∧ Teensy4.prescaleLoop 8 p0 0 = some (32767, 7)) := by
  rw [show (8 : Nat) = 7 + 1 from rfl, Teensy4_prescaleLoop_step]
  by_cases c0 : p0 > 32767
  swap
  · rw [if_neg c0]; left; exact ⟨by omega, rfl⟩
  rw [if_pos c0, if_neg (by omega), show (7 : Nat) = 6 + 1 from rfl,
    Teensy4_prescaleLoop_step]
  by_cases c1 : p0 / 2 > 32767
  swap
  · rw [if_neg c1]; right; left; exact ⟨by omega, by omega, rfl⟩
  rw [if_pos c1, if_neg (by omega), show (6 : Nat) = 5 + 1 from rfl,
    Teensy4_prescaleLoop_step]
  by_cases c2 : p0 / 2 / 2 > 32767
  swap
  · rw [if_neg c2]; right; right; left; exact ⟨by omega, by omega, rfl⟩
  rw [if_pos c2, if_neg (by omega), show (5 : Nat) = 4 + 1 from rfl,
    Teensy4_prescaleLoop_step]
  by_cases c3 : p0 / 2 / 2 / 2 > 32767
  swap
  · rw [if_neg c3]; right; right; right; left; exact ⟨by omega, by omega, rfl⟩
  rw [if_pos c3, if_neg (by omega), show (4 : Nat) = 3 + 1 from rfl,
    Teensy4_prescaleLoop_step]
  by_cases c4 : p0 / 2 / 2 / 2 / 2 > 32767
  swap
  · rw [if_neg c4]; right; right; right; right; left; exact ⟨by omega, by omega, rfl⟩
  rw [if_pos c4, if_neg (by omega), show (3 : Nat) = 2 + 1 from rfl,
    Teensy4_prescaleLoop_step]
  by_cases c5 : p0 / 2 / 2 / 2 / 2 / 2 > 32767
  swap
  · rw [if_neg c5]; right; right; right; right; right; left; exact ⟨by omega, by omega, rfl⟩
  rw [if_pos c5, if_neg (by omega), show (2 : Nat) = 1 + 1 from rfl,
    Teensy4_prescaleLoop_step]
  by_cases c6 : p0 / 2 / 2 / 2 / 2 / 2 / 2 > 32767
  swap
  · rw [if_neg c6]; right; right; right; right; right; right; left; exact ⟨by omega, by omega, rfl⟩
  rw [if_pos c6, if_neg (by omega), show (1 : Nat) = 0 + 1 from rfl,
    Teensy4_prescaleLoop_step]
  by_cases c7 : p0 / 2 / 2 / 2 / 2 / 2 / 2 / 2 > 32767
  swap
  · rw [if_neg c7]; right; right; right; right; right; right; right; left; exact ⟨by omega, by omega, rfl⟩
  rw [if_pos c7, if_pos (by omega)]
  right; right; right; right; right; right; right; right; exact ⟨by omega, rfl⟩

/-- More fuel than the search needs does not change its outcome. -/
theorem Teensy4_prescaleLoop_fuel (fuel period prescale : Nat) (r : Nat × Nat)
    (h : Teensy4.prescaleLoop fuel period prescale = some r) :
    Teensy4.prescaleLoop (fuel + 1) period prescale = some r := by
  induction fuel generalizing period prescale with
  | zero => cases h
  | succ n ih =>
    rw [Teensy4_prescaleLoop_step] at h ⊢
    by_cases c : period > 32767
    · rw [if_pos c] at h ⊢
      by_cases d : prescale + 1 > 7
      · rw [if_pos d] at h ⊢
        exact h
      · rw [if_neg d] at h ⊢
        exact ih _ _ h
    · rw [if_neg c] at h ⊢
      exact h

theorem Teensy4_prescaleLoop_fuel_ge (p0 : Nat) (r : Nat × Nat)
    (h : Teensy4.prescaleLoop 8 p0 0 = some r) (fuel : Nat) (hf : 8 ≤ fuel) :
    Teensy4.prescaleLoop fuel p0 0 = some r := by
  induction fuel with
  | zero => omega
  | succ n ih =>
    by_cases h8 : n + 1 = 8
    · rw [h8]; exact h
    · exact Teensy4_prescaleLoop_fuel n p0 0 r (ih (by omega))

/-- C23: the prescale search of `setInterval` (Teensy 4 and Teensy 3.x
variants), `p0` being the initial 32-bit period count. If `p0 <= 32767` then
prescale = 0 and period = `p0`; otherwise, if some `k` in 1..7 has
`(p0 >> k) <= 32767`, prescale is the least such `k` and period = `p0 >> k`;
otherwise prescale = 7 and period = 32767. The loop ends within 8 tests for
every `p0` (8 or more units of fuel give this result), and these are the
period and prescale that `setInterval` stores. -/
theorem prescale_search_least (p0 : Nat) :
    ∃ period prescale,
      (∀ fuel, 8 ≤ fuel →
        Teensy4.prescaleLoop fuel p0 0 = some (period, prescale) ∧
        Teensy3.prescaleLoop fuel p0 0 = some (period, prescale)) ∧
      (p0 ≤ 32767 → prescale = 0 ∧ period = p0) ∧
      (32767 < p0 → (∃ k, 1 ≤ k ∧ k ≤ 7 ∧ p0 >>> k ≤ 32767) →
        1 ≤ prescale ∧ prescale ≤ 7 ∧ p0 >>> prescale ≤ 32767 ∧
        (∀ j, 1 ≤ j → j < prescale → 32767 < p0 >>> j) ∧ period = p0 >>> prescale) ∧
      (32767 < p0 → (∀ k, 1 ≤ k → k ≤ 7 → 32767 < p0 >>> k) →
        prescale = 7 ∧ period = 32767) ∧
      (∀ (b : Board) (t : TeensyTimerInterrupt) (interval cb : Nat),
        (toUInt32 (((b.F_BUS_ACTUAL : ℚ) / 2000000) * (interval : ℚ)) = p0 →
          Teensy4.setInterval b t interval (some cb) =
            some (true, Teensy4.store b t cb period prescale)) ∧
        (toUInt32 (((b.F_TIMER : ℚ) / 2000000) * (interval : ℚ)) = p0 →
          Teensy3.setInterval b t interval (some cb) =
            some (true, Teensy3.store b t cb period prescale))) := by
  rcases Teensy4_prescaleLoop_closed p0 with
    ⟨a, hl⟩ | ⟨a, b, hl⟩ | ⟨a, b, hl⟩ | ⟨a, b, hl⟩ | ⟨a, b, hl⟩ | ⟨a, b, hl⟩ | ⟨a, b, hl⟩ | ⟨a, b, hl⟩ | ⟨a, hl⟩
  · have hfuel : ∀ fuel, 8 ≤ fuel →
        Teensy4.prescaleLoop fuel p0 0 = some (p0, 0) ∧ Teensy3.prescaleLoop fuel p0 0 = some (p0, 0) := by
      intro fuel hf
      have h4 := Teensy4_prescaleLoop_fuel_ge p0 _ hl fuel hf
      exact ⟨h4, by rw [Teensy3_prescaleLoop_eq]; exact h4⟩
    have hset : ∀ (b : Board) (t : TeensyTimerInterrupt) (interval cb : Nat),
        (toUInt32 (((b.F_BUS_ACTUAL : ℚ) / 2000000) * (interval : ℚ)) = p0 →
          Teensy4.setInterval b t interval (some cb) =
            some (true, Teensy4.store b t cb p0 0)) ∧
        (toUInt32 (((b.F_TIMER : ℚ) / 2000000) * (interval : ℚ)) = p0 →
          Teensy3.setInterval b t interval (some cb) =
            some (true, Teensy3.store b t cb p0 0)) := by
      intro b t interval cb
      constructor
      · intro hp
        show Option.map _ (Teensy4.prescaleLoop 8 _ 0) = _
        rw [hp, hl]
        rfl
      · intro hp
        show Option.map _ (Teensy3.prescaleLoop 8 _ 0) = _
        rw [hp, Teensy3_prescaleLoop_eq, hl]
        rfl
    refine ⟨_, _, hfuel, ?_, ?_, ?_, hset⟩
    · intro _; exact ⟨rfl, rfl⟩
    · intro h; omega
    · intro h; omega
  · have hfuel : ∀ fuel, 8 ≤ fuel →
        Teensy4.prescaleLoop fuel p0 0 = some (p0 / 2, 1) ∧ Teensy3.prescaleLoop fuel p0 0 = some (p0 / 2, 1) := by
      intro fuel hf
      have h4 := Teensy4_prescaleLoop_fuel_ge p0 _ hl fuel hf
      exact ⟨h4, by rw [Teensy3_prescaleLoop_eq]; exact h4⟩
    have hset : ∀ (b : Board) (t : TeensyTimerInterrupt) (interval cb : Nat),
        (toUInt32 (((b.F_BUS_ACTUAL : ℚ) / 2000000) * (interval : ℚ)) = p0 →
          Teensy4.setInterval b t interval (some cb) =
            some (true, Teensy4.store b t cb (p0 / 2) 1)) ∧
        (toUInt32 (((b.F_TIMER : ℚ) / 2000000) * (interval : ℚ)) = p0 →
          Teensy3.setInterval b t interval (some cb) =
            some (true, Teensy3.store b t cb (p0 / 2) 1)) := by
      intro b t interval cb
      constructor
      · intro hp
        show Option.map _ (Teensy4.prescaleLoop 8 _ 0) = _
        rw [hp, hl]
        rfl
      · intro hp
        show Option.map _ (Teensy3.prescaleLoop 8 _ 0) = _
        rw [hp, Teensy3_prescaleLoop_eq, hl]
        rfl
    refine ⟨_, _, hfuel, ?_, ?_, ?_, hset⟩
    · intro h; omega
    · intro _ _
      refine ⟨by norm_num, by norm_num, ?_, ?_, ?_⟩
      · simp only [Nat.shiftRight_eq_div_pow]; omega
      · intro j j1 jk
        omega
      · simp only [Nat.shiftRight_eq_div_pow, pow_one]
    · intro _ hall
      have hk := hall 1 (by norm_num) (by norm_num)
      simp only [Nat.shiftRight_eq_div_pow] at hk
      omega
  · have hfuel : ∀ fuel, 8 ≤ fuel →
        Teensy4.prescaleLoop fuel p0 0 = some (p0 / 2 / 2, 2) ∧ Teensy3.prescaleLoop fuel p0 0 = some (p0 / 2 / 2, 2) := by
      intro fuel hf
      have h4 := Teensy4_prescaleLoop_fuel_ge p0 _ hl fuel hf
      exact ⟨h4, by rw [Teensy3_prescaleLoop_eq]; exact h4⟩
    have hset : ∀ (b : Board) (t : TeensyTimerInterrupt) (interval cb : Nat),
        (toUInt32 (((b.F_BUS_ACTUAL : ℚ) / 2000000) * (interval : ℚ)) = p0 →
          Teensy4.setInterval b t interval (some cb) =
            some (true, Teensy4.store b t cb (p0 / 2 / 2) 2)) ∧
        (toUInt32 (((b.F_TIMER : ℚ) / 2000000) * (interval : ℚ)) = p0 →
          Teensy3.setInterval b t interval (some cb) =
            some (true, Teensy3.store b t cb (p0 / 2 / 2) 2)) := by
      intro b t interval cb
      constructor
      · intro hp
        show Option.map _ (Teensy4.prescaleLoop 8 _ 0) = _
        rw [hp, hl]
        rfl
      · intro hp
        show Option.map _ (Teensy3.prescaleLoop 8 _ 0) = _
        rw [hp, Teensy3_prescaleLoop_eq, hl]
        rfl
    refine ⟨_, _, hfuel, ?_, ?_, ?_, hset⟩
    · intro h; omega
    · intro _ _
      refine ⟨by norm_num, by norm_num, ?_, ?_, ?_⟩
      · simp only [Nat.shiftRight_eq_div_pow]; omega
      · intro j j1 jk
        interval_cases j
        simp only [Nat.shiftRight_eq_div_pow]
        omega
      · simp only [Nat.shiftRight_eq_div_pow]; omega
    · intro _ hall
      have hk := hall 2 (by norm_num) (by norm_num)
      simp only [Nat.shiftRight_eq_div_pow] at hk
      omega
  · have hfuel : ∀ fuel, 8 ≤ fuel →
        Teensy4.prescaleLoop fuel p0 0 = some (p0 / 2 / 2 / 2, 3) ∧ Teensy3.prescaleLoop fuel p0 0 = some (p0 / 2 / 2 / 2, 3) := by
      intro fuel hf
      have h4 := Teensy4_prescaleLoop_fuel_ge p0 _ hl fuel hf
      exact ⟨h4, by rw [Teensy3_prescaleLoop_eq]; exact h4⟩
    have hset : ∀ (b : Board) (t : TeensyTimerInterrupt) (interval cb : Nat),
        (toUInt32 (((b.F_BUS_ACTUAL : ℚ) / 2000000) * (interval : ℚ)) = p0 →
          Teensy4.setInterval b t interval (some cb) =
            some (true, Teensy4.store b t cb (p0 / 2 / 2 / 2) 3)) ∧
        (toUInt32 (((b.F_TIMER : ℚ) / 2000000) * (interval : ℚ)) = p0 →
          Teensy3.setInterval b t interval (some cb) =
            some (true, Teensy3.store b t cb (p0 / 2 / 2 / 2) 3)) := by
      intro b t interval cb
      constructor
      · intro hp
        show Option.map _ (Teensy4.prescaleLoop 8 _ 0) = _
        rw [hp, hl]
        rfl
      · intro hp
        show Option.map _ (Teensy3.prescaleLoop 8 _ 0) = _
        rw [hp, Teensy3_prescaleLoop_eq, hl]
        rfl
    refine ⟨_, _, hfuel, ?_, ?_, ?_, hset⟩
    · intro h; omega
    · intro _ _
      refine ⟨by norm_num, by norm_num, ?_, ?_, ?_⟩
      · simp only [Nat.shiftRight_eq_div_pow]; omega
      · intro j j1 jk
        interval_cases j <;> simp only [Nat.shiftRight_eq_div_pow] <;> omega
      · simp only [Nat.shiftRight_eq_div_pow]; omega
    · intro _ hall
      have hk := hall 3 (by norm_num) (by norm_num)
      simp only [Nat.shiftRight_eq_div_pow] at hk
      omega
  · have hfuel : ∀ fuel, 8 ≤ fuel →
        Teensy4.prescaleLoop fuel p0 0 = some (p0 / 2 / 2 / 2 / 2, 4) ∧ Teensy3.prescaleLoop fuel p0 0 = some (p0 / 2 / 2 / 2 / 2, 4) := by
      intro fuel hf
      have h4 := Teensy4_prescaleLoop_fuel_ge p0 _ hl fuel hf
      exact ⟨h4, by rw [Teensy3_prescaleLoop_eq]; exact h4⟩
    have hset : ∀ (b : Board) (t : TeensyTimerInterrupt) (interval cb : Nat),
        (toUInt32 (((b.F_BUS_ACTUAL : ℚ) / 2000000) * (interval : ℚ)) = p0 →
          Teensy4.setInterval b t interval (some cb) =
            some (true, Teensy4.store b t cb (p0 / 2 / 2 / 2 / 2) 4)) ∧
        (toUInt32 (((b.F_TIMER : ℚ) / 2000000) * (interval : ℚ)) = p0 →
          Teensy3.setInterval b t interval (some cb) =
            some (true, Teensy3.store b t cb (p0 / 2 / 2 / 2 / 2) 4)) := by
      intro b t interval cb
      constructor
      · intro hp
        show Option.map _ (Teensy4.prescaleLoop 8 _ 0) = _
        rw [hp, hl]
        rfl
      · intro hp
        show Option.map _ (Teensy3.prescaleLoop 8 _ 0) = _
        rw [hp, Teensy3_prescaleLoop_eq, hl]
        rfl
    refine ⟨_, _, hfuel, ?_, ?_, ?_, hset⟩
    · intro h; omega
    · intro _ _
      refine ⟨by norm_num, by norm_num, ?_, ?_, ?_⟩
      · simp only [Nat.shiftRight_eq_div_pow]; omega
      · intro j j1 jk
        interval_cases j <;> simp only [Nat.shiftRight_eq_div_pow] <;> omega
      · simp only [Nat.shiftRight_eq_div_pow]; omega
    · intro _ hall
      have hk := hall 4 (by norm_num) (by norm_num)
      simp only [Nat.shiftRight_eq_div_pow] at hk
      omega
  · have hfuel : ∀ fuel, 8 ≤ fuel →
        Teensy4.prescaleLoop fuel p0 0 = some (p0 / 2 / 2 / 2 / 2 / 2, 5) ∧ Teensy3.prescaleLoop fuel p0 0 = some (p0 / 2 / 2 / 2 / 2 / 2, 5) := by
      intro fuel hf
      have h4 := Teensy4_prescaleLoop_fuel_ge p0 _ hl fuel hf
      exact ⟨h4, by rw [Teensy3_prescaleLoop_eq]; exact h4⟩
    have hset : ∀ (b : Board) (t : TeensyTimerInterrupt) (interval cb : Nat),
        (toUInt32 (((b.F_BUS_ACTUAL : ℚ) / 2000000) * (interval : ℚ)) = p0 →
          Teensy4.setInterval b t interval (some cb) =
            some (true, Teensy4.store b t cb (p0 / 2 / 2 / 2 / 2 / 2) 5)) ∧
        (toUInt32 (((b.F_TIMER : ℚ) / 2000000) * (interval : ℚ)) = p0 →
          Teensy3.setInterval b t interval (some cb) =
            some (true, Teensy3.store b t cb (p0 / 2 / 2 / 2 / 2 / 2) 5)) := by
      intro b t interval cb
      constructor
      · intro hp
        show Option.map _ (Teensy4.prescaleLoop 8 _ 0) = _
        rw [hp, hl]
        rfl
      · intro hp
        show Option.map _ (Teensy3.prescaleLoop 8 _ 0) = _
        rw [hp, Teensy3_prescaleLoop_eq, hl]
        rfl
    refine ⟨_, _, hfuel, ?_, ?_, ?_, hset⟩
    · intro h; omega
    · intro _ _
      refine ⟨by norm_num, by norm_num, ?_, ?_, ?_⟩
      · simp only [Nat.shiftRight_eq_div_pow]; omega
      · intro j j1 jk
        interval_cases j <;> simp only [Nat.shiftRight_eq_div_pow] <;> omega
      · simp only [Nat.shiftRight_eq_div_pow]; omega
    · intro _ hall
      have hk := hall 5 (by norm_num) (by norm_num)
      simp only [Nat.shiftRight_eq_div_pow] at hk
      omega
  · have hfuel : ∀ fuel, 8 ≤ fuel →
        Teensy4.prescaleLoop fuel p0 0 = some (p0 / 2 / 2 / 2 / 2 / 2 / 2, 6) ∧ Teensy3.prescaleLoop fuel p0 0 = some (p0 / 2 / 2 / 2 / 2 / 2 / 2, 6) := by
      intro fuel hf
      have h4 := Teensy4_prescaleLoop_fuel_ge p0 _ hl fuel hf
      exact ⟨h4, by rw [Teensy3_prescaleLoop_eq]; exact h4⟩
    have hset : ∀ (b : Board) (t : TeensyTimerInterrupt) (interval cb : Nat),
        (toUInt32 (((b.F_BUS_ACTUAL : ℚ) / 2000000) * (interval : ℚ)) = p0 →
          Teensy4.setInterval b t interval (some cb) =
            some (true, Teensy4.store b t cb (p0 / 2 / 2 / 2 / 2 / 2 / 2) 6)) ∧
        (toUInt32 (((b.F_TIMER : ℚ) / 2000000) * (interval : ℚ)) = p0 →
          Teensy3.setInterval b t interval (some cb) =
            some (true, Teensy3.store b t cb (p0 / 2 / 2 / 2 / 2 / 2 / 2) 6)) := by
      intro b t interval cb
      constructor
      · intro hp
        show Option.map _ (Teensy4.prescaleLoop 8 _ 0) = _
        rw [hp, hl]
        rfl
      · intro hp
        show Option.map _ (Teensy3.prescaleLoop 8 _ 0) = _
        rw [hp, Teensy3_prescaleLoop_eq, hl]
        rfl
    refine ⟨_, _, hfuel, ?_, ?_, ?_, hset⟩
    · intro h; omega
    · intro _ _
      refine ⟨by norm_num, by norm_num, ?_, ?_, ?_⟩
      · simp only [Nat.shiftRight_eq_div_pow]; omega
      · intro j j1 jk
        interval_cases j <;> simp only [Nat.shiftRight_eq_div_pow] <;> omega
      · simp only [Nat.shiftRight_eq_div_pow]; omega
    · intro _ hall
      have hk := hall 6 (by norm_num) (by norm_num)
      simp only [Nat.shiftRight_eq_div_pow] at hk
      omega
  · have hfuel : ∀ fuel, 8 ≤ fuel →
        Teensy4.prescaleLoop fuel p0 0 = some (p0 / 2 / 2 / 2 / 2 / 2 / 2 / 2, 7) ∧ Teensy3.prescaleLoop fuel p0 0 = some (p0 / 2 / 2 / 2 / 2 / 2 / 2 / 2, 7) := by
      intro fuel hf
      have h4 := Teensy4_prescaleLoop_fuel_ge p0 _ hl fuel hf
      exact ⟨h4, by rw [Teensy3_prescaleLoop_eq]; exact h4⟩
    have hset : ∀ (b : Board) (t : TeensyTimerInterrupt) (interval cb : Nat),
        (toUInt32 (((b.F_BUS_ACTUAL : ℚ) / 2000000) * (interval : ℚ)) = p0 →
          Teensy4.setInterval b t interval (some cb) =
            some (true, Teensy4.store b t cb (p0 / 2 / 2 / 2 / 2 / 2 / 2 / 2) 7)) ∧
        (toUInt32 (((b.F_TIMER : ℚ) / 2000000) * (interval : ℚ)) = p0 →
          Teensy3.setInterval b t interval (some cb) =
            some (true, Teensy3.store b t cb (p0 / 2 / 2 / 2 / 2 / 2 / 2 / 2) 7)) := by
      intro b t interval cb
      constructor
      · intro hp
        show Option.map _ (Teensy4.prescaleLoop 8 _ 0) = _
        rw [hp, hl]
        rfl
      · intro hp
        show Option.map _ (Teensy3.prescaleLoop 8 _ 0) = _
        rw [hp, Teensy3_prescaleLoop_eq, hl]
        rfl
    refine ⟨_, _, hfuel, ?_, ?_, ?_, hset⟩
    · intro h; omega
    · intro _ _
      refine ⟨by norm_num, by norm_num, ?_, ?_, ?_⟩
      · simp only [Nat.shiftRight_eq_div_pow]; omega
      · intro j j1 jk
        interval_cases j <;> simp only [Nat.shiftRight_eq_div_pow] <;> omega
      · simp only [Nat.shiftRight_eq_div_pow]; omega
    · intro _ hall
      have h7 := hall 7 (by norm_num) (by norm_num)
      simp only [Nat.shiftRight_eq_div_pow] at h7
      omega
  · have hfuel : ∀ fuel, 8 ≤ fuel →
        Teensy4.prescaleLoop fuel p0 0 = some (32767, 7) ∧ Teensy3.prescaleLoop fuel p0 0 = some (32767, 7) := by
      intro fuel hf
      have h4 := Teensy4_prescaleLoop_fuel_ge p0 _ hl fuel hf
      exact ⟨h4, by rw [Teensy3_prescaleLoop_eq]; exact h4⟩
    have hset : ∀ (b : Board) (t : TeensyTimerInterrupt) (interval cb : Nat),
        (toUInt32 (((b.F_BUS_ACTUAL : ℚ) / 2000000) * (interval : ℚ)) = p0 →
          Teensy4.setInterval b t interval (some cb) =
            some (true, Teensy4.store b t cb 32767 7)) ∧
        (toUInt32 (((b.F_TIMER : ℚ) / 2000000) * (interval : ℚ)) = p0 →
          Teensy3.setInterval b t interval (some cb) =
            some (true, Teensy3.store b t cb 32767 7)) := by
      intro b t interval cb
      constructor
      · intro hp
        show Option.map _ (Teensy4.prescaleLoop 8 _ 0) = _
        rw [hp, hl]
        rfl
      · intro hp
        show Option.map _ (Teensy3.prescaleLoop 8 _ 0) = _
        rw [hp, Teensy3_prescaleLoop_eq, hl]
        rfl
    refine ⟨_, _, hfuel, ?_, ?_, ?_, hset⟩
    · intro h; omega
    · intro _ hk
      obtain ⟨k, k1, k7, kle⟩ := hk
      exfalso
      interval_cases k <;> simp only [Nat.shiftRight_eq_div_pow] at kle <;> omega
    · intro _ _; exact ⟨rfl, rfl⟩

theorem prescale_search_least_witness :
    ∃ period prescale,
      (∀ fuel, 8 ≤ fuel →
        Teensy4.prescaleLoop fuel 2400000 0 = some (period, prescale) ∧
        Teensy3.prescaleLoop fuel 2400000 0 = some (period, prescale)) ∧
      (2400000 ≤ 32767 → prescale = 0 ∧ period = 2400000) ∧
      (32767 < 2400000 → (∃ k, 1 ≤ k ∧ k ≤ 7 ∧ 2400000 >>> k ≤ 32767) →
        1 ≤ prescale ∧ prescale ≤ 7 ∧ 2400000 >>> prescale ≤ 32767 ∧
        (∀ j, 1 ≤ j → j < prescale → 32767 < 2400000 >>> j) ∧ period = 2400000 >>> prescale) ∧
      (32767 < 2400000 → (∀ k, 1 ≤ k → k ≤ 7 → 32767 < 2400000 >>> k) →
        prescale = 7 ∧ period = 32767) ∧
      (∀ (b : Board) (t : TeensyTimerInterrupt) (interval cb : Nat),
        (toUInt32 (((b.F_BUS_ACTUAL : ℚ) / 2000000) * (interval : ℚ)) = 2400000 →
          Teensy4.setInterval b t interval (some cb) =
            some (true, Teensy4.store b t cb period prescale)) ∧
        (toUInt32 (((b.F_TIMER : ℚ) / 2000000) * (interval : ℚ)) = 2400000 →
          Teensy3.setInterval b t interval (some cb) =
            some (true, Teensy3.store b t cb period prescale))) :=
  prescale_search_least 2400000

end ELS
